import Mathlib

/-!
Verification of the `_crc` CPython extension module (`Modules/crcmodule.c`).

The development shallowly embeds the C code in Lean: `crc_u64` values are
natural numbers, with every C operation that can wrap truncated explicitly
modulo `2 ^ 64`; byte buffers are lists of `Fin 256`; the stateful
`crcu64_impl` record is passed and returned explicitly.  Definition names
follow the C symbols.
-/

namespace CrcModule

set_option maxRecDepth 40000

/-- Truncation of an unsigned 64-bit C arithmetic result (`crc_u64`). -/
def trunc64 (x : Nat) : Nat := x % 2 ^ 64

/-- Model of C `crc_u64_bitmask`: the LSb-aligned mask of `width` bits,
computed as in the source by shifting `0xFFFFFFFFFFFFFFFF` right. -/
def crc_u64_bitmask (width : Nat) : Nat :=
  0xFFFFFFFFFFFFFFFF >>> (64 - width)

/-- One stage of the swap cascades used by `crc_u64_bitswap` and
`crc_u64_byteswap`: `((x << sh) & mhi) | ((x >> sh) & mlo)`. -/
def swapStage (sh mhi mlo x : Nat) : Nat :=
  ((x <<< sh) &&& mhi) ||| ((x >>> sh) &&& mlo)

/-- Model of C `crc_u64_bitswap`: reverse the bits of a 64-bit word, then
shift right so that the low `width` bits of the input appear reversed,
LSb-aligned, in the output. -/
def crc_u64_bitswap (word : Nat) (width : Nat) : Nat :=
  (swapStage 1 0xAAAAAAAAAAAAAAAA 0x5555555555555555
    (swapStage 2 0xCCCCCCCCCCCCCCCC 0x3333333333333333
      (swapStage 4 0xF0F0F0F0F0F0F0F0 0x0F0F0F0F0F0F0F0F
        (swapStage 8 0xFF00FF00FF00FF00 0x00FF00FF00FF00FF
          (swapStage 16 0xFFFF0000FFFF0000 0x0000FFFF0000FFFF
            (swapStage 32 0xFFFFFFFF00000000 0x00000000FFFFFFFF
              word)))))) >>> (64 - width)

/-- Model of C `crc_u64_byteswap`: reverse the 8 bytes of a 64-bit word. -/
def crc_u64_byteswap (word : Nat) : Nat :=
  swapStage 8 0xFF00FF00FF00FF00 0x00FF00FF00FF00FF
    (swapStage 16 0xFFFF0000FFFF0000 0x0000FFFF0000FFFF
      (swapStage 32 0xFFFFFFFF00000000 0x00000000FFFFFFFF word))

/-- Model of the C `crc_config` descriptor. -/
structure crc_config where
  poly : Nat
  init : Nat
  xorout : Nat
  width : Nat
  refin : Bool
  refout : Bool
deriving DecidableEq

/-- Model of the C `crcu64_impl` state record.  The `bytewise`/`wordwise`
table pointers and the `update` function pointer are not part of the record:
tables are pure functions of the configuration fields (the C code tabulates
them once at construction and never mutates them), and the update-function
selection is modeled by `UpdateKernel` below. -/
structure crcu64_impl where
  init : Nat
  poly : Nat
  accum : Nat
  xorout : Nat
  result : Nat
  width : Nat
  refin : Bool
  refout : Bool
  dirty : Bool
deriving DecidableEq

deriving instance DecidableEq for Except

/-- Model of C `crcu64_impl_internalize`. -/
def crcu64_impl_internalize (impl : crcu64_impl) (value : Nat) : Nat :=
  if impl.refin then crc_u64_bitswap value impl.width
  else trunc64 (value <<< (64 - impl.width))

/-- Model of C `crcu64_impl_externalize`. -/
def crcu64_impl_externalize (impl : crcu64_impl) (value : Nat) : Nat :=
  if impl.refin then crc_u64_bitswap value impl.width
  else value >>> (64 - impl.width)

/-- Model of C `crcu64_impl_clear_default`. -/
def crcu64_impl_clear_default (impl : crcu64_impl) : crcu64_impl :=
  { impl with
    dirty := false
    accum := impl.init
    result := crcu64_impl_externalize impl impl.init }

/-- Model of C `crcu64_impl_clear_init`.  Note: the C function merely
asserts `init <= bitmask(width)`; it performs no run-time check. -/
def crcu64_impl_clear_init (impl : crcu64_impl) (init : Nat) : crcu64_impl :=
  { impl with
    dirty := false
    result := init
    accum := crcu64_impl_internalize impl init }

/-- One shift-and-conditional-XOR step of the reflected kernels:
`accum = (accum >> 1) ^ (poly if accum & 1 else 0)`. -/
def crc_step_reflected (poly accum : Nat) : Nat :=
  if accum &&& 1 ≠ 0 then (accum >>> 1) ^^^ poly else accum >>> 1

/-- One shift-and-conditional-XOR step of the non-reflected kernels:
`accum = (accum << 1) ^ (poly if accum & top else 0)`, in 64-bit arithmetic. -/
def crc_step_normal (poly accum : Nat) : Nat :=
  if accum &&& (1 <<< 63) ≠ 0 then trunc64 (accum <<< 1) ^^^ poly
  else trunc64 (accum <<< 1)

/-- Model of C `crcu64_impl_update_word`: feed `width` bits of `word`. -/
def crcu64_impl_update_word (impl : crcu64_impl) (word : Nat) (width : Nat) :
    crcu64_impl :=
  if width = 0 then impl
  else
    let accum :=
      if impl.refin then
        (crc_step_reflected impl.poly)^[width] (impl.accum ^^^ word)
      else
        (crc_step_normal impl.poly)^[width]
          (impl.accum ^^^ trunc64 (word <<< (64 - width)))
    { impl with accum := accum, dirty := true }

/-- One input byte of C `crcu64_impl_update_bitwise`. -/
def crcu64_update_byte_bitwise (refin : Bool) (poly accum byte : Nat) : Nat :=
  if refin then (crc_step_reflected poly)^[8] (accum ^^^ byte)
  else (crc_step_normal poly)^[8] (accum ^^^ trunc64 (byte <<< 56))

/-- Model of C `crcu64_impl_update_bitwise`. -/
def crcu64_impl_update_bitwise (impl : crcu64_impl) (data : List (Fin 256)) :
    crcu64_impl :=
  if data.isEmpty then impl
  else
    { impl with
      accum := data.foldl
        (fun a b => crcu64_update_byte_bitwise impl.refin impl.poly a b.val)
        impl.accum
      dirty := true }

/-- Model of C `crcu64_impl_tabulate_bytewise`: entry `byte` is the
accumulator produced by `crcu64_impl_update_word` on a zeroed accumulator.
The C code stores these 256 values in `impl->bytewise`. -/
def crcu64_impl_tabulate_bytewise (impl : crcu64_impl) : Nat → Nat :=
  fun byte => (crcu64_impl_update_word { impl with accum := 0 } byte 8).accum

/-- One input byte of C `crcu64_impl_update_bytewise`, given the lookup
table. -/
def crcu64_update_byte_bytewise (refin : Bool) (table : Nat → Nat)
    (accum byte : Nat) : Nat :=
  if refin then
    table ((byte ^^^ accum) &&& 0xFF) ^^^ (accum >>> 8)
  else
    trunc64 (accum <<< 8) ^^^ table ((byte ^^^ (accum >>> 56)) &&& 0xFF)

/-- Model of C `crcu64_impl_update_bytewise`; `impl->bytewise` is the table
tabulated from the engine configuration. -/
def crcu64_impl_update_bytewise (impl : crcu64_impl) (data : List (Fin 256)) :
    crcu64_impl :=
  if data.isEmpty then impl
  else
    let table := crcu64_impl_tabulate_bytewise impl
    { impl with
      accum := data.foldl
        (fun a b => crcu64_update_byte_bytewise impl.refin table a b.val)
        impl.accum
      dirty := true }

/-- Model of C `crcu64_impl_tabulate_wordwise`: slot `(slice, byte)` of the
slicing-by-8 table, byte-reversed when the host endianness does not match
`refin`.  The slice recurrence is the bytewise update with a zero byte. -/
def crcu64_impl_tabulate_wordwise (littleEndian : Bool) (impl : crcu64_impl) :
    Nat → Nat → Nat :=
  fun slice byte =>
    let bytewise := crcu64_impl_tabulate_bytewise impl
    let accum :=
      (fun a => crcu64_update_byte_bytewise impl.refin bytewise a 0)^[slice]
        (bytewise byte)
    if littleEndian != impl.refin then crc_u64_byteswap accum else accum

/-- Model of C `crcu64_wordwise_little`: combine the 8 accumulator bytes
through the slicing table, little-endian slot order. -/
def crcu64_wordwise_little (table : Nat → Nat → Nat) (accum : Nat) : Nat :=
  table 7 ((accum >>> 0) &&& 0xFF) ^^^
  table 6 ((accum >>> 8) &&& 0xFF) ^^^
  table 5 ((accum >>> 16) &&& 0xFF) ^^^
  table 4 ((accum >>> 24) &&& 0xFF) ^^^
  table 3 ((accum >>> 32) &&& 0xFF) ^^^
  table 2 ((accum >>> 40) &&& 0xFF) ^^^
  table 1 ((accum >>> 48) &&& 0xFF) ^^^
  table 0 ((accum >>> 56) &&& 0xFF)

/-- Model of C `crcu64_wordwise_big`: big-endian slot order. -/
def crcu64_wordwise_big (table : Nat → Nat → Nat) (accum : Nat) : Nat :=
  table 0 ((accum >>> 0) &&& 0xFF) ^^^
  table 1 ((accum >>> 8) &&& 0xFF) ^^^
  table 2 ((accum >>> 16) &&& 0xFF) ^^^
  table 3 ((accum >>> 24) &&& 0xFF) ^^^
  table 4 ((accum >>> 32) &&& 0xFF) ^^^
  table 5 ((accum >>> 40) &&& 0xFF) ^^^
  table 6 ((accum >>> 48) &&& 0xFF) ^^^
  table 7 ((accum >>> 56) &&& 0xFF)

/-- Value of an 8-byte `crc_u64` load on a little-endian host. -/
def crc_load_le (b0 b1 b2 b3 b4 b5 b6 b7 : Nat) : Nat :=
  b0 ||| b1 <<< 8 ||| b2 <<< 16 ||| b3 <<< 24 |||
  b4 <<< 32 ||| b5 <<< 40 ||| b6 <<< 48 ||| b7 <<< 56

/-- Value of an 8-byte `crc_u64` load on a big-endian host. -/
def crc_load_be (b0 b1 b2 b3 b4 b5 b6 b7 : Nat) : Nat :=
  b0 <<< 56 ||| b1 <<< 48 ||| b2 <<< 40 ||| b3 <<< 32 |||
  b4 <<< 24 ||| b5 <<< 16 ||| b6 <<< 8 ||| b7

/-- The 8-byte block loop of C `crcu64_impl_update_wordwise`: consume
blocks of 8 bytes while at least 8 remain, returning the loop accumulator
and the unconsumed tail. -/
def crcu64_wordwise_loop (littleEndian : Bool) (table : Nat → Nat → Nat) :
    Nat → List (Fin 256) → Nat × List (Fin 256)
  | accum, b0 :: b1 :: b2 :: b3 :: b4 :: b5 :: b6 :: b7 :: rest =>
      let word :=
        if littleEndian then
          crc_load_le b0.val b1.val b2.val b3.val b4.val b5.val b6.val b7.val
        else
          crc_load_be b0.val b1.val b2.val b3.val b4.val b5.val b6.val b7.val
      let accum := accum ^^^ word
      let accum :=
        if littleEndian then crcu64_wordwise_little table accum
        else crcu64_wordwise_big table accum
      crcu64_wordwise_loop littleEndian table accum rest
  | accum, rest => (accum, rest)

/-- Model of C `crcu64_impl_update_wordwise`.  `littleEndian` models
`is_little_endian()` and `addr` the address of the input buffer, which
determines the length of the bytewise alignment prologue. -/
def crcu64_impl_update_wordwise (littleEndian : Bool) (addr : Nat)
    (impl : crcu64_impl) (data : List (Fin 256)) : crcu64_impl :=
  if data.isEmpty then impl
  else
    let offset := addr % 8
    let pro := if offset ≠ 0 then min (8 - offset) data.length else 0
    let impl := crcu64_impl_update_bytewise impl (data.take pro)
    let data := data.drop pro
    if 8 ≤ data.length then
      let table := crcu64_impl_tabulate_wordwise littleEndian impl
      let accum0 :=
        if littleEndian != impl.refin then crc_u64_byteswap impl.accum
        else impl.accum
      let out := crcu64_wordwise_loop littleEndian table accum0 data
      let accum2 :=
        if littleEndian != impl.refin then crc_u64_byteswap out.1 else out.1
      crcu64_impl_update_bytewise
        { impl with accum := accum2, dirty := true } out.2
    else
      crcu64_impl_update_bytewise impl data

/-- Model of the `impl->update` function pointer: which kernel the engine
was configured with.  The wordwise kernel carries the host endianness and
the (unknowable) buffer address used for its alignment prologue. -/
inductive UpdateKernel
  | bitwise
  | bytewise
  | wordwise (littleEndian : Bool) (addr : Nat)
deriving DecidableEq

/-- Dispatch of `impl->update(impl, data, size)`. -/
def crcu64_run_update (kernel : UpdateKernel) (impl : crcu64_impl)
    (data : List (Fin 256)) : crcu64_impl :=
  match kernel with
  | .bitwise => crcu64_impl_update_bitwise impl data
  | .bytewise => crcu64_impl_update_bytewise impl data
  | .wordwise le addr => crcu64_impl_update_wordwise le addr impl data

/-- The constant zero buffer fed by `crcu64_impl_zero_bytes`. -/
def zeroBuf (n : Nat) : List (Fin 256) := List.replicate n 0

/-- Model of C `crcu64_impl_zero_bytes`: feed `numbytes` zero bytes through
the configured update function, in chunks of 256 plus a remainder. -/
def crcu64_impl_zero_bytes (kernel : UpdateKernel) (impl : crcu64_impl)
    (numbytes : Nat) : crcu64_impl :=
  if numbytes = 0 then impl
  else
    let impl :=
      (fun i => crcu64_run_update kernel i (zeroBuf 256))^[numbytes / 256] impl
    if numbytes % 256 ≠ 0 then
      crcu64_run_update kernel impl (zeroBuf (numbytes % 256))
    else impl

/-- Model of C `crcu64_impl_zero_bits`. -/
def crcu64_impl_zero_bits (kernel : UpdateKernel) (impl : crcu64_impl)
    (numbits : Nat) : crcu64_impl :=
  let impl := crcu64_impl_zero_bytes kernel impl (numbits / 8)
  crcu64_impl_update_word impl 0 (numbits % 8)

/-- Model of C `crcu64_impl_digest`: the returned value together with the
updated state (clearing `dirty` and refreshing the cached `result`). -/
def crcu64_impl_digest (impl : crcu64_impl) : Nat × crcu64_impl :=
  if impl.dirty then
    let accum := impl.accum
    let accum := if !impl.refin then accum >>> (64 - impl.width) else accum
    let accum :=
      if impl.refin = impl.refout then accum &&& crc_u64_bitmask impl.width
      else crc_u64_bitswap accum impl.width
    let result := accum ^^^ impl.xorout
    (result, { impl with dirty := false, result := result })
  else (impl.result, impl)

/-- Model of C `crcu64_impl_configure`: validate the nominal configuration
and produce the internalized engine state, or the error string the C code
reports. -/
def crcu64_impl_configure (config : crc_config) : Except String crcu64_impl :=
  if config.width > 64 ∨ config.width = 0 then .error "width out of range"
  else
    if config.poly > crc_u64_bitmask config.width ∨ config.poly = 0 then
      .error "poly out of range"
    else if config.init > crc_u64_bitmask config.width then
      .error "init out of range"
    else if config.xorout > crc_u64_bitmask config.width then
      .error "xorout out of range"
    else
      let impl0 : crcu64_impl :=
        { init := 0, poly := 0, accum := 0, xorout := 0, result := 0
          width := config.width, refin := config.refin
          refout := config.refout, dirty := false }
      .ok { impl0 with
            init := crcu64_impl_internalize impl0 config.init
            poly := crcu64_impl_internalize impl0 config.poly
            accum := crcu64_impl_internalize impl0 config.init
            xorout := config.xorout
            result := config.init }

/-- Model of C `crcu64_combine`: the returned CRC together with the state
of the `crcu64_impl` it ran on (the C function backs up and restores
`accum` and `dirty`, but not the cached `result`). -/
def crcu64_combine (kernel : UpdateKernel) (impl : crcu64_impl)
    (crc1 crc2 len2 : Nat) : Nat × crcu64_impl :=
  if len2 = 0 then (crc1, impl)
  else
    let dirtyBak := impl.dirty
    let accumBak := impl.accum
    let crc1 := crc1 ^^^ impl.xorout
    let crc2 := crc2 ^^^ impl.xorout
    let crc1 := if impl.refout then crc_u64_bitswap crc1 impl.width else crc1
    let crc2 := if impl.refout then crc_u64_bitswap crc2 impl.width else crc2
    let impl := crcu64_impl_clear_init impl crc1
    let impl := { impl with accum := impl.accum ^^^ impl.init }
    let impl := crcu64_impl_zero_bytes kernel impl len2
    let accum1 := impl.accum
    let impl := crcu64_impl_clear_init impl crc2
    let accum2 := impl.accum
    let impl := { impl with accum := accum1 ^^^ accum2, dirty := true }
    let out := crcu64_impl_digest impl
    (out.1, { out.2 with accum := accumBak, dirty := dirtyBak })

/-- Model of the Python-visible CRC object: the implementation state plus
the configured update kernel. -/
structure crcu64object where
  impl : crcu64_impl
  kernel : UpdateKernel
deriving DecidableEq

/-- Engine construction (`_crc_crc_impl` without an initial buffer):
validate and internalize the configuration, and record the kernel chosen
by `crc_parse_method`/`crcu64_apply_method`.  Table construction leaves the
engine state unchanged (the C code backs up and restores `accum`/`dirty`). -/
def crc_new (config : crc_config) (kernel : UpdateKernel) :
    Except String crcu64object :=
  match crcu64_impl_configure config with
  | .error e => .error e
  | .ok impl => .ok { impl := impl, kernel := kernel }

/-- Model of `_crc_crcu64_update_impl`. -/
def crc_update (obj : crcu64object) (data : List (Fin 256)) : crcu64object :=
  { obj with impl := crcu64_run_update obj.kernel obj.impl data }

/-- Model of `_crc.crcu64.__index__` / digest-value extraction: the digest
integer together with the updated object. -/
def crc_digest (obj : crcu64object) : Nat × crcu64object :=
  let out := crcu64_impl_digest obj.impl
  (out.1, { obj with impl := out.2 })

/-- Model of `_crc_crcu64_combine_impl` (the facade): it validates the
arguments, copies the engine state into a local, runs `crcu64_combine` on
the local copy, and leaves the engine itself untouched. -/
def crcu64_combine_facade (obj : crcu64object) (crc1 crc2 len2 : Nat) :
    Except String Nat × crcu64object :=
  if crc1 > crc_u64_bitmask obj.impl.width then
    (.error "crc1 out of range", obj)
  else if crc2 > crc_u64_bitmask obj.impl.width then
    (.error "crc2 out of range", obj)
  else (.ok (crcu64_combine obj.kernel obj.impl crc1 crc2 len2).1, obj)

/-- Model of `_crc_crcu64_clear_impl` with a user-supplied initial value:
the facade converts the Python integer to `crc_u64` and calls
`crcu64_impl_clear_init` without any range validation. -/
def crc_clear_with_init (obj : crcu64object) (init : Nat) : crcu64object :=
  { obj with impl := crcu64_impl_clear_init obj.impl init }

/-- One-shot digest: configure, consume `data`, digest.  Returns 0 for a
configuration the C constructor would reject. -/
def crc_oneshot (config : crc_config) (kernel : UpdateKernel)
    (data : List (Fin 256)) : Nat :=
  match crcu64_impl_configure config with
  | .error _ => 0
  | .ok impl => (crcu64_impl_digest (crcu64_run_update kernel impl data)).1

/-- One-shot combine on a freshly configured engine. -/
def crc_combine_oneshot (config : crc_config) (kernel : UpdateKernel)
    (crc1 crc2 len2 : Nat) : Nat :=
  match crcu64_impl_configure config with
  | .error _ => 0
  | .ok impl => (crcu64_combine kernel impl crc1 crc2 len2).1


/-- First half of the template catalogue (split only to keep list-literal
elaboration fast). -/
def crc_templatesA : List crc_config := [
  { poly := 0x0000000000000003, init := 0x0000000000000000, xorout := 0x0000000000000007, width := 3, refin := false, refout := false },  -- crc_3_gsm
  { poly := 0x0000000000000003, init := 0x0000000000000007, xorout := 0x0000000000000000, width := 3, refin := true, refout := true },  -- crc_3_rohc
  { poly := 0x0000000000000003, init := 0x0000000000000000, xorout := 0x0000000000000000, width := 4, refin := true, refout := true },  -- crc_4_g_704
  { poly := 0x0000000000000003, init := 0x000000000000000F, xorout := 0x000000000000000F, width := 4, refin := false, refout := false },  -- crc_4_interlaken
  { poly := 0x0000000000000009, init := 0x0000000000000009, xorout := 0x0000000000000000, width := 5, refin := false, refout := false },  -- crc_5_epc_c1g2
  { poly := 0x0000000000000015, init := 0x0000000000000000, xorout := 0x0000000000000000, width := 5, refin := true, refout := true },  -- crc_5_g_704
  { poly := 0x0000000000000005, init := 0x000000000000001F, xorout := 0x000000000000001F, width := 5, refin := true, refout := true },  -- crc_5_usb
  { poly := 0x0000000000000027, init := 0x000000000000003F, xorout := 0x0000000000000000, width := 6, refin := false, refout := false },  -- crc_6_cdma2000_a
  { poly := 0x0000000000000007, init := 0x000000000000003F, xorout := 0x0000000000000000, width := 6, refin := false, refout := false },  -- crc_6_cdma2000_b
  { poly := 0x0000000000000019, init := 0x0000000000000000, xorout := 0x0000000000000000, width := 6, refin := true, refout := true },  -- crc_6_darc
  { poly := 0x0000000000000003, init := 0x0000000000000000, xorout := 0x0000000000000000, width := 6, refin := true, refout := true },  -- crc_6_g_704
  { poly := 0x000000000000002F, init := 0x0000000000000000, xorout := 0x000000000000003F, width := 6, refin := false, refout := false },  -- crc_6_gsm
  { poly := 0x0000000000000009, init := 0x0000000000000000, xorout := 0x0000000000000000, width := 7, refin := false, refout := false },  -- crc_7_mmc
  { poly := 0x000000000000004F, init := 0x000000000000007F, xorout := 0x0000000000000000, width := 7, refin := true, refout := true },  -- crc_7_rohc
  { poly := 0x0000000000000045, init := 0x0000000000000000, xorout := 0x0000000000000000, width := 7, refin := false, refout := false },  -- crc_7_umts
  { poly := 0x000000000000002F, init := 0x00000000000000FF, xorout := 0x00000000000000FF, width := 8, refin := false, refout := false },  -- crc_8_autosar
  { poly := 0x00000000000000A7, init := 0x0000000000000000, xorout := 0x0000000000000000, width := 8, refin := true, refout := true },  -- crc_8_bluetooth
  { poly := 0x000000000000009B, init := 0x00000000000000FF, xorout := 0x0000000000000000, width := 8, refin := false, refout := false },  -- crc_8_cdma2000
  { poly := 0x0000000000000039, init := 0x0000000000000000, xorout := 0x0000000000000000, width := 8, refin := true, refout := true },  -- crc_8_darc
  { poly := 0x00000000000000D5, init := 0x0000000000000000, xorout := 0x0000000000000000, width := 8, refin := false, refout := false },  -- crc_8_dvb_s2
  { poly := 0x000000000000001D, init := 0x0000000000000000, xorout := 0x0000000000000000, width := 8, refin := false, refout := false },  -- crc_8_gsm_a
  { poly := 0x0000000000000049, init := 0x0000000000000000, xorout := 0x00000000000000FF, width := 8, refin := false, refout := false },  -- crc_8_gsm_b
  { poly := 0x000000000000001D, init := 0x00000000000000FF, xorout := 0x0000000000000000, width := 8, refin := false, refout := false },  -- crc_8_hitag
  { poly := 0x0000000000000007, init := 0x0000000000000000, xorout := 0x0000000000000055, width := 8, refin := false, refout := false },  -- crc_8_i_432_1
  { poly := 0x000000000000001D, init := 0x00000000000000FD, xorout := 0x0000000000000000, width := 8, refin := false, refout := false },  -- crc_8_i_code
  { poly := 0x000000000000009B, init := 0x0000000000000000, xorout := 0x0000000000000000, width := 8, refin := false, refout := false },  -- crc_8_lte
  { poly := 0x0000000000000031, init := 0x0000000000000000, xorout := 0x0000000000000000, width := 8, refin := true, refout := true },  -- crc_8_maxim_dow
  { poly := 0x000000000000001D, init := 0x00000000000000C7, xorout := 0x0000000000000000, width := 8, refin := false, refout := false },  -- crc_8_mifare_mad
  { poly := 0x0000000000000031, init := 0x00000000000000FF, xorout := 0x0000000000000000, width := 8, refin := false, refout := false },  -- crc_8_nrsc_5
  { poly := 0x000000000000002F, init := 0x0000000000000000, xorout := 0x0000000000000000, width := 8, refin := false, refout := false },  -- crc_8_opensafety
  { poly := 0x0000000000000007, init := 0x00000000000000FF, xorout := 0x0000000000000000, width := 8, refin := true, refout := true },  -- crc_8_rohc
  { poly := 0x000000000000001D, init := 0x00000000000000FF, xorout := 0x00000000000000FF, width := 8, refin := false, refout := false },  -- crc_8_sae_j1850
  { poly := 0x0000000000000007, init := 0x0000000000000000, xorout := 0x0000000000000000, width := 8, refin := false, refout := false },  -- crc_8_smbus
  { poly := 0x000000000000001D, init := 0x00000000000000FF, xorout := 0x0000000000000000, width := 8, refin := true, refout := true },  -- crc_8_tech_3250
  { poly := 0x000000000000009B, init := 0x0000000000000000, xorout := 0x0000000000000000, width := 8, refin := true, refout := true },  -- crc_8_wcdma
  { poly := 0x0000000000000233, init := 0x0000000000000000, xorout := 0x0000000000000000, width := 10, refin := false, refout := false },  -- crc_10_atm
  { poly := 0x00000000000003D9, init := 0x00000000000003FF, xorout := 0x0000000000000000, width := 10, refin := false, refout := false },  -- crc_10_cdma2000
  { poly := 0x0000000000000175, init := 0x0000000000000000, xorout := 0x00000000000003FF, width := 10, refin := false, refout := false },  -- crc_10_gsm
  { poly := 0x0000000000000385, init := 0x000000000000001A, xorout := 0x0000000000000000, width := 11, refin := false, refout := false },  -- crc_11_flexray
  { poly := 0x0000000000000307, init := 0x0000000000000000, xorout := 0x0000000000000000, width := 11, refin := false, refout := false },  -- crc_11_umts
  { poly := 0x0000000000000F13, init := 0x0000000000000FFF, xorout := 0x0000000000000000, width := 12, refin := false, refout := false },  -- crc_12_cdma2000
  { poly := 0x000000000000080F, init := 0x0000000000000000, xorout := 0x0000000000000000, width := 12, refin := false, refout := false },  -- crc_12_dect
  { poly := 0x0000000000000D31, init := 0x0000000000000000, xorout := 0x0000000000000FFF, width := 12, refin := false, refout := false },  -- crc_12_gsm
  { poly := 0x000000000000080F, init := 0x0000000000000000, xorout := 0x0000000000000000, width := 12, refin := false, refout := true },  -- crc_12_umts
  { poly := 0x0000000000001CF5, init := 0x0000000000000000, xorout := 0x0000000000000000, width := 13, refin := false, refout := false },  -- crc_13_bbc
  { poly := 0x0000000000000805, init := 0x0000000000000000, xorout := 0x0000000000000000, width := 14, refin := true, refout := true },  -- crc_14_darc
  { poly := 0x000000000000202D, init := 0x0000000000000000, xorout := 0x0000000000003FFF, width := 14, refin := false, refout := false },  -- crc_14_gsm
  { poly := 0x0000000000004599, init := 0x0000000000000000, xorout := 0x0000000000000000, width := 15, refin := false, refout := false },  -- crc_15_can
  { poly := 0x0000000000006815, init := 0x0000000000000000, xorout := 0x0000000000000001, width := 15, refin := false, refout := false },  -- crc_15_mpt1327
  { poly := 0x0000000000008005, init := 0x0000000000000000, xorout := 0x0000000000000000, width := 16, refin := true, refout := true },  -- crc_16_arc
  { poly := 0x000000000000C867, init := 0x000000000000FFFF, xorout := 0x0000000000000000, width := 16, refin := false, refout := false },  -- crc_16_cdma2000
  { poly := 0x0000000000008005, init := 0x000000000000FFFF, xorout := 0x0000000000000000, width := 16, refin := false, refout := false },  -- crc_16_cms
  { poly := 0x0000000000008005, init := 0x000000000000800D, xorout := 0x0000000000000000, width := 16, refin := false, refout := false },  -- crc_16_dds_110
  { poly := 0x0000000000000589, init := 0x0000000000000000, xorout := 0x0000000000000001, width := 16, refin := false, refout := false },  -- crc_16_dect_r
  { poly := 0x0000000000000589, init := 0x0000000000000000, xorout := 0x0000000000000000, width := 16, refin := false, refout := false },  -- crc_16_dect_x
  { poly := 0x0000000000003D65, init := 0x0000000000000000, xorout := 0x000000000000FFFF, width := 16, refin := true, refout := true }  -- crc_16_dnp
]

/-- Second half of the template catalogue. -/
def crc_templatesB : List crc_config := [
  { poly := 0x0000000000003D65, init := 0x0000000000000000, xorout := 0x000000000000FFFF, width := 16, refin := false, refout := false },  -- crc_16_en_13757
  { poly := 0x0000000000001021, init := 0x000000000000FFFF, xorout := 0x000000000000FFFF, width := 16, refin := false, refout := false },  -- crc_16_genibus
  { poly := 0x0000000000001021, init := 0x0000000000000000, xorout := 0x000000000000FFFF, width := 16, refin := false, refout := false },  -- crc_16_gsm
  { poly := 0x0000000000001021, init := 0x000000000000FFFF, xorout := 0x0000000000000000, width := 16, refin := false, refout := false },  -- crc_16_ibm_3740
  { poly := 0x0000000000001021, init := 0x000000000000FFFF, xorout := 0x000000000000FFFF, width := 16, refin := true, refout := true },  -- crc_16_ibm_sdlc
  { poly := 0x0000000000001021, init := 0x000000000000C6C6, xorout := 0x0000000000000000, width := 16, refin := true, refout := true },  -- crc_16_iso_iec_14443_3_a
  { poly := 0x0000000000001021, init := 0x0000000000000000, xorout := 0x0000000000000000, width := 16, refin := true, refout := true },  -- crc_16_kermit
  { poly := 0x0000000000006F63, init := 0x0000000000000000, xorout := 0x0000000000000000, width := 16, refin := false, refout := false },  -- crc_16_lj1200
  { poly := 0x0000000000005935, init := 0x000000000000FFFF, xorout := 0x0000000000000000, width := 16, refin := false, refout := false },  -- crc_16_m17
  { poly := 0x0000000000008005, init := 0x0000000000000000, xorout := 0x000000000000FFFF, width := 16, refin := true, refout := true },  -- crc_16_maxim_dow
  { poly := 0x0000000000001021, init := 0x000000000000FFFF, xorout := 0x0000000000000000, width := 16, refin := true, refout := true },  -- crc_16_mcrf4xx
  { poly := 0x0000000000008005, init := 0x000000000000FFFF, xorout := 0x0000000000000000, width := 16, refin := true, refout := true },  -- crc_16_modbus
  { poly := 0x000000000000080B, init := 0x000000000000FFFF, xorout := 0x0000000000000000, width := 16, refin := true, refout := true },  -- crc_16_nrsc_5
  { poly := 0x0000000000005935, init := 0x0000000000000000, xorout := 0x0000000000000000, width := 16, refin := false, refout := false },  -- crc_16_opensafety_a
  { poly := 0x000000000000755B, init := 0x0000000000000000, xorout := 0x0000000000000000, width := 16, refin := false, refout := false },  -- crc_16_opensafety_b
  { poly := 0x0000000000001DCF, init := 0x000000000000FFFF, xorout := 0x000000000000FFFF, width := 16, refin := false, refout := false },  -- crc_16_profibus
  { poly := 0x0000000000001021, init := 0x000000000000B2AA, xorout := 0x0000000000000000, width := 16, refin := true, refout := true },  -- crc_16_riello
  { poly := 0x0000000000001021, init := 0x0000000000001D0F, xorout := 0x0000000000000000, width := 16, refin := false, refout := false },  -- crc_16_spi_fujitsu
  { poly := 0x0000000000008BB7, init := 0x0000000000000000, xorout := 0x0000000000000000, width := 16, refin := false, refout := false },  -- crc_16_t10_dif
  { poly := 0x000000000000A097, init := 0x0000000000000000, xorout := 0x0000000000000000, width := 16, refin := false, refout := false },  -- crc_16_teledisk
  { poly := 0x0000000000001021, init := 0x00000000000089EC, xorout := 0x0000000000000000, width := 16, refin := true, refout := true },  -- crc_16_tms37157
  { poly := 0x0000000000008005, init := 0x0000000000000000, xorout := 0x0000000000000000, width := 16, refin := false, refout := false },  -- crc_16_umts
  { poly := 0x0000000000008005, init := 0x000000000000FFFF, xorout := 0x000000000000FFFF, width := 16, refin := true, refout := true },  -- crc_16_usb
  { poly := 0x0000000000001021, init := 0x0000000000000000, xorout := 0x0000000000000000, width := 16, refin := false, refout := false },  -- crc_16_xmodem
  { poly := 0x000000000001685B, init := 0x0000000000000000, xorout := 0x0000000000000000, width := 17, refin := false, refout := false },  -- crc_17_can_fd
  { poly := 0x0000000000102899, init := 0x0000000000000000, xorout := 0x0000000000000000, width := 21, refin := false, refout := false },  -- crc_21_can_fd
  { poly := 0x000000000000065B, init := 0x0000000000555555, xorout := 0x0000000000000000, width := 24, refin := true, refout := true },  -- crc_24_ble
  { poly := 0x00000000005D6DCB, init := 0x0000000000FEDCBA, xorout := 0x0000000000000000, width := 24, refin := false, refout := false },  -- crc_24_flexray_a
  { poly := 0x00000000005D6DCB, init := 0x0000000000ABCDEF, xorout := 0x0000000000000000, width := 24, refin := false, refout := false },  -- crc_24_flexray_b
  { poly := 0x0000000000328B63, init := 0x0000000000FFFFFF, xorout := 0x0000000000FFFFFF, width := 24, refin := false, refout := false },  -- crc_24_interlaken
  { poly := 0x0000000000864CFB, init := 0x0000000000000000, xorout := 0x0000000000000000, width := 24, refin := false, refout := false },  -- crc_24_lte_a
  { poly := 0x0000000000800063, init := 0x0000000000000000, xorout := 0x0000000000000000, width := 24, refin := false, refout := false },  -- crc_24_lte_b
  { poly := 0x0000000000864CFB, init := 0x0000000000B704CE, xorout := 0x0000000000000000, width := 24, refin := false, refout := false },  -- crc_24_openpgp
  { poly := 0x0000000000800063, init := 0x0000000000FFFFFF, xorout := 0x0000000000FFFFFF, width := 24, refin := false, refout := false },  -- crc_24_os_9
  { poly := 0x000000002030B9C7, init := 0x000000003FFFFFFF, xorout := 0x000000003FFFFFFF, width := 30, refin := false, refout := false },  -- crc_30_cdma
  { poly := 0x0000000004C11DB7, init := 0x000000007FFFFFFF, xorout := 0x000000007FFFFFFF, width := 31, refin := false, refout := false },  -- crc_31_philips
  { poly := 0x00000000814141AB, init := 0x0000000000000000, xorout := 0x0000000000000000, width := 32, refin := false, refout := false },  -- crc_32_aixm
  { poly := 0x00000000F4ACFB13, init := 0x00000000FFFFFFFF, xorout := 0x00000000FFFFFFFF, width := 32, refin := true, refout := true },  -- crc_32_autosar
  { poly := 0x00000000A833982B, init := 0x00000000FFFFFFFF, xorout := 0x00000000FFFFFFFF, width := 32, refin := true, refout := true },  -- crc_32_base91_d
  { poly := 0x0000000004C11DB7, init := 0x00000000FFFFFFFF, xorout := 0x00000000FFFFFFFF, width := 32, refin := false, refout := false },  -- crc_32_bzip2
  { poly := 0x000000008001801B, init := 0x0000000000000000, xorout := 0x0000000000000000, width := 32, refin := true, refout := true },  -- crc_32_cd_rom_edc
  { poly := 0x0000000004C11DB7, init := 0x0000000000000000, xorout := 0x00000000FFFFFFFF, width := 32, refin := false, refout := false },  -- crc_32_cksum
  { poly := 0x000000001EDC6F41, init := 0x00000000FFFFFFFF, xorout := 0x00000000FFFFFFFF, width := 32, refin := true, refout := true },  -- crc_32_iscsi
  { poly := 0x0000000004C11DB7, init := 0x00000000FFFFFFFF, xorout := 0x00000000FFFFFFFF, width := 32, refin := true, refout := true },  -- crc_32_iso_hdlc
  { poly := 0x0000000004C11DB7, init := 0x00000000FFFFFFFF, xorout := 0x0000000000000000, width := 32, refin := true, refout := true },  -- crc_32_jamcrc
  { poly := 0x00000000741B8CD7, init := 0x00000000FFFFFFFF, xorout := 0x0000000000000000, width := 32, refin := true, refout := true },  -- crc_32_mef
  { poly := 0x0000000004C11DB7, init := 0x00000000FFFFFFFF, xorout := 0x0000000000000000, width := 32, refin := false, refout := false },  -- crc_32_mpeg_2
  { poly := 0x00000000000000AF, init := 0x0000000000000000, xorout := 0x0000000000000000, width := 32, refin := false, refout := false },  -- crc_32_xfer
  { poly := 0x0000000004820009, init := 0x0000000000000000, xorout := 0x000000FFFFFFFFFF, width := 40, refin := false, refout := false },  -- crc_40_gsm
  { poly := 0x42F0E1EBA9EA3693, init := 0x0000000000000000, xorout := 0x0000000000000000, width := 64, refin := false, refout := false },  -- crc_64_ecma_182
  { poly := 0x000000000000001B, init := 0xFFFFFFFFFFFFFFFF, xorout := 0xFFFFFFFFFFFFFFFF, width := 64, refin := true, refout := true },  -- crc_64_go_iso
  { poly := 0x259C84CBA6426349, init := 0xFFFFFFFFFFFFFFFF, xorout := 0x0000000000000000, width := 64, refin := true, refout := true },  -- crc_64_ms
  { poly := 0xAD93D23594C93659, init := 0xFFFFFFFFFFFFFFFF, xorout := 0xFFFFFFFFFFFFFFFF, width := 64, refin := true, refout := true },  -- crc_64_nvme
  { poly := 0xAD93D23594C935A9, init := 0x0000000000000000, xorout := 0x0000000000000000, width := 64, refin := true, refout := true },  -- crc_64_redis
  { poly := 0x42F0E1EBA9EA3693, init := 0xFFFFFFFFFFFFFFFF, xorout := 0xFFFFFFFFFFFFFFFF, width := 64, refin := false, refout := false },  -- crc_64_we
  { poly := 0x42F0E1EBA9EA3693, init := 0xFFFFFFFFFFFFFFFF, xorout := 0xFFFFFFFFFFFFFFFF, width := 64, refin := true, refout := true }  -- crc_64_xz]
]

/-- The template catalogue `crc_templates`, in `crc_id` enumeration order. -/
def crc_templates : List crc_config := crc_templatesA ++ crc_templatesB

/-- Name table chunk A. -/
def crc_name_idsChunkA : List (Option (List Nat) × Nat) := [
  (some [97, 114, 99], 49),  -- "arc"
  (some [98, 45, 99, 114, 99, 45, 51, 50], 95),  -- "b-crc-32"
  (some [99, 107, 115, 117, 109], 97),  -- "cksum"
  (some [99, 114, 99, 45, 49, 48], 35),  -- "crc-10"
  (some [99, 114, 99, 45, 49, 48, 45, 97, 116, 109], 35),  -- "crc-10-atm"
  (some [99, 114, 99, 45, 49, 48, 45, 99, 100, 109, 97, 50, 48, 48, 48], 36),  -- "crc-10-cdma2000"
  (some [99, 114, 99, 45, 49, 48, 45, 103, 115, 109], 37),  -- "crc-10-gsm"
  (some [99, 114, 99, 45, 49, 48, 45, 105, 45, 54, 49, 48], 35),  -- "crc-10-i-610"
  (some [99, 114, 99, 45, 49, 49], 38),  -- "crc-11"
  (some [99, 114, 99, 45, 49, 49, 45, 102, 108, 101, 120, 114, 97, 121], 38),  -- "crc-11-flexray"
  (some [99, 114, 99, 45, 49, 49, 45, 117, 109, 116, 115], 39),  -- "crc-11-umts"
  (some [99, 114, 99, 45, 49, 50, 45, 51, 103, 112, 112], 43),  -- "crc-12-3gpp"
  (some [99, 114, 99, 45, 49, 50, 45, 99, 100, 109, 97, 50, 48, 48, 48], 40),  -- "crc-12-cdma2000"
  (some [99, 114, 99, 45, 49, 50, 45, 100, 101, 99, 116], 41),  -- "crc-12-dect"
  (some [99, 114, 99, 45, 49, 50, 45, 103, 115, 109], 42),  -- "crc-12-gsm"
  (some [99, 114, 99, 45, 49, 50, 45, 117, 109, 116, 115], 43),  -- "crc-12-umts"
  (some [99, 114, 99, 45, 49, 51, 45, 98, 98, 99], 44),  -- "crc-13-bbc"
  (some [99, 114, 99, 45, 49, 52, 45, 100, 97, 114, 99], 45),  -- "crc-14-darc"
  (some [99, 114, 99, 45, 49, 52, 45, 103, 115, 109], 46),  -- "crc-14-gsm"
  (some [99, 114, 99, 45, 49, 53], 47),  -- "crc-15"
  (some [99, 114, 99, 45, 49, 53, 45, 99, 97, 110], 47),  -- "crc-15-can"
  (some [99, 114, 99, 45, 49, 53, 45, 109, 112, 116, 49, 51, 50, 55], 48),  -- "crc-15-mpt1327"
  (some [99, 114, 99, 45, 49, 54], 49),  -- "crc-16"
  (some [99, 114, 99, 45, 49, 54, 45, 97, 99, 111, 114, 110], 79),  -- "crc-16-acorn"
  (some [99, 114, 99, 45, 49, 54, 45, 97, 114, 99], 49),  -- "crc-16-arc"
  (some [99, 114, 99, 45, 49, 54, 45, 97, 117, 103, 45, 99, 99, 105, 116, 116], 73),  -- "crc-16-aug-ccitt"
  (some [99, 114, 99, 45, 49, 54, 45, 97, 117, 116, 111, 115, 97, 114], 59),  -- "crc-16-autosar"
  (some [99, 114, 99, 45, 49, 54, 45, 98, 108, 117, 101, 116, 111, 111, 116, 104], 62),  -- "crc-16-bluetooth"
  (some [99, 114, 99, 45, 49, 54, 45, 98, 117, 121, 112, 97, 115, 115], 77),  -- "crc-16-buypass"
  (some [99, 114, 99, 45, 49, 54, 45, 99, 99, 105, 116, 116], 62),  -- "crc-16-ccitt"
  (some [99, 114, 99, 45, 49, 54, 45, 99, 99, 105, 116, 116, 45, 102, 97, 108, 115, 101], 59),  -- "crc-16-ccitt-false"
  (some [99, 114, 99, 45, 49, 54, 45, 99, 99, 105, 116, 116, 45, 116, 114, 117, 101], 62),  -- "crc-16-ccitt-true"
  (some [99, 114, 99, 45, 49, 54, 45, 99, 100, 109, 97, 50, 48, 48, 48], 50),  -- "crc-16-cdma2000"
  (some [99, 114, 99, 45, 49, 54, 45, 99, 109, 115], 51),  -- "crc-16-cms"
  (some [99, 114, 99, 45, 49, 54, 45, 100, 97, 114, 99], 57),  -- "crc-16-darc"
  (some [99, 114, 99, 45, 49, 54, 45, 100, 100, 115, 45, 49, 49, 48], 52),  -- "crc-16-dds-110"
  (some [99, 114, 99, 45, 49, 54, 45, 100, 101, 99, 116, 45, 114], 53),  -- "crc-16-dect-r"
  (some [99, 114, 99, 45, 49, 54, 45, 100, 101, 99, 116, 45, 120], 54),  -- "crc-16-dect-x"
  (some [99, 114, 99, 45, 49, 54, 45, 100, 110, 112], 55),  -- "crc-16-dnp"
  (some [99, 114, 99, 45, 49, 54, 45, 101, 110, 45, 49, 51, 55, 53, 55], 56),  -- "crc-16-en-13757"
  (some [99, 114, 99, 45, 49, 54, 45, 101, 112, 99], 57),  -- "crc-16-epc"
  (some [99, 114, 99, 45, 49, 54, 45, 101, 112, 99, 45, 99, 49, 103, 50], 57),  -- "crc-16-epc-c1g2"
  (some [99, 114, 99, 45, 49, 54, 45, 103, 101, 110, 105, 98, 117, 115], 57),  -- "crc-16-genibus"
  (some [99, 114, 99, 45, 49, 54, 45, 103, 115, 109], 58),  -- "crc-16-gsm"
  (some [99, 114, 99, 45, 49, 54, 45, 105, 45, 99, 111, 100, 101], 57),  -- "crc-16-i-code"
  (some [99, 114, 99, 45, 49, 54, 45, 105, 98, 109, 45, 51, 55, 52, 48], 59),  -- "crc-16-ibm-3740"
  (some [99, 114, 99, 45, 49, 54, 45, 105, 98, 109, 45, 115, 100, 108, 99], 60)  -- "crc-16-ibm-sdlc"
]

/-- Name table chunk B. -/
def crc_name_idsChunkB : List (Option (List Nat) × Nat) := [
  (some [99, 114, 99, 45, 49, 54, 45, 105, 101, 99, 45, 54, 49, 49, 53, 56, 45, 50], 71),  -- "crc-16-iec-61158-2"
  (some [99, 114, 99, 45, 49, 54, 45, 105, 115, 111, 45, 104, 100, 108, 99], 60),  -- "crc-16-iso-hdlc"
  (some [99, 114, 99, 45, 49, 54, 45, 105, 115, 111, 45, 105, 101, 99, 45, 49, 52, 52, 52, 51, 45, 51, 45, 97], 61),  -- "crc-16-iso-iec-14443-3-a"
  (some [99, 114, 99, 45, 49, 54, 45, 105, 115, 111, 45, 105, 101, 99, 45, 49, 52, 52, 52, 51, 45, 51, 45, 98], 60),  -- "crc-16-iso-iec-14443-3-b"
  (some [99, 114, 99, 45, 49, 54, 45, 107, 101, 114, 109, 105, 116], 62),  -- "crc-16-kermit"
  (some [99, 114, 99, 45, 49, 54, 45, 108, 104, 97], 49),  -- "crc-16-lha"
  (some [99, 114, 99, 45, 49, 54, 45, 108, 106, 49, 50, 48, 48], 63),  -- "crc-16-lj1200"
  (some [99, 114, 99, 45, 49, 54, 45, 108, 116, 101], 79),  -- "crc-16-lte"
  (some [99, 114, 99, 45, 49, 54, 45, 109, 49, 55], 64),  -- "crc-16-m17"
  (some [99, 114, 99, 45, 49, 54, 45, 109, 97, 120, 105, 109], 65),  -- "crc-16-maxim"
  (some [99, 114, 99, 45, 49, 54, 45, 109, 97, 120, 105, 109, 45, 100, 111, 119], 65),  -- "crc-16-maxim-dow"
  (some [99, 114, 99, 45, 49, 54, 45, 109, 99, 114, 102, 52, 120, 120], 66),  -- "crc-16-mcrf4xx"
  (some [99, 114, 99, 45, 49, 54, 45, 109, 111, 100, 98, 117, 115], 67),  -- "crc-16-modbus"
  (some [99, 114, 99, 45, 49, 54, 45, 110, 114, 115, 99, 45, 53], 68),  -- "crc-16-nrsc-5"
  (some [99, 114, 99, 45, 49, 54, 45, 111, 112, 101, 110, 115, 97, 102, 101, 116, 121, 45, 97], 69),  -- "crc-16-opensafety-a"
  (some [99, 114, 99, 45, 49, 54, 45, 111, 112, 101, 110, 115, 97, 102, 101, 116, 121, 45, 98], 70),  -- "crc-16-opensafety-b"
  (some [99, 114, 99, 45, 49, 54, 45, 112, 114, 111, 102, 105, 98, 117, 115], 71),  -- "crc-16-profibus"
  (some [99, 114, 99, 45, 49, 54, 45, 114, 105, 101, 108, 108, 111], 72),  -- "crc-16-riello"
  (some [99, 114, 99, 45, 49, 54, 45, 115, 112, 105, 45, 102, 117, 106, 105, 116, 115, 117], 73),  -- "crc-16-spi-fujitsu"
  (some [99, 114, 99, 45, 49, 54, 45, 116, 49, 48, 45, 100, 105, 102], 74),  -- "crc-16-t10-dif"
  (some [99, 114, 99, 45, 49, 54, 45, 116, 101, 108, 101, 100, 105, 115, 107], 75),  -- "crc-16-teledisk"
  (some [99, 114, 99, 45, 49, 54, 45, 116, 109, 115, 51, 55, 49, 53, 55], 76),  -- "crc-16-tms37157"
  (some [99, 114, 99, 45, 49, 54, 45, 117, 109, 116, 115], 77),  -- "crc-16-umts"
  (some [99, 114, 99, 45, 49, 54, 45, 117, 115, 98], 78),  -- "crc-16-usb"
  (some [99, 114, 99, 45, 49, 54, 45, 118, 45, 52, 49, 45, 108, 115, 98], 62),  -- "crc-16-v-41-lsb"
  (some [99, 114, 99, 45, 49, 54, 45, 118, 45, 52, 49, 45, 109, 115, 98], 79),  -- "crc-16-v-41-msb"
  (some [99, 114, 99, 45, 49, 54, 45, 118, 101, 114, 105, 102, 111, 110, 101], 77),  -- "crc-16-verifone"
  (some [99, 114, 99, 45, 49, 54, 45, 120, 45, 50, 53], 60),  -- "crc-16-x-25"
  (some [99, 114, 99, 45, 49, 54, 45, 120, 109, 111, 100, 101, 109], 79),  -- "crc-16-xmodem"
  (some [99, 114, 99, 45, 49, 55, 45, 99, 97, 110, 45, 102, 100], 80),  -- "crc-17-can-fd"
  (some [99, 114, 99, 45, 50, 49, 45, 99, 97, 110, 45, 102, 100], 81),  -- "crc-21-can-fd"
  (some [99, 114, 99, 45, 50, 52], 88),  -- "crc-24"
  (some [99, 114, 99, 45, 50, 52, 45, 98, 108, 101], 82),  -- "crc-24-ble"
  (some [99, 114, 99, 45, 50, 52, 45, 102, 108, 101, 120, 114, 97, 121, 45, 97], 83),  -- "crc-24-flexray-a"
  (some [99, 114, 99, 45, 50, 52, 45, 102, 108, 101, 120, 114, 97, 121, 45, 98], 84),  -- "crc-24-flexray-b"
  (some [99, 114, 99, 45, 50, 52, 45, 105, 110, 116, 101, 114, 108, 97, 107, 101, 110], 85),  -- "crc-24-interlaken"
  (some [99, 114, 99, 45, 50, 52, 45, 108, 116, 101, 45, 97], 86),  -- "crc-24-lte-a"
  (some [99, 114, 99, 45, 50, 52, 45, 108, 116, 101, 45, 98], 87),  -- "crc-24-lte-b"
  (some [99, 114, 99, 45, 50, 52, 45, 111, 112, 101, 110, 112, 103, 112], 88),  -- "crc-24-openpgp"
  (some [99, 114, 99, 45, 50, 52, 45, 111, 115, 45, 57], 89),  -- "crc-24-os-9"
  (some [99, 114, 99, 45, 51, 45, 103, 115, 109], 0),  -- "crc-3-gsm"
  (some [99, 114, 99, 45, 51, 45, 114, 111, 104, 99], 1),  -- "crc-3-rohc"
  (some [99, 114, 99, 45, 51, 48, 45, 99, 100, 109, 97], 90),  -- "crc-30-cdma"
  (some [99, 114, 99, 45, 51, 49, 45, 112, 104, 105, 108, 105, 112, 115], 91),  -- "crc-31-philips"
  (some [99, 114, 99, 45, 51, 50], 99),  -- "crc-32"
  (some [99, 114, 99, 45, 51, 50, 45, 97, 97, 108, 53], 95),  -- "crc-32-aal5"
  (some [99, 114, 99, 45, 51, 50, 45, 97, 100, 99, 99, 112], 99)  -- "crc-32-adccp"
]

/-- Name table chunk C. -/
def crc_name_idsChunkC : List (Option (List Nat) × Nat) := [
  (some [99, 114, 99, 45, 51, 50, 45, 97, 105, 120, 109], 92),  -- "crc-32-aixm"
  (some [99, 114, 99, 45, 51, 50, 45, 97, 117, 116, 111, 115, 97, 114], 93),  -- "crc-32-autosar"
  (some [99, 114, 99, 45, 51, 50, 45, 98, 97, 115, 101, 57, 49, 45, 99], 98),  -- "crc-32-base91-c"
  (some [99, 114, 99, 45, 51, 50, 45, 98, 97, 115, 101, 57, 49, 45, 100], 94),  -- "crc-32-base91-d"
  (some [99, 114, 99, 45, 51, 50, 45, 98, 122, 105, 112, 50], 95),  -- "crc-32-bzip2"
  (some [99, 114, 99, 45, 51, 50, 45, 99, 97, 115, 116, 97, 103, 110, 111, 108, 105], 98),  -- "crc-32-castagnoli"
  (some [99, 114, 99, 45, 51, 50, 45, 99, 100, 45, 114, 111, 109, 45, 101, 100, 99], 96),  -- "crc-32-cd-rom-edc"
  (some [99, 114, 99, 45, 51, 50, 45, 99, 107, 115, 117, 109], 97),  -- "crc-32-cksum"
  (some [99, 114, 99, 45, 51, 50, 45, 100, 101, 99, 116, 45, 98], 95),  -- "crc-32-dect-b"
  (some [99, 114, 99, 45, 51, 50, 45, 105, 110, 116, 101, 114, 108, 97, 107, 101, 110], 98),  -- "crc-32-interlaken"
  (some [99, 114, 99, 45, 51, 50, 45, 105, 115, 99, 115, 105], 98),  -- "crc-32-iscsi"
  (some [99, 114, 99, 45, 51, 50, 45, 105, 115, 111, 45, 104, 100, 108, 99], 99),  -- "crc-32-iso-hdlc"
  (some [99, 114, 99, 45, 51, 50, 45, 106, 97, 109, 99, 114, 99], 100),  -- "crc-32-jamcrc"
  (some [99, 114, 99, 45, 51, 50, 45, 109, 101, 102], 101),  -- "crc-32-mef"
  (some [99, 114, 99, 45, 51, 50, 45, 109, 112, 101, 103, 45, 50], 102),  -- "crc-32-mpeg-2"
  (some [99, 114, 99, 45, 51, 50, 45, 110, 118, 109, 101], 98),  -- "crc-32-nvme"
  (some [99, 114, 99, 45, 51, 50, 45, 112, 111, 115, 105, 120], 97),  -- "crc-32-posix"
  (some [99, 114, 99, 45, 51, 50, 45, 118, 45, 52, 50], 99),  -- "crc-32-v-42"
  (some [99, 114, 99, 45, 51, 50, 45, 120, 102, 101, 114], 103),  -- "crc-32-xfer"
  (some [99, 114, 99, 45, 51, 50, 45, 120, 122], 99),  -- "crc-32-xz"
  (some [99, 114, 99, 45, 51, 50, 99], 98),  -- "crc-32c"
  (some [99, 114, 99, 45, 51, 50, 100], 94),  -- "crc-32d"
  (some [99, 114, 99, 45, 51, 50, 113], 92),  -- "crc-32q"
  (some [99, 114, 99, 45, 52, 45, 103, 45, 55, 48, 52], 2),  -- "crc-4-g-704"
  (some [99, 114, 99, 45, 52, 45, 105, 110, 116, 101, 114, 108, 97, 107, 101, 110], 3),  -- "crc-4-interlaken"
  (some [99, 114, 99, 45, 52, 45, 105, 116, 117], 2),  -- "crc-4-itu"
  (some [99, 114, 99, 45, 52, 48, 45, 103, 115, 109], 104),  -- "crc-40-gsm"
  (some [99, 114, 99, 45, 53, 45, 101, 112, 99], 4),  -- "crc-5-epc"
  (some [99, 114, 99, 45, 53, 45, 101, 112, 99, 45, 99, 49, 103, 50], 4),  -- "crc-5-epc-c1g2"
  (some [99, 114, 99, 45, 53, 45, 103, 45, 55, 48, 52], 5),  -- "crc-5-g-704"
  (some [99, 114, 99, 45, 53, 45, 105, 116, 117], 5),  -- "crc-5-itu"
  (some [99, 114, 99, 45, 53, 45, 117, 115, 98], 6),  -- "crc-5-usb"
  (some [99, 114, 99, 45, 54, 45, 99, 100, 109, 97, 50, 48, 48, 48, 45, 97], 7),  -- "crc-6-cdma2000-a"
  (some [99, 114, 99, 45, 54, 45, 99, 100, 109, 97, 50, 48, 48, 48, 45, 98], 8),  -- "crc-6-cdma2000-b"
  (some [99, 114, 99, 45, 54, 45, 100, 97, 114, 99], 9),  -- "crc-6-darc"
  (some [99, 114, 99, 45, 54, 45, 103, 45, 55, 48, 52], 10),  -- "crc-6-g-704"
  (some [99, 114, 99, 45, 54, 45, 103, 115, 109], 11),  -- "crc-6-gsm"
  (some [99, 114, 99, 45, 54, 45, 105, 116, 117], 10),  -- "crc-6-itu"
  (some [99, 114, 99, 45, 54, 52], 105),  -- "crc-64"
  (some [99, 114, 99, 45, 54, 52, 45, 101, 99, 109, 97, 45, 49, 56, 50], 105),  -- "crc-64-ecma-182"
  (some [99, 114, 99, 45, 54, 52, 45, 103, 111, 45, 101, 99, 109, 97], 111),  -- "crc-64-go-ecma"
  (some [99, 114, 99, 45, 54, 52, 45, 103, 111, 45, 105, 115, 111], 106),  -- "crc-64-go-iso"
  (some [99, 114, 99, 45, 54, 52, 45, 109, 115], 107),  -- "crc-64-ms"
  (some [99, 114, 99, 45, 54, 52, 45, 110, 118, 109, 101], 108),  -- "crc-64-nvme"
  (some [99, 114, 99, 45, 54, 52, 45, 114, 101, 100, 105, 115], 109),  -- "crc-64-redis"
  (some [99, 114, 99, 45, 54, 52, 45, 119, 101], 110),  -- "crc-64-we"
  (some [99, 114, 99, 45, 54, 52, 45, 120, 122], 111)  -- "crc-64-xz"
]

/-- Name table chunk D. -/
def crc_name_idsChunkD : List (Option (List Nat) × Nat) := [
  (some [99, 114, 99, 45, 55], 12),  -- "crc-7"
  (some [99, 114, 99, 45, 55, 45, 109, 109, 99], 12),  -- "crc-7-mmc"
  (some [99, 114, 99, 45, 55, 45, 114, 111, 104, 99], 13),  -- "crc-7-rohc"
  (some [99, 114, 99, 45, 55, 45, 117, 109, 116, 115], 14),  -- "crc-7-umts"
  (some [99, 114, 99, 45, 56], 32),  -- "crc-8"
  (some [99, 114, 99, 45, 56, 45, 97, 101, 115], 33),  -- "crc-8-aes"
  (some [99, 114, 99, 45, 56, 45, 97, 117, 116, 111, 115, 97, 114], 15),  -- "crc-8-autosar"
  (some [99, 114, 99, 45, 56, 45, 98, 108, 117, 101, 116, 111, 111, 116, 104], 16),  -- "crc-8-bluetooth"
  (some [99, 114, 99, 45, 56, 45, 99, 100, 109, 97, 50, 48, 48, 48], 17),  -- "crc-8-cdma2000"
  (some [99, 114, 99, 45, 56, 45, 100, 97, 114, 99], 18),  -- "crc-8-darc"
  (some [99, 114, 99, 45, 56, 45, 100, 118, 98, 45, 115, 50], 19),  -- "crc-8-dvb-s2"
  (some [99, 114, 99, 45, 56, 45, 101, 98, 117], 33),  -- "crc-8-ebu"
  (some [99, 114, 99, 45, 56, 45, 103, 115, 109, 45, 97], 20),  -- "crc-8-gsm-a"
  (some [99, 114, 99, 45, 56, 45, 103, 115, 109, 45, 98], 21),  -- "crc-8-gsm-b"
  (some [99, 114, 99, 45, 56, 45, 104, 105, 116, 97, 103], 22),  -- "crc-8-hitag"
  (some [99, 114, 99, 45, 56, 45, 105, 45, 52, 51, 50, 45, 49], 23),  -- "crc-8-i-432-1"
  (some [99, 114, 99, 45, 56, 45, 105, 45, 99, 111, 100, 101], 24),  -- "crc-8-i-code"
  (some [99, 114, 99, 45, 56, 45, 105, 116, 117], 23),  -- "crc-8-itu"
  (some [99, 114, 99, 45, 56, 45, 108, 116, 101], 25),  -- "crc-8-lte"
  (some [99, 114, 99, 45, 56, 45, 109, 97, 120, 105, 109], 26),  -- "crc-8-maxim"
  (some [99, 114, 99, 45, 56, 45, 109, 97, 120, 105, 109, 45, 100, 111, 119], 26),  -- "crc-8-maxim-dow"
  (some [99, 114, 99, 45, 56, 45, 109, 105, 102, 97, 114, 101, 45, 109, 97, 100], 27),  -- "crc-8-mifare-mad"
  (some [99, 114, 99, 45, 56, 45, 110, 114, 115, 99, 45, 53], 28),  -- "crc-8-nrsc-5"
  (some [99, 114, 99, 45, 56, 45, 111, 112, 101, 110, 115, 97, 102, 101, 116, 121], 29),  -- "crc-8-opensafety"
  (some [99, 114, 99, 45, 56, 45, 114, 111, 104, 99], 30),  -- "crc-8-rohc"
  (some [99, 114, 99, 45, 56, 45, 115, 97, 101, 45, 106, 49, 56, 53, 48], 31),  -- "crc-8-sae-j1850"
  (some [99, 114, 99, 45, 56, 45, 115, 109, 98, 117, 115], 32),  -- "crc-8-smbus"
  (some [99, 114, 99, 45, 56, 45, 116, 101, 99, 104, 45, 51, 50, 53, 48], 33),  -- "crc-8-tech-3250"
  (some [99, 114, 99, 45, 56, 45, 119, 99, 100, 109, 97], 34),  -- "crc-8-wcdma"
  (some [99, 114, 99, 45, 97], 61),  -- "crc-a"
  (some [99, 114, 99, 45, 98], 60),  -- "crc-b"
  (some [99, 114, 99, 45, 99, 99, 105, 116, 116], 62),  -- "crc-ccitt"
  (some [99, 114, 99, 45, 105, 98, 109], 49),  -- "crc-ibm"
  (some [100, 111, 119, 45, 99, 114, 99], 26),  -- "dow-crc"
  (some [106, 97, 109, 99, 114, 99], 100),  -- "jamcrc"
  (some [107, 101, 114, 109, 105, 116], 62),  -- "kermit"
  (some [109, 111, 100, 98, 117, 115], 67),  -- "modbus"
  (some [112, 107, 122, 105, 112], 99),  -- "pkzip"
  (some [114, 45, 99, 114, 99, 45, 49, 54], 53),  -- "r-crc-16"
  (some [120, 45, 50, 53], 60),  -- "x-25"
  (some [120, 45, 99, 114, 99, 45, 49, 50], 41),  -- "x-crc-12"
  (some [120, 45, 99, 114, 99, 45, 49, 54], 54),  -- "x-crc-16"
  (some [120, 102, 101, 114], 103),  -- "xfer"
  (some [120, 109, 111, 100, 101, 109], 79),  -- "xmodem"
  (some [122, 109, 111, 100, 101, 109], 79),  -- "zmodem"
  (none, 112)]  -- sentinel


/-- The sorted name table `crc_name_ids`; names are ASCII byte lists, ids
are `crc_id` enumeration indices, and the final entry models the NULL-name
sentinel that terminates the C array. -/
def crc_name_ids : List (Option (List Nat) × Nat) :=
  crc_name_idsChunkA ++ crc_name_idsChunkB ++ crc_name_idsChunkC ++ crc_name_idsChunkD

/-- Outcome of the modeled `crc_find_id` binary search.  `undef` marks an
execution that reads `crc_name_ids` out of bounds or dereferences the NULL
sentinel name (undefined behavior in the C code); `outOfFuel` marks
exhaustion of the step budget and never occurs in the runs proved below. -/
inductive FindOutcome
  | found (id : Nat)
  | notFound
  | undef
  | outOfFuel
deriving DecidableEq

/-- Byte `i` of a zero-terminated byte string: the stored byte below the
length, the NUL terminator at the length. -/
def czByte (s : List Nat) (i : Nat) : Nat := s.getD i 0

/-- Model of `memcmp` over `n` bytes of two zero-terminated byte strings,
starting at position `i`. -/
def crc_memcmp_from (a b : List Nat) : Nat → Nat → Ordering
  | _, 0 => .eq
  | i, n + 1 =>
    let x := czByte a i
    let y := czByte b i
    if x < y then .lt
    else if y < x then .gt
    else crc_memcmp_from a b (i + 1) n

/-- Model of `memcmp(a, b, n)` on zero-terminated byte strings. -/
def crc_memcmp (a b : List Nat) (n : Nat) : Ordering := crc_memcmp_from a b 0 n

/-- The loop of C `crc_find_id`, with `size_t` index arithmetic taken
modulo `2 ^ 64` exactly as in the source (`right = middle - 1` wraps to
`2 ^ 64 - 1` when `middle` is `0`). -/
def crc_find_id_loop (name : List Nat) : Nat → Nat → Nat → FindOutcome
  | 0, _, _ => .outOfFuel
  | fuel + 1, left, right =>
    if left ≤ right then
      let middle := left + ((right - left) >>> 1)
      match crc_name_ids.get? middle with
      | none => .undef
      | some (none, _) => .undef
      | some (some itemname, id) =>
        let minlen := min name.length itemname.length
        match crc_memcmp name itemname (minlen + 1) with
        | .lt => crc_find_id_loop name fuel left ((middle + (2 ^ 64 - 1)) % 2 ^ 64)
        | .gt => crc_find_id_loop name fuel ((middle + 1) % 2 ^ 64) right
        | .eq => .found id
    else .notFound

/-- Model of C `crc_find_id`: binary search over the whole `crc_name_ids`
array, starting with `right = itemcount - 1` (which is the index of the
NULL sentinel, not of the last real entry). -/
def crc_find_id (name : List Nat) : FindOutcome :=
  crc_find_id_loop name 256 0 (crc_name_ids.length - 1)

/-- Model of the table-cache key built by `crcu64_apply_method`: the raw
bytes of the `crc_config` struct (x86-64 layout: three little-endian
`crc_u64` fields, three `crc_u8` fields, five bytes of padding). -/
def crcu64_table_key (c : crc_config) : List Nat :=
  [c.poly &&& 0xFF, (c.poly >>> 8) &&& 0xFF, (c.poly >>> 16) &&& 0xFF,
   (c.poly >>> 24) &&& 0xFF, (c.poly >>> 32) &&& 0xFF, (c.poly >>> 40) &&& 0xFF,
   (c.poly >>> 48) &&& 0xFF, (c.poly >>> 56) &&& 0xFF,
   c.init &&& 0xFF, (c.init >>> 8) &&& 0xFF, (c.init >>> 16) &&& 0xFF,
   (c.init >>> 24) &&& 0xFF, (c.init >>> 32) &&& 0xFF, (c.init >>> 40) &&& 0xFF,
   (c.init >>> 48) &&& 0xFF, (c.init >>> 56) &&& 0xFF,
   c.xorout &&& 0xFF, (c.xorout >>> 8) &&& 0xFF, (c.xorout >>> 16) &&& 0xFF,
   (c.xorout >>> 24) &&& 0xFF, (c.xorout >>> 32) &&& 0xFF, (c.xorout >>> 40) &&& 0xFF,
   (c.xorout >>> 48) &&& 0xFF, (c.xorout >>> 56) &&& 0xFF,
   c.width, if c.refin then 1 else 0, if c.refout then 1 else 0,
   0, 0, 0, 0, 0]


/-! ### Generic 64-bit lemmas -/

theorem xor_shiftRight_distrib (x y n : Nat) :
    (x ^^^ y) >>> n = (x >>> n) ^^^ (y >>> n) := by
  apply Nat.eq_of_testBit_eq
  intro i
  simp

theorem xor_shiftLeft_distrib (x y n : Nat) :
    (x ^^^ y) <<< n = (x <<< n) ^^^ (y <<< n) := by
  apply Nat.eq_of_testBit_eq
  intro i
  by_cases h : n ≤ i <;> simp [h]

theorem trunc64_lt (x : Nat) : trunc64 x < 2 ^ 64 :=
  Nat.mod_lt _ (by norm_num)

theorem trunc64_of_lt {x : Nat} (h : x < 2 ^ 64) : trunc64 x = x :=
  Nat.mod_eq_of_lt h

theorem trunc64_xor (x y : Nat) :
    trunc64 (x ^^^ y) = trunc64 x ^^^ trunc64 y := by
  apply Nat.eq_of_testBit_eq
  intro i
  simp only [trunc64, Nat.testBit_mod_two_pow, Nat.testBit_xor]
  by_cases h : i < 64 <;> simp [h]

theorem trunc64_shiftLeft_trunc64 (x k : Nat) :
    trunc64 (trunc64 x <<< k) = trunc64 (x <<< k) := by
  apply Nat.eq_of_testBit_eq
  intro i
  simp only [trunc64, Nat.testBit_mod_two_pow, Nat.testBit_shiftLeft]
  by_cases h : i < 64
  · by_cases h2 : k ≤ i
    · have h3 : i - k < 64 := by omega
      simp [h, h2, h3]
    · simp [h, h2]
  · simp [h]

theorem xor_left_comm (a b c : Nat) : a ^^^ (b ^^^ c) = b ^^^ (a ^^^ c) := by
  rw [← Nat.xor_assoc, Nat.xor_comm a b, Nat.xor_assoc]

theorem and_255_eq_mod (x : Nat) : x &&& 0xFF = x % 2 ^ 8 := by
  have h : (0xFF : Nat) = 2 ^ 8 - 1 := rfl
  rw [h, Nat.and_pow_two_sub_one_eq_mod]

theorem and_255_of_lt {x : Nat} (h : x < 256) : x &&& 0xFF = x := by
  rw [and_255_eq_mod]
  exact Nat.mod_eq_of_lt h

theorem and_255_lt (x : Nat) : x &&& 0xFF < 256 := by
  rw [and_255_eq_mod]
  exact Nat.mod_lt _ (by norm_num)

theorem shiftRight_lt_of_lt {x n k : Nat} (h : x < 2 ^ (n + k)) :
    x >>> n < 2 ^ k := by
  rw [Nat.shiftRight_eq_div_pow]
  apply Nat.div_lt_of_lt_mul
  rw [← Nat.pow_add]
  omega

theorem shiftRight_le_self (x n : Nat) : x >>> n ≤ x := by
  rw [Nat.shiftRight_eq_div_pow]
  exact Nat.div_le_self _ _

theorem shiftLeft_shiftRight_cancel (x n : Nat) : (x <<< n) >>> n = x := by
  rw [Nat.shiftLeft_eq, Nat.shiftRight_eq_div_pow]
  exact Nat.mul_div_cancel x (Nat.pos_pow_of_pos n (by norm_num))

/-- Splitting a natural number at bit 8. -/
theorem byte_split (x : Nat) : x = (x &&& 0xFF) ^^^ ((x >>> 8) <<< 8) := by
  apply Nat.eq_of_testBit_eq
  intro i
  rw [and_255_eq_mod]
  simp only [Nat.testBit_xor, Nat.testBit_mod_two_pow, Nat.testBit_shiftLeft,
    Nat.testBit_shiftRight]
  by_cases h : i < 8
  · have h2 : ¬ 8 ≤ i := by omega
    simp [h, h2]
  · have h2 : 8 ≤ i := by omega
    have h8 : 8 + (i - 8) = i := by omega
    simp [h, h2, h8]

/-- Splitting a natural number at bit 56. -/
theorem split56 (x : Nat) :
    x = (x &&& (2 ^ 56 - 1)) ^^^ ((x >>> 56) <<< 56) := by
  apply Nat.eq_of_testBit_eq
  intro i
  rw [Nat.and_pow_two_sub_one_eq_mod]
  simp only [Nat.testBit_xor, Nat.testBit_mod_two_pow, Nat.testBit_shiftLeft,
    Nat.testBit_shiftRight]
  by_cases h : i < 56
  · have h2 : ¬ 56 ≤ i := by omega
    simp [h, h2]
  · have h2 : 56 ≤ i := by omega
    have h56 : 56 + (i - 56) = i := by omega
    simp [h, h2, h56]

theorem trunc64_shiftLeft8 (a : Nat) :
    trunc64 (a <<< 8) = (a &&& (2 ^ 56 - 1)) <<< 8 := by
  apply Nat.eq_of_testBit_eq
  intro i
  rw [Nat.and_pow_two_sub_one_eq_mod]
  simp only [trunc64, Nat.testBit_mod_two_pow, Nat.testBit_shiftLeft]
  by_cases h2 : 8 ≤ i
  · by_cases h : i < 64
    · have h3 : i - 8 < 56 := by omega
      simp [h, h2, h3]
    · have h3 : ¬ i - 8 < 56 := by omega
      simp [h, h2, h3]
  · have h : i < 64 := by omega
    simp [h, h2]

theorem testBit63_of_lt {x : Nat} (h : x < 2 ^ 63) : x.testBit 63 = false :=
  Nat.testBit_lt_two_pow h

theorem and_top_ne_iff (x : Nat) :
    (x &&& (1 <<< 63) ≠ 0) ↔ x.testBit 63 = true := by
  have h1 : (1 <<< 63 : Nat) = 2 ^ 63 := by
    rw [Nat.shiftLeft_eq, Nat.one_mul]
  rw [h1]
  have hx : x &&& 2 ^ 63 = if x.testBit 63 then 2 ^ 63 else 0 := by
    apply Nat.eq_of_testBit_eq
    intro i
    simp only [Nat.testBit_and]
    by_cases h63 : (63 : Nat) = i
    · subst h63
      cases hb : x.testBit 63 <;> simp [hb, Nat.testBit_two_pow_self]
    · have h2 : Nat.testBit (2 ^ 63) i = false := Nat.testBit_two_pow_of_ne h63
      cases hb : x.testBit 63 <;>
        simp only [hb, h2, Bool.and_false, eq_self_iff_true, if_true,
          Bool.false_eq_true, if_false, Nat.zero_testBit]
  rw [hx]
  have hpos : (0 : Nat) < 2 ^ 63 := Nat.pos_pow_of_pos _ (by norm_num)
  cases hb : x.testBit 63 <;> simp [hb]

theorem and_one_ne_iff (x : Nat) : (x &&& 1 ≠ 0) ↔ x.testBit 0 = true := by
  rw [Nat.and_one_is_mod, Nat.testBit_zero]
  simp only [decide_eq_true_eq]
  omega

/-! ### Shift-and-XOR step algebra -/

theorem crc_step_reflected_eq (p a : Nat) :
    crc_step_reflected p a = (a >>> 1) ^^^ (if a.testBit 0 then p else 0) := by
  unfold crc_step_reflected
  by_cases h : a &&& 1 ≠ 0
  · rw [if_pos h, if_pos ((and_one_ne_iff a).mp h)]
  · rw [if_neg h]
    have hb : a.testBit 0 = false := by
      by_contra hc
      exact h ((and_one_ne_iff a).mpr (by simpa using hc))
    rw [hb]
    simp

theorem crc_step_normal_eq (p a : Nat) :
    crc_step_normal p a = trunc64 (a <<< 1) ^^^ (if a.testBit 63 then p else 0) := by
  unfold crc_step_normal
  by_cases h : a &&& (1 <<< 63) ≠ 0
  · rw [if_pos h, if_pos ((and_top_ne_iff a).mp h)]
  · rw [if_neg h]
    have hb : a.testBit 63 = false := by
      by_contra hc
      exact h ((and_top_ne_iff a).mpr (by simpa using hc))
    rw [hb]
    simp

theorem if_xor_if (p : Nat) (a b : Bool) :
    (if (a ^^ b) then p else 0) = (if a then p else 0) ^^^ (if b then p else 0) := by
  cases a <;> cases b <;> simp

theorem crc_step_reflected_add (p x y : Nat) :
    crc_step_reflected p (x ^^^ y) =
      crc_step_reflected p x ^^^ crc_step_reflected p y := by
  rw [crc_step_reflected_eq, crc_step_reflected_eq, crc_step_reflected_eq,
    xor_shiftRight_distrib, Nat.testBit_xor, if_xor_if]
  rw [Nat.xor_assoc, Nat.xor_assoc]
  congr 1
  rw [xor_left_comm]

theorem crc_step_normal_add (p x y : Nat) :
    crc_step_normal p (x ^^^ y) = crc_step_normal p x ^^^ crc_step_normal p y := by
  rw [crc_step_normal_eq, crc_step_normal_eq, crc_step_normal_eq,
    xor_shiftLeft_distrib, trunc64_xor, Nat.testBit_xor, if_xor_if]
  rw [Nat.xor_assoc, Nat.xor_assoc]
  congr 1
  rw [xor_left_comm]

theorem iterate_add {f : Nat → Nat}
    (hf : ∀ x y, f (x ^^^ y) = f x ^^^ f y) :
    ∀ (n : Nat) (x y : Nat), f^[n] (x ^^^ y) = f^[n] x ^^^ f^[n] y := by
  intro n
  induction n with
  | zero => intro x y; simp
  | succ n ih =>
    intro x y
    rw [Function.iterate_succ_apply, Function.iterate_succ_apply,
      Function.iterate_succ_apply, hf, ih]

theorem crc_step_reflected_zero (p : Nat) : crc_step_reflected p 0 = 0 := by
  simp [crc_step_reflected]

theorem crc_step_normal_zero (p : Nat) : crc_step_normal p 0 = 0 := by
  simp [crc_step_normal, trunc64]

theorem iterate_fix_zero {f : Nat → Nat} (hf : f 0 = 0) (n : Nat) :
    f^[n] 0 = 0 := by
  induction n with
  | zero => simp
  | succ n ih => rw [Function.iterate_succ_apply, hf, ih]

theorem crc_step_reflected_lt {p a : Nat} (hp : p < 2 ^ 64) (ha : a < 2 ^ 64) :
    crc_step_reflected p a < 2 ^ 64 := by
  unfold crc_step_reflected
  have h1 : a >>> 1 < 2 ^ 64 := Nat.lt_of_le_of_lt (shiftRight_le_self a 1) ha
  by_cases h : a &&& 1 ≠ 0
  · rw [if_pos h]
    exact Nat.xor_lt_two_pow h1 hp
  · rw [if_neg h]
    exact h1

theorem crc_step_normal_lt {p : Nat} (hp : p < 2 ^ 64) (a : Nat) :
    crc_step_normal p a < 2 ^ 64 := by
  unfold crc_step_normal
  by_cases h : a &&& (1 <<< 63) ≠ 0
  · rw [if_pos h]
    exact Nat.xor_lt_two_pow (trunc64_lt _) hp
  · rw [if_neg h]
    exact trunc64_lt _

theorem iterate_step_reflected_lt {p a : Nat} (hp : p < 2 ^ 64) (ha : a < 2 ^ 64)
    (n : Nat) : (crc_step_reflected p)^[n] a < 2 ^ 64 := by
  induction n generalizing a with
  | zero => simpa
  | succ n ih =>
    rw [Function.iterate_succ_apply]
    exact ih (crc_step_reflected_lt hp ha)

theorem iterate_step_normal_lt {p a : Nat} (hp : p < 2 ^ 64) (ha : a < 2 ^ 64)
    (n : Nat) : (crc_step_normal p)^[n] a < 2 ^ 64 := by
  induction n generalizing a with
  | zero => simpa
  | succ n ih =>
    rw [Function.iterate_succ_apply]
    exact ih (crc_step_normal_lt hp _)

/-- Feeding a left-shifted value through the reflected step just shifts
it back by one. -/
theorem crc_step_reflected_shift (p y k : Nat) (hk : 1 ≤ k) :
    crc_step_reflected p (y <<< k) = y <<< (k - 1) := by
  have hb : (y <<< k).testBit 0 = false := by
    rw [Nat.testBit_shiftLeft]
    have h0 : ¬ (0 ≥ k) := by omega
    simp [h0]
  rw [crc_step_reflected_eq, hb]
  simp only [Bool.false_eq_true, if_false, Nat.xor_zero]
  rw [Nat.shiftLeft_eq, Nat.shiftLeft_eq, Nat.shiftRight_eq_div_pow]
  have h : 2 ^ k = 2 ^ (k - 1) * 2 := by
    rw [← Nat.pow_succ]
    congr 1
    omega
  rw [h, ← Nat.mul_assoc, Nat.mul_div_cancel _ (by norm_num)]

theorem iterate_step_reflected_shift (p y : Nat) :
    ∀ k, (crc_step_reflected p)^[k] (y <<< k) = y := by
  intro k
  induction k generalizing y with
  | zero => simp
  | succ k ih =>
    rw [Function.iterate_succ_apply, crc_step_reflected_shift p y (k + 1) (by omega)]
    simpa using ih (y := y)

theorem iterate_step_normal_shift (p : Nat) :
    ∀ (k : Nat) (y : Nat), k ≤ 64 → y < 2 ^ (64 - k) →
      (crc_step_normal p)^[k] y = y <<< k := by
  intro k
  induction k with
  | zero => intro y _ _; simp
  | succ k ih =>
    intro y hk hy
    have hexp : 2 ^ (64 - (k + 1)) * 2 = 2 ^ (64 - k) := by
      rw [← Nat.pow_succ]
      congr 1
      omega
    have hy2 : y <<< 1 < 2 ^ (64 - k) := by
      rw [Nat.shiftLeft_eq, Nat.pow_one, ← hexp]
      omega
    have hy63 : y < 2 ^ 63 := by
      apply Nat.lt_of_lt_of_le hy
      apply Nat.pow_le_pow_right (by norm_num)
      omega
    have hlt64 : y <<< 1 < 2 ^ 64 := by
      apply Nat.lt_of_lt_of_le hy2
      apply Nat.pow_le_pow_right (by norm_num)
      omega
    have hstep : crc_step_normal p y = y <<< 1 := by
      rw [crc_step_normal_eq, testBit63_of_lt hy63]
      simp only [Bool.false_eq_true, if_false, Nat.xor_zero]
      exact trunc64_of_lt hlt64
    rw [Function.iterate_succ_apply, hstep, ih (y <<< 1) (by omega) hy2,
      ← Nat.shiftLeft_add, Nat.add_comm 1 k]

/-! ### Bytewise-table equivalence with the bitwise kernel -/

theorem update_byte_bytewise_true (tab : Nat → Nat) (a b : Nat) :
    crcu64_update_byte_bytewise true tab a b =
      tab ((b ^^^ a) &&& 0xFF) ^^^ (a >>> 8) := rfl

theorem update_byte_bytewise_false (tab : Nat → Nat) (a b : Nat) :
    crcu64_update_byte_bytewise false tab a b =
      trunc64 (a <<< 8) ^^^ tab ((b ^^^ (a >>> 56)) &&& 0xFF) := rfl

theorem update_byte_bitwise_true (p a b : Nat) :
    crcu64_update_byte_bitwise true p a b =
      (crc_step_reflected p)^[8] (a ^^^ b) := rfl

theorem update_byte_bitwise_false (p a b : Nat) :
    crcu64_update_byte_bitwise false p a b =
      (crc_step_normal p)^[8] (a ^^^ trunc64 (b <<< 56)) := rfl

theorem tabulate_bytewise_reflected {impl : crcu64_impl} (h : impl.refin = true)
    (i : Nat) : crcu64_impl_tabulate_bytewise impl i =
      (crc_step_reflected impl.poly)^[8] i := by
  unfold crcu64_impl_tabulate_bytewise crcu64_impl_update_word
  simp [h]

theorem tabulate_bytewise_normal {impl : crcu64_impl} (h : impl.refin = false)
    (i : Nat) : crcu64_impl_tabulate_bytewise impl i =
      (crc_step_normal impl.poly)^[8] (trunc64 (i <<< 56)) := by
  unfold crcu64_impl_tabulate_bytewise crcu64_impl_update_word
  simp [h]

/-- The classic table identity, reflected form: eight bit steps on
`a ^^^ b` split into a table lookup of the low byte and a shift of the
rest. -/
theorem bitwise_byte_reflected_eq (p a b : Nat) (hb : b < 256) :
    (crc_step_reflected p)^[8] (a ^^^ b) =
      (crc_step_reflected p)^[8] ((b ^^^ a) &&& 0xFF) ^^^ (a >>> 8) := by
  conv_lhs => rw [byte_split (a ^^^ b)]
  rw [iterate_add (crc_step_reflected_add p) 8,
    iterate_step_reflected_shift p ((a ^^^ b) >>> 8) 8,
    xor_shiftRight_distrib]
  have hb8 : b >>> 8 = 0 := by
    rw [Nat.shiftRight_eq_div_pow]
    exact Nat.div_eq_of_lt hb
  rw [hb8, Nat.xor_zero, Nat.xor_comm a b]

/-- The classic table identity, non-reflected form. -/
theorem bitwise_byte_normal_eq (p a b : Nat) (hb : b < 256) (ha : a < 2 ^ 64) :
    (crc_step_normal p)^[8] (a ^^^ trunc64 (b <<< 56)) =
      trunc64 (a <<< 8) ^^^
        (crc_step_normal p)^[8]
          (trunc64 (((b ^^^ (a >>> 56)) &&& 0xFF) <<< 56)) := by
  have hbs : b <<< 56 < 2 ^ 64 := by
    rw [Nat.shiftLeft_eq]
    omega
  rw [trunc64_of_lt hbs]
  conv_lhs => rw [split56 (a ^^^ b <<< 56)]
  rw [iterate_add (crc_step_normal_add p) 8]
  have h1 : (a ^^^ b <<< 56) &&& (2 ^ 56 - 1) = a &&& (2 ^ 56 - 1) := by
    rw [Nat.and_xor_distrib_right]
    have h0 : (b <<< 56) &&& (2 ^ 56 - 1) = 0 := by
      rw [Nat.and_pow_two_sub_one_eq_mod, Nat.shiftLeft_eq, Nat.mul_mod_left]
    rw [h0, Nat.xor_zero]
  have h1lt : a &&& (2 ^ 56 - 1) < 2 ^ (64 - 8) :=
    Nat.and_lt_two_pow a (by norm_num)
  have h2 : (a ^^^ b <<< 56) >>> 56 = (a >>> 56) ^^^ b := by
    rw [xor_shiftRight_distrib, shiftLeft_shiftRight_cancel]
  have ha56 : a >>> 56 < 2 ^ 8 := shiftRight_lt_of_lt (by norm_num at ha ⊢; omega)
  have h3 : (b ^^^ (a >>> 56)) &&& 0xFF = (a >>> 56) ^^^ b := by
    rw [and_255_of_lt (Nat.xor_lt_two_pow (by omega) ha56), Nat.xor_comm]
  have h4 : ((a >>> 56) ^^^ b) <<< 56 < 2 ^ 64 := by
    rw [Nat.shiftLeft_eq]
    have hx : (a >>> 56) ^^^ b < 256 := Nat.xor_lt_two_pow ha56 (by omega)
    omega
  rw [h1, h2, h3, trunc64_of_lt h4,
    iterate_step_normal_shift p 8 _ (by norm_num) h1lt, ← trunc64_shiftLeft8]

theorem update_byte_bitwise_lt {refin : Bool} {p a b : Nat} (hp : p < 2 ^ 64)
    (ha : a < 2 ^ 64) (hb : b < 2 ^ 64) :
    crcu64_update_byte_bitwise refin p a b < 2 ^ 64 := by
  cases refin
  · rw [update_byte_bitwise_false]
    exact iterate_step_normal_lt hp (Nat.xor_lt_two_pow ha (trunc64_lt _)) 8
  · rw [update_byte_bitwise_true]
    exact iterate_step_reflected_lt hp (Nat.xor_lt_two_pow ha hb) 8

/-- One byte of the bytewise kernel equals one byte of the bitwise kernel,
for the table tabulated from the same engine. -/
theorem update_byte_eq (impl : crcu64_impl) (a b : Nat) (hb : b < 256)
    (ha : a < 2 ^ 64) :
    crcu64_update_byte_bytewise impl.refin (crcu64_impl_tabulate_bytewise impl)
        a b =
      crcu64_update_byte_bitwise impl.refin impl.poly a b := by
  cases hr : impl.refin
  · rw [update_byte_bytewise_false, update_byte_bitwise_false,
      tabulate_bytewise_normal hr, bitwise_byte_normal_eq impl.poly a b hb ha]
  · rw [update_byte_bytewise_true, update_byte_bitwise_true,
      tabulate_bytewise_reflected hr, bitwise_byte_reflected_eq impl.poly a b hb]

theorem fold_bytewise_eq_bitwise (impl : crcu64_impl) (hp : impl.poly < 2 ^ 64) :
    ∀ (data : List (Fin 256)) (a : Nat), a < 2 ^ 64 →
      data.foldl (fun x b => crcu64_update_byte_bytewise impl.refin
        (crcu64_impl_tabulate_bytewise impl) x b.val) a =
      data.foldl
        (fun x b => crcu64_update_byte_bitwise impl.refin impl.poly x b.val)
        a := by
  intro data
  induction data with
  | nil => intro a _; rfl
  | cons b rest ih =>
    intro a ha
    rw [List.foldl_cons, List.foldl_cons,
      update_byte_eq impl a b.val b.isLt ha]
    exact ih _ (update_byte_bitwise_lt hp ha (by have := b.isLt; omega))

theorem fold_bitwise_lt (refin : Bool) {p : Nat} (hp : p < 2 ^ 64) :
    ∀ (data : List (Fin 256)) (a : Nat), a < 2 ^ 64 →
      data.foldl (fun x b => crcu64_update_byte_bitwise refin p x b.val) a <
        2 ^ 64 := by
  intro data
  induction data with
  | nil => intro a ha; simpa using ha
  | cons b rest ih =>
    intro a ha
    rw [List.foldl_cons]
    exact ih _ (update_byte_bitwise_lt hp ha (by have := b.isLt; omega))

/-- The bytewise kernel is state-for-state equal to the bitwise kernel. -/
theorem update_bytewise_eq_bitwise (impl : crcu64_impl)
    (hp : impl.poly < 2 ^ 64) (ha : impl.accum < 2 ^ 64)
    (data : List (Fin 256)) :
    crcu64_impl_update_bytewise impl data =
      crcu64_impl_update_bitwise impl data := by
  unfold crcu64_impl_update_bytewise crcu64_impl_update_bitwise
  by_cases h : data.isEmpty
  · rw [if_pos h, if_pos h]
  · rw [if_neg h, if_neg h]
    simp only [fold_bytewise_eq_bitwise impl hp data impl.accum ha]

/-! ### Byte-swap algebra -/

theorem or_eq_xor_of_disjoint {a b : Nat} (h : a &&& b = 0) :
    a ||| b = a ^^^ b := by
  apply Nat.eq_of_testBit_eq
  intro i
  have hi : (a.testBit i && b.testBit i) = false := by
    have h0 : (a &&& b).testBit i = false := by
      rw [h]
      exact Nat.zero_testBit i
    rw [Nat.testBit_and] at h0
    exact h0
  simp only [Nat.testBit_or, Nat.testBit_xor]
  cases ha : a.testBit i <;> cases hb : b.testBit i <;> simp_all

theorem and_masked_disjoint {m1 m2 : Nat} (h : m1 &&& m2 = 0) (a b : Nat) :
    (a &&& m1) &&& (b &&& m2) = 0 := by
  apply Nat.eq_of_testBit_eq
  intro i
  have hi : (m1.testBit i && m2.testBit i) = false := by
    have h0 : (m1 &&& m2).testBit i = false := by
      rw [h]
      exact Nat.zero_testBit i
    rw [Nat.testBit_and] at h0
    exact h0
  simp only [Nat.testBit_and, Nat.zero_testBit]
  cases h1 : m1.testBit i <;> cases h2 : m2.testBit i <;> simp_all

theorem xor_xor_xor_comm (a b c d : Nat) :
    (a ^^^ b) ^^^ (c ^^^ d) = (a ^^^ c) ^^^ (b ^^^ d) := by
  rw [Nat.xor_assoc, Nat.xor_assoc]
  congr 1
  rw [← Nat.xor_assoc, ← Nat.xor_assoc, Nat.xor_comm b c]

theorem swapStage_add {sh mhi mlo : Nat} (hm : mhi &&& mlo = 0) (x y : Nat) :
    swapStage sh mhi mlo (x ^^^ y) =
      swapStage sh mhi mlo x ^^^ swapStage sh mhi mlo y := by
  unfold swapStage
  rw [or_eq_xor_of_disjoint (and_masked_disjoint hm _ _),
    or_eq_xor_of_disjoint (and_masked_disjoint hm _ _),
    or_eq_xor_of_disjoint (and_masked_disjoint hm _ _),
    xor_shiftLeft_distrib, xor_shiftRight_distrib,
    Nat.and_xor_distrib_right, Nat.and_xor_distrib_right, xor_xor_xor_comm]

theorem crc_u64_byteswap_add (x y : Nat) :
    crc_u64_byteswap (x ^^^ y) = crc_u64_byteswap x ^^^ crc_u64_byteswap y := by
  unfold crc_u64_byteswap
  rw [swapStage_add (by decide), swapStage_add (by decide),
    swapStage_add (by decide)]

theorem swapStage_lt {mhi mlo : Nat} (hhi : mhi < 2 ^ 64) (hlo : mlo < 2 ^ 64)
    (sh x : Nat) : swapStage sh mhi mlo x < 2 ^ 64 := by
  unfold swapStage
  exact Nat.or_lt_two_pow (Nat.lt_of_le_of_lt Nat.and_le_right hhi)
    (Nat.lt_of_le_of_lt Nat.and_le_right hlo)

theorem crc_u64_byteswap_lt (x : Nat) : crc_u64_byteswap x < 2 ^ 64 := by
  unfold crc_u64_byteswap
  exact swapStage_lt (by norm_num) (by norm_num) _ _

theorem byteswap_lane0 {c : Nat} (hc : c < 256) :
    crc_u64_byteswap c = c <<< 56 := by
  have h : ∀ d : Fin 256, crc_u64_byteswap d.val = d.val <<< 56 := by decide
  exact h ⟨c, hc⟩

theorem byteswap_lane1 {c : Nat} (hc : c < 256) :
    crc_u64_byteswap (c <<< 8) = c <<< 48 := by
  have h : ∀ d : Fin 256, crc_u64_byteswap (d.val <<< 8) = d.val <<< 48 := by
    decide
  exact h ⟨c, hc⟩

theorem byteswap_lane2 {c : Nat} (hc : c < 256) :
    crc_u64_byteswap (c <<< 16) = c <<< 40 := by
  have h : ∀ d : Fin 256, crc_u64_byteswap (d.val <<< 16) = d.val <<< 40 := by
    decide
  exact h ⟨c, hc⟩

theorem byteswap_lane3 {c : Nat} (hc : c < 256) :
    crc_u64_byteswap (c <<< 24) = c <<< 32 := by
  have h : ∀ d : Fin 256, crc_u64_byteswap (d.val <<< 24) = d.val <<< 32 := by
    decide
  exact h ⟨c, hc⟩

theorem byteswap_lane4 {c : Nat} (hc : c < 256) :
    crc_u64_byteswap (c <<< 32) = c <<< 24 := by
  have h : ∀ d : Fin 256, crc_u64_byteswap (d.val <<< 32) = d.val <<< 24 := by
    decide
  exact h ⟨c, hc⟩

theorem byteswap_lane5 {c : Nat} (hc : c < 256) :
    crc_u64_byteswap (c <<< 40) = c <<< 16 := by
  have h : ∀ d : Fin 256, crc_u64_byteswap (d.val <<< 40) = d.val <<< 16 := by
    decide
  exact h ⟨c, hc⟩

theorem byteswap_lane6 {c : Nat} (hc : c < 256) :
    crc_u64_byteswap (c <<< 48) = c <<< 8 := by
  have h : ∀ d : Fin 256, crc_u64_byteswap (d.val <<< 48) = d.val <<< 8 := by
    decide
  exact h ⟨c, hc⟩

theorem byteswap_lane7 {c : Nat} (hc : c < 256) :
    crc_u64_byteswap (c <<< 56) = c := by
  have h : ∀ d : Fin 256, crc_u64_byteswap (d.val <<< 56) = d.val := by decide
  exact h ⟨c, hc⟩

/-- Decomposition of a 64-bit value into its eight byte lanes. -/
theorem lane_decomp {x : Nat} (hx : x < 2 ^ 64) :
    x = (x &&& 0xFF) ^^^ (((x >>> 8) &&& 0xFF) <<< 8) ^^^
      (((x >>> 16) &&& 0xFF) <<< 16) ^^^ (((x >>> 24) &&& 0xFF) <<< 24) ^^^
      (((x >>> 32) &&& 0xFF) <<< 32) ^^^ (((x >>> 40) &&& 0xFF) <<< 40) ^^^
      (((x >>> 48) &&& 0xFF) <<< 48) ^^^ (((x >>> 56) &&& 0xFF) <<< 56) := by
  have h64 : x >>> 64 = 0 := by
    rw [Nat.shiftRight_eq_div_pow]
    exact Nat.div_eq_of_lt hx
  have step : ∀ k : Nat, (x >>> k) <<< k =
      ((x >>> k &&& 0xFF) <<< k) ^^^ ((x >>> (k + 8)) <<< (k + 8)) := by
    intro k
    conv_lhs => rw [byte_split (x >>> k)]
    rw [xor_shiftLeft_distrib, ← Nat.shiftLeft_add, ← Nat.shiftRight_add,
      Nat.add_comm 8 k]
  have s8 := step 8
  have s16 := step 16
  have s24 := step 24
  have s32 := step 32
  have s40 := step 40
  have s48 := step 48
  have s56 := step 56
  norm_num at s8 s16 s24 s32 s40 s48 s56
  conv_lhs => rw [byte_split x, s8, s16, s24, s32, s40, s48, s56, h64,
    Nat.zero_shiftLeft, Nat.xor_zero]
  simp only [Nat.xor_assoc]

/-- Canonical byte-lane form of `crc_u64_byteswap`. -/
theorem byteswap_lanes {x : Nat} (hx : x < 2 ^ 64) :
    crc_u64_byteswap x = ((x &&& 0xFF) <<< 56) ^^^
      (((x >>> 8) &&& 0xFF) <<< 48) ^^^ (((x >>> 16) &&& 0xFF) <<< 40) ^^^
      (((x >>> 24) &&& 0xFF) <<< 32) ^^^ (((x >>> 32) &&& 0xFF) <<< 24) ^^^
      (((x >>> 40) &&& 0xFF) <<< 16) ^^^ (((x >>> 48) &&& 0xFF) <<< 8) ^^^
      ((x >>> 56) &&& 0xFF) := by
  conv_lhs => rw [lane_decomp hx]
  simp only [crc_u64_byteswap_add]
  rw [byteswap_lane0 (and_255_lt x), byteswap_lane1 (and_255_lt _),
    byteswap_lane2 (and_255_lt _), byteswap_lane3 (and_255_lt _),
    byteswap_lane4 (and_255_lt _), byteswap_lane5 (and_255_lt _),
    byteswap_lane6 (and_255_lt _), byteswap_lane7 (and_255_lt _)]

theorem byteswap_involution {x : Nat} (hx : x < 2 ^ 64) :
    crc_u64_byteswap (crc_u64_byteswap x) = x := by
  conv_lhs => rw [byteswap_lanes hx]
  simp only [crc_u64_byteswap_add]
  rw [byteswap_lane7 (and_255_lt x), byteswap_lane6 (and_255_lt _),
    byteswap_lane5 (and_255_lt _), byteswap_lane4 (and_255_lt _),
    byteswap_lane3 (and_255_lt _), byteswap_lane2 (and_255_lt _),
    byteswap_lane1 (and_255_lt _), byteswap_lane0 (and_255_lt _)]
  exact (lane_decomp hx).symm

/-! ### Byte extraction and word loads -/

theorem shiftLeft_shiftRight_of_le {m n : Nat} (h : n ≤ m) (c : Nat) :
    (c <<< m) >>> n = c <<< (m - n) := by
  rw [Nat.shiftLeft_eq, Nat.shiftLeft_eq, Nat.shiftRight_eq_div_pow,
    show 2 ^ m = 2 ^ (m - n) * 2 ^ n by
      rw [← Nat.pow_add]
      congr 1
      omega,
    ← Nat.mul_assoc, Nat.mul_div_cancel _ (Nat.pos_pow_of_pos n (by norm_num))]

theorem shiftLeft_shiftRight_of_ge {m n : Nat} (h : m ≤ n) (c : Nat) :
    (c <<< m) >>> n = c >>> (n - m) := by
  rw [Nat.shiftLeft_eq, Nat.shiftRight_eq_div_pow, Nat.shiftRight_eq_div_pow,
    show 2 ^ n = 2 ^ m * 2 ^ (n - m) by
      rw [← Nat.pow_add]
      congr 1
      omega,
    Nat.mul_comm c, Nat.mul_div_mul_left _ _ (Nat.pos_pow_of_pos m (by norm_num))]

theorem shiftLeft_and_255_eq_zero {m : Nat} (h : 8 ≤ m) (c : Nat) :
    (c <<< m) &&& 0xFF = 0 := by
  rw [and_255_eq_mod, Nat.shiftLeft_eq,
    show 2 ^ m = 2 ^ (m - 8) * 2 ^ 8 by
      rw [← Nat.pow_add]
      congr 1
      omega,
    ← Nat.mul_assoc]
  exact Nat.mul_mod_left _ _

theorem shiftRight_byte_zero {c n : Nat} (hc : c < 256) (h : 8 ≤ n) :
    c >>> n = 0 := by
  rw [Nat.shiftRight_eq_div_pow]
  apply Nat.div_eq_of_lt
  apply Nat.lt_of_lt_of_le hc
  calc (256 : Nat) = 2 ^ 8 := rfl
    _ ≤ 2 ^ n := Nat.pow_le_pow_right (by norm_num) h

theorem lane_shift_and {c : Nat} (hc : c < 256) {s t : Nat} (hs : 8 ∣ s)
    (ht : 8 ∣ t) : ((c <<< s) >>> t) &&& 0xFF = if s = t then c else 0 := by
  rcases Nat.le_total t s with h | h
  · rw [shiftLeft_shiftRight_of_le h]
    by_cases he : s = t
    · rw [if_pos he, he, Nat.sub_self, Nat.shiftLeft_zero]
      exact and_255_of_lt hc
    · have h8 : 8 ≤ s - t := by
        obtain ⟨a, rfl⟩ := hs
        obtain ⟨b, rfl⟩ := ht
        omega
      rw [if_neg he]
      exact shiftLeft_and_255_eq_zero h8 c
  · rw [shiftLeft_shiftRight_of_ge h]
    by_cases he : s = t
    · rw [if_pos he, he, Nat.sub_self, Nat.shiftRight_zero]
      exact and_255_of_lt hc
    · have h8 : 8 ≤ t - s := by
        obtain ⟨a, rfl⟩ := hs
        obtain ⟨b, rfl⟩ := ht
        omega
      rw [if_neg he, shiftRight_byte_zero hc h8]
      rfl

theorem lane_noshift_and {c : Nat} (hc : c < 256) {t : Nat} (ht : 8 ∣ t) :
    (c >>> t) &&& 0xFF = if t = 0 then c else 0 := by
  by_cases he : t = 0
  · rw [if_pos he, he, Nat.shiftRight_zero]
    exact and_255_of_lt hc
  · have h8 : 8 ≤ t := by
      obtain ⟨b, rfl⟩ := ht
      omega
    rw [if_neg he, shiftRight_byte_zero hc h8]
    rfl

theorem lane_shift_and_noshr {c : Nat} (hc : c < 256) {s : Nat} (hs : 8 ∣ s) :
    (c <<< s) &&& 0xFF = if s = 0 then c else 0 := by
  by_cases he : s = 0
  · rw [if_pos he, he, Nat.shiftLeft_zero]
    exact and_255_of_lt hc
  · have h8 : 8 ≤ s := by
      obtain ⟨b, rfl⟩ := hs
      omega
    rw [if_neg he]
    exact shiftLeft_and_255_eq_zero h8 c

/-- Byte `j` of the byte-reversed word is byte `7 - j` of the original. -/
theorem byteswap_byte {x : Nat} (hx : x < 2 ^ 64) {j : Nat} (hj : j < 8) :
    (crc_u64_byteswap x >>> (8 * j)) &&& 0xFF =
      (x >>> (8 * (7 - j))) &&& 0xFF := by
  have d0 : (8 : Nat) ∣ 0 := by decide
  have d8 : (8 : Nat) ∣ 8 := by decide
  have d16 : (8 : Nat) ∣ 16 := by decide
  have d24 : (8 : Nat) ∣ 24 := by decide
  have d32 : (8 : Nat) ∣ 32 := by decide
  have d40 : (8 : Nat) ∣ 40 := by decide
  have d48 : (8 : Nat) ∣ 48 := by decide
  have d56 : (8 : Nat) ∣ 56 := by decide
  interval_cases j <;>
    · norm_num
      rw [byteswap_lanes hx]
      simp only [xor_shiftRight_distrib, Nat.and_xor_distrib_right]
      simp [*, lane_shift_and, lane_noshift_and, lane_shift_and_noshr,
        and_255_lt, Nat.and_assoc]

theorem disjoint_lane {a k : Nat} (ha : a < 2 ^ k) (b : Nat) :
    a &&& (b <<< k) = 0 := by
  apply Nat.eq_of_testBit_eq
  intro i
  simp only [Nat.testBit_and, Nat.testBit_shiftLeft, Nat.zero_testBit]
  by_cases h : k ≤ i
  · have hb : a.testBit i = false :=
      Nat.testBit_lt_two_pow
        (Nat.lt_of_lt_of_le ha (Nat.pow_le_pow_right (by norm_num) h))
    simp [hb]
  · simp [h]

theorem shiftLeft_byte_lt {b k : Nat} (hb : b < 256) : b <<< k < 2 ^ (k + 8) := by
  rw [Nat.shiftLeft_eq, Nat.pow_add, Nat.mul_comm (2 ^ k)]
  exact Nat.mul_lt_mul_of_lt_of_le hb (Nat.le_refl _) (Nat.pos_pow_of_pos _ (by norm_num))

theorem or_lane_lt {a b k : Nat} (ha : a < 2 ^ k) (hb : b < 256) :
    a ||| (b <<< k) < 2 ^ (k + 8) := by
  apply Nat.or_lt_two_pow _ (shiftLeft_byte_lt hb)
  apply Nat.lt_of_lt_of_le ha
  exact Nat.pow_le_pow_right (by norm_num) (by omega)

theorem or_lane_eq_xor {a k : Nat} (ha : a < 2 ^ k) (b : Nat) :
    a ||| (b <<< k) = a ^^^ (b <<< k) :=
  or_eq_xor_of_disjoint (disjoint_lane ha b)

theorem lane_lt64 {b : Nat} (hb : b < 256) {k : Nat} (hk : k ≤ 56) :
    b <<< k < 2 ^ 64 := by
  apply Nat.lt_of_lt_of_le (shiftLeft_byte_lt hb)
  apply Nat.pow_le_pow_right (by norm_num)
  omega

theorem load_le_xor {b0 b1 b2 b3 b4 b5 b6 b7 : Nat} (h0 : b0 < 256)
    (h1 : b1 < 256) (h2 : b2 < 256) (h3 : b3 < 256) (h4 : b4 < 256)
    (h5 : b5 < 256) (h6 : b6 < 256) (h7 : b7 < 256) :
    crc_load_le b0 b1 b2 b3 b4 b5 b6 b7 =
      b0 ^^^ b1 <<< 8 ^^^ b2 <<< 16 ^^^ b3 <<< 24 ^^^ b4 <<< 32 ^^^
      b5 <<< 40 ^^^ b6 <<< 48 ^^^ b7 <<< 56 := by
  unfold crc_load_le
  have q1 : b0 < 2 ^ 8 := h0
  have q2 : b0 ^^^ b1 <<< 8 < 2 ^ 16 :=
    Nat.xor_lt_two_pow (Nat.lt_of_lt_of_le q1 (by norm_num))
      (shiftLeft_byte_lt h1)
  have q3 : b0 ^^^ b1 <<< 8 ^^^ b2 <<< 16 < 2 ^ 24 :=
    Nat.xor_lt_two_pow (Nat.lt_of_lt_of_le q2 (by norm_num))
      (shiftLeft_byte_lt h2)
  have q4 : b0 ^^^ b1 <<< 8 ^^^ b2 <<< 16 ^^^ b3 <<< 24 < 2 ^ 32 :=
    Nat.xor_lt_two_pow (Nat.lt_of_lt_of_le q3 (by norm_num))
      (shiftLeft_byte_lt h3)
  have q5 : b0 ^^^ b1 <<< 8 ^^^ b2 <<< 16 ^^^ b3 <<< 24 ^^^ b4 <<< 32 <
      2 ^ 40 :=
    Nat.xor_lt_two_pow (Nat.lt_of_lt_of_le q4 (by norm_num))
      (shiftLeft_byte_lt h4)
  have q6 : b0 ^^^ b1 <<< 8 ^^^ b2 <<< 16 ^^^ b3 <<< 24 ^^^ b4 <<< 32 ^^^
      b5 <<< 40 < 2 ^ 48 :=
    Nat.xor_lt_two_pow (Nat.lt_of_lt_of_le q5 (by norm_num))
      (shiftLeft_byte_lt h5)
  have q7 : b0 ^^^ b1 <<< 8 ^^^ b2 <<< 16 ^^^ b3 <<< 24 ^^^ b4 <<< 32 ^^^
      b5 <<< 40 ^^^ b6 <<< 48 < 2 ^ 56 :=
    Nat.xor_lt_two_pow (Nat.lt_of_lt_of_le q6 (by norm_num))
      (shiftLeft_byte_lt h6)
  rw [or_lane_eq_xor q1 b1, or_lane_eq_xor q2 b2, or_lane_eq_xor q3 b3,
    or_lane_eq_xor q4 b4, or_lane_eq_xor q5 b5, or_lane_eq_xor q6 b6,
    or_lane_eq_xor q7 b7]

theorem lanes_disjoint {b c : Nat} (hc : c < 256) {s t : Nat}
    (h : t + 8 ≤ s) : (b <<< s) &&& (c <<< t) = 0 := by
  rw [Nat.and_comm]
  apply disjoint_lane _ b
  apply Nat.lt_of_lt_of_le (shiftLeft_byte_lt hc)
  apply Nat.pow_le_pow_right (by norm_num)
  omega

theorem lanes_disjoint0 {b c : Nat} (hc : c < 256) {s : Nat}
    (h : 8 ≤ s) : (b <<< s) &&& c = 0 := by
  rw [Nat.and_comm]
  apply disjoint_lane _ b
  apply Nat.lt_of_lt_of_le hc
  calc (256 : Nat) = 2 ^ 8 := rfl
    _ ≤ 2 ^ s := Nat.pow_le_pow_right (by norm_num) h

theorem load_be_xor {b0 b1 b2 b3 b4 b5 b6 b7 : Nat} (h0 : b0 < 256)
    (h1 : b1 < 256) (h2 : b2 < 256) (h3 : b3 < 256) (h4 : b4 < 256)
    (h5 : b5 < 256) (h6 : b6 < 256) (h7 : b7 < 256) :
    crc_load_be b0 b1 b2 b3 b4 b5 b6 b7 =
      b0 <<< 56 ^^^ b1 <<< 48 ^^^ b2 <<< 40 ^^^ b3 <<< 32 ^^^ b4 <<< 24 ^^^ b5 <<< 16 ^^^ b6 <<< 8 ^^^ b7 := by
  unfold crc_load_be
  have z01 : (b0 <<< 56) &&& (b1 <<< 48) = 0 :=
    lanes_disjoint h1 (by norm_num)
  have z02 : (b0 <<< 56) &&& (b2 <<< 40) = 0 :=
    lanes_disjoint h2 (by norm_num)
  have z12 : (b1 <<< 48) &&& (b2 <<< 40) = 0 :=
    lanes_disjoint h2 (by norm_num)
  have z03 : (b0 <<< 56) &&& (b3 <<< 32) = 0 :=
    lanes_disjoint h3 (by norm_num)
  have z13 : (b1 <<< 48) &&& (b3 <<< 32) = 0 :=
    lanes_disjoint h3 (by norm_num)
  have z23 : (b2 <<< 40) &&& (b3 <<< 32) = 0 :=
    lanes_disjoint h3 (by norm_num)
  have z04 : (b0 <<< 56) &&& (b4 <<< 24) = 0 :=
    lanes_disjoint h4 (by norm_num)
  have z14 : (b1 <<< 48) &&& (b4 <<< 24) = 0 :=
    lanes_disjoint h4 (by norm_num)
  have z24 : (b2 <<< 40) &&& (b4 <<< 24) = 0 :=
    lanes_disjoint h4 (by norm_num)
  have z34 : (b3 <<< 32) &&& (b4 <<< 24) = 0 :=
    lanes_disjoint h4 (by norm_num)
  have z05 : (b0 <<< 56) &&& (b5 <<< 16) = 0 :=
    lanes_disjoint h5 (by norm_num)
  have z15 : (b1 <<< 48) &&& (b5 <<< 16) = 0 :=
    lanes_disjoint h5 (by norm_num)
  have z25 : (b2 <<< 40) &&& (b5 <<< 16) = 0 :=
    lanes_disjoint h5 (by norm_num)
  have z35 : (b3 <<< 32) &&& (b5 <<< 16) = 0 :=
    lanes_disjoint h5 (by norm_num)
  have z45 : (b4 <<< 24) &&& (b5 <<< 16) = 0 :=
    lanes_disjoint h5 (by norm_num)
  have z06 : (b0 <<< 56) &&& (b6 <<< 8) = 0 :=
    lanes_disjoint h6 (by norm_num)
  have z16 : (b1 <<< 48) &&& (b6 <<< 8) = 0 :=
    lanes_disjoint h6 (by norm_num)
  have z26 : (b2 <<< 40) &&& (b6 <<< 8) = 0 :=
    lanes_disjoint h6 (by norm_num)
  have z36 : (b3 <<< 32) &&& (b6 <<< 8) = 0 :=
    lanes_disjoint h6 (by norm_num)
  have z46 : (b4 <<< 24) &&& (b6 <<< 8) = 0 :=
    lanes_disjoint h6 (by norm_num)
  have z56 : (b5 <<< 16) &&& (b6 <<< 8) = 0 :=
    lanes_disjoint h6 (by norm_num)
  have z07 : (b0 <<< 56) &&& b7 = 0 :=
    lanes_disjoint0 h7 (by norm_num)
  have z17 : (b1 <<< 48) &&& b7 = 0 :=
    lanes_disjoint0 h7 (by norm_num)
  have z27 : (b2 <<< 40) &&& b7 = 0 :=
    lanes_disjoint0 h7 (by norm_num)
  have z37 : (b3 <<< 32) &&& b7 = 0 :=
    lanes_disjoint0 h7 (by norm_num)
  have z47 : (b4 <<< 24) &&& b7 = 0 :=
    lanes_disjoint0 h7 (by norm_num)
  have z57 : (b5 <<< 16) &&& b7 = 0 :=
    lanes_disjoint0 h7 (by norm_num)
  have z67 : (b6 <<< 8) &&& b7 = 0 :=
    lanes_disjoint0 h7 (by norm_num)
  have d1 : (b0 <<< 56) &&& (b1 <<< 48) = 0 := z01
  have d2 : (b0 <<< 56 ^^^ b1 <<< 48) &&& (b2 <<< 40) = 0 := by
    simp only [Nat.and_xor_distrib_right, z02, z12, Nat.xor_zero]
  have d3 : (b0 <<< 56 ^^^ b1 <<< 48 ^^^ b2 <<< 40) &&& (b3 <<< 32) = 0 := by
    simp only [Nat.and_xor_distrib_right, z03, z13, z23, Nat.xor_zero]
  have d4 : (b0 <<< 56 ^^^ b1 <<< 48 ^^^ b2 <<< 40 ^^^ b3 <<< 32) &&& (b4 <<< 24) = 0 := by
    simp only [Nat.and_xor_distrib_right, z04, z14, z24, z34, Nat.xor_zero]
  have d5 : (b0 <<< 56 ^^^ b1 <<< 48 ^^^ b2 <<< 40 ^^^ b3 <<< 32 ^^^ b4 <<< 24) &&& (b5 <<< 16) = 0 := by
    simp only [Nat.and_xor_distrib_right, z05, z15, z25, z35, z45, Nat.xor_zero]
  have d6 : (b0 <<< 56 ^^^ b1 <<< 48 ^^^ b2 <<< 40 ^^^ b3 <<< 32 ^^^ b4 <<< 24 ^^^ b5 <<< 16) &&& (b6 <<< 8) = 0 := by
    simp only [Nat.and_xor_distrib_right, z06, z16, z26, z36, z46, z56, Nat.xor_zero]
  have d7 : (b0 <<< 56 ^^^ b1 <<< 48 ^^^ b2 <<< 40 ^^^ b3 <<< 32 ^^^ b4 <<< 24 ^^^ b5 <<< 16 ^^^ b6 <<< 8) &&& (b7) = 0 := by
    simp only [Nat.and_xor_distrib_right, z07, z17, z27, z37, z47, z57, z67, Nat.xor_zero]
  rw [or_eq_xor_of_disjoint d1, or_eq_xor_of_disjoint d2, or_eq_xor_of_disjoint d3, or_eq_xor_of_disjoint d4, or_eq_xor_of_disjoint d5, or_eq_xor_of_disjoint d6, or_eq_xor_of_disjoint d7]

theorem load_le_lt {b0 b1 b2 b3 b4 b5 b6 b7 : Nat} (h0 : b0 < 256)
    (h1 : b1 < 256) (h2 : b2 < 256) (h3 : b3 < 256) (h4 : b4 < 256)
    (h5 : b5 < 256) (h6 : b6 < 256) (h7 : b7 < 256) :
    crc_load_le b0 b1 b2 b3 b4 b5 b6 b7 < 2 ^ 64 := by
  rw [load_le_xor h0 h1 h2 h3 h4 h5 h6 h7]
  refine Nat.xor_lt_two_pow (Nat.xor_lt_two_pow (Nat.xor_lt_two_pow
    (Nat.xor_lt_two_pow (Nat.xor_lt_two_pow (Nat.xor_lt_two_pow
      (Nat.xor_lt_two_pow ?_ ?_) ?_) ?_) ?_) ?_) ?_) ?_
  · exact Nat.lt_of_lt_of_le h0 (by norm_num)
  · exact lane_lt64 h1 (by norm_num)
  · exact lane_lt64 h2 (by norm_num)
  · exact lane_lt64 h3 (by norm_num)
  · exact lane_lt64 h4 (by norm_num)
  · exact lane_lt64 h5 (by norm_num)
  · exact lane_lt64 h6 (by norm_num)
  · exact lane_lt64 h7 (by norm_num)

theorem load_be_lt {b0 b1 b2 b3 b4 b5 b6 b7 : Nat} (h0 : b0 < 256)
    (h1 : b1 < 256) (h2 : b2 < 256) (h3 : b3 < 256) (h4 : b4 < 256)
    (h5 : b5 < 256) (h6 : b6 < 256) (h7 : b7 < 256) :
    crc_load_be b0 b1 b2 b3 b4 b5 b6 b7 < 2 ^ 64 := by
  rw [load_be_xor h0 h1 h2 h3 h4 h5 h6 h7]
  refine Nat.xor_lt_two_pow (Nat.xor_lt_two_pow (Nat.xor_lt_two_pow
    (Nat.xor_lt_two_pow (Nat.xor_lt_two_pow (Nat.xor_lt_two_pow
      (Nat.xor_lt_two_pow ?_ ?_) ?_) ?_) ?_) ?_) ?_) ?_
  · exact lane_lt64 h0 (by norm_num)
  · exact lane_lt64 h1 (by norm_num)
  · exact lane_lt64 h2 (by norm_num)
  · exact lane_lt64 h3 (by norm_num)
  · exact lane_lt64 h4 (by norm_num)
  · exact lane_lt64 h5 (by norm_num)
  · exact lane_lt64 h6 (by norm_num)
  · exact Nat.lt_of_lt_of_le h7 (by norm_num)

theorem byteswap_load_le {b0 b1 b2 b3 b4 b5 b6 b7 : Nat} (h0 : b0 < 256)
    (h1 : b1 < 256) (h2 : b2 < 256) (h3 : b3 < 256) (h4 : b4 < 256)
    (h5 : b5 < 256) (h6 : b6 < 256) (h7 : b7 < 256) :
    crc_u64_byteswap (crc_load_le b0 b1 b2 b3 b4 b5 b6 b7) =
      crc_load_be b0 b1 b2 b3 b4 b5 b6 b7 := by
  rw [load_le_xor h0 h1 h2 h3 h4 h5 h6 h7, load_be_xor h0 h1 h2 h3 h4 h5 h6 h7]
  simp only [crc_u64_byteswap_add]
  rw [byteswap_lane0 h0, byteswap_lane1 h1, byteswap_lane2 h2,
    byteswap_lane3 h3, byteswap_lane4 h4, byteswap_lane5 h5,
    byteswap_lane6 h6, byteswap_lane7 h7]

theorem byteswap_load_be {b0 b1 b2 b3 b4 b5 b6 b7 : Nat} (h0 : b0 < 256)
    (h1 : b1 < 256) (h2 : b2 < 256) (h3 : b3 < 256) (h4 : b4 < 256)
    (h5 : b5 < 256) (h6 : b6 < 256) (h7 : b7 < 256) :
    crc_u64_byteswap (crc_load_be b0 b1 b2 b3 b4 b5 b6 b7) =
      crc_load_le b0 b1 b2 b3 b4 b5 b6 b7 := by
  rw [← byteswap_load_le h0 h1 h2 h3 h4 h5 h6 h7,
    byteswap_involution (load_le_lt h0 h1 h2 h3 h4 h5 h6 h7)]

/-! ### The slicing-table recurrence -/

/-- The slice recurrence of `crcu64_impl_tabulate_wordwise`: one bytewise
update with a zero input byte. -/
def crcu64_zero_byte_step (impl : crcu64_impl) : Nat → Nat :=
  fun a => crcu64_update_byte_bytewise impl.refin
    (crcu64_impl_tabulate_bytewise impl) a 0

/-- The un-byteswapped contents of the slicing-by-8 table. -/
def crcu64_slice_table (impl : crcu64_impl) : Nat → Nat → Nat :=
  fun slice byte => (crcu64_zero_byte_step impl)^[slice]
    (crcu64_impl_tabulate_bytewise impl byte)

theorem tabulate_wordwise_eq (le : Bool) (impl : crcu64_impl) (s i : Nat) :
    crcu64_impl_tabulate_wordwise le impl s i =
      if le != impl.refin then crc_u64_byteswap (crcu64_slice_table impl s i)
      else crcu64_slice_table impl s i := rfl

theorem tabulate_bytewise_zero (impl : crcu64_impl) :
    crcu64_impl_tabulate_bytewise impl 0 = 0 := by
  cases hr : impl.refin
  · rw [tabulate_bytewise_normal hr, Nat.zero_shiftLeft]
    rw [show trunc64 0 = 0 from rfl]
    exact iterate_fix_zero (crc_step_normal_zero _) 8
  · rw [tabulate_bytewise_reflected hr]
    exact iterate_fix_zero (crc_step_reflected_zero _) 8

/-! Reflected form of the slice recurrence. -/

theorem zero_byte_step_reflected {impl : crcu64_impl} (hr : impl.refin = true)
    (a : Nat) : crcu64_zero_byte_step impl a =
      crcu64_impl_tabulate_bytewise impl (a &&& 0xFF) ^^^ (a >>> 8) := by
  unfold crcu64_zero_byte_step
  rw [hr, update_byte_bytewise_true, Nat.zero_xor]

theorem zero_byte_step_reflected_add {impl : crcu64_impl}
    (hr : impl.refin = true) (x y : Nat) :
    crcu64_zero_byte_step impl (x ^^^ y) =
      crcu64_zero_byte_step impl x ^^^ crcu64_zero_byte_step impl y := by
  rw [zero_byte_step_reflected hr, zero_byte_step_reflected hr,
    zero_byte_step_reflected hr, tabulate_bytewise_reflected hr,
    tabulate_bytewise_reflected hr, tabulate_bytewise_reflected hr,
    Nat.and_xor_distrib_right, iterate_add (crc_step_reflected_add _) 8,
    xor_shiftRight_distrib]
  exact xor_xor_xor_comm _ _ _ _

theorem zero_byte_step_reflected_shift {impl : crcu64_impl}
    (hr : impl.refin = true) (y : Nat) :
    crcu64_zero_byte_step impl (y <<< 8) = y := by
  rw [zero_byte_step_reflected hr, shiftLeft_and_255_eq_zero (Nat.le_refl 8),
    shiftLeft_shiftRight_cancel, tabulate_bytewise_zero, Nat.zero_xor]

theorem byte_step_reflected {impl : crcu64_impl} (hr : impl.refin = true)
    {b : Nat} (hb : b < 256) (a : Nat) :
    crcu64_update_byte_bytewise impl.refin
        (crcu64_impl_tabulate_bytewise impl) a b =
      crcu64_zero_byte_step impl (a ^^^ b) := by
  rw [hr, update_byte_bytewise_true, zero_byte_step_reflected hr,
    xor_shiftRight_distrib, shiftRight_byte_zero hb (Nat.le_refl 8),
    Nat.xor_zero, Nat.xor_comm b a]

/-! Non-reflected form of the slice recurrence. -/

theorem zero_byte_step_normal {impl : crcu64_impl} (hr : impl.refin = false)
    (a : Nat) : crcu64_zero_byte_step impl a =
      trunc64 (a <<< 8) ^^^
        crcu64_impl_tabulate_bytewise impl ((a >>> 56) &&& 0xFF) := by
  unfold crcu64_zero_byte_step
  rw [hr, update_byte_bytewise_false, Nat.zero_xor]

theorem zero_byte_step_normal_add {impl : crcu64_impl}
    (hr : impl.refin = false) (x y : Nat) :
    crcu64_zero_byte_step impl (x ^^^ y) =
      crcu64_zero_byte_step impl x ^^^ crcu64_zero_byte_step impl y := by
  rw [zero_byte_step_normal hr, zero_byte_step_normal hr,
    zero_byte_step_normal hr, tabulate_bytewise_normal hr,
    tabulate_bytewise_normal hr, tabulate_bytewise_normal hr,
    xor_shiftRight_distrib, Nat.and_xor_distrib_right, xor_shiftLeft_distrib,
    trunc64_xor, xor_shiftLeft_distrib, trunc64_xor,
    iterate_add (crc_step_normal_add _) 8]
  exact xor_xor_xor_comm _ _ _ _

theorem byte_step_normal {impl : crcu64_impl} (hr : impl.refin = false)
    (b a : Nat) :
    crcu64_update_byte_bytewise impl.refin
        (crcu64_impl_tabulate_bytewise impl) a b =
      crcu64_zero_byte_step impl (a ^^^ b <<< 56) := by
  rw [hr, update_byte_bytewise_false, zero_byte_step_normal hr,
    xor_shiftLeft_distrib, trunc64_xor, Nat.shiftLeft_shiftLeft,
    show (56 : Nat) + 8 = 64 from rfl,
    show trunc64 (b <<< 64) = 0 by
      rw [Nat.shiftLeft_eq]
      exact Nat.mul_mod_left b (2 ^ 64),
    Nat.xor_zero, xor_shiftRight_distrib, shiftLeft_shiftRight_cancel,
    Nat.xor_comm b (a >>> 56)]

theorem zero_byte_step_normal_shiftdown {impl : crcu64_impl}
    (hr : impl.refin = false) {v : Nat} (hv : v < 2 ^ 64)
    (hd : (2 ^ 8 : Nat) ∣ v) :
    crcu64_zero_byte_step impl (v >>> 8) = v := by
  rw [zero_byte_step_normal hr]
  have h1 : (v >>> 8) <<< 8 = v := by
    rw [Nat.shiftRight_eq_div_pow, Nat.shiftLeft_eq]
    exact Nat.div_mul_cancel hd
  have h2 : (v >>> 8) >>> 56 = 0 := by
    rw [← Nat.shiftRight_add, Nat.shiftRight_eq_div_pow]
    exact Nat.div_eq_of_lt hv
  rw [h1, trunc64_of_lt hv, h2]
  rw [show (0 : Nat) &&& 0xFF = 0 from rfl, tabulate_bytewise_zero,
    Nat.xor_zero]

/-! Per-block fold characterizations. -/

/-- The 8 block bytes as loaded into the low lanes (reflected orientation). -/
def crc_load_low : List (Fin 256) → Nat
  | [] => 0
  | b :: bs => b.val ^^^ (crc_load_low bs <<< 8)

/-- The 8 block bytes as loaded into the high lanes (normal orientation). -/
def crc_load_top : List (Fin 256) → Nat
  | [] => 0
  | b :: bs => (b.val <<< 56) ^^^ (crc_load_top bs >>> 8)

theorem fold_block_reflected {impl : crcu64_impl} (hr : impl.refin = true) :
    ∀ (bs : List (Fin 256)) (a : Nat),
      bs.foldl (fun x b => crcu64_update_byte_bytewise impl.refin
        (crcu64_impl_tabulate_bytewise impl) x b.val) a =
      (crcu64_zero_byte_step impl)^[bs.length] (a ^^^ crc_load_low bs) := by
  intro bs
  induction bs with
  | nil => intro a; simp [crc_load_low]
  | cons b bs ih =>
    intro a
    rw [List.foldl_cons, byte_step_reflected hr b.isLt, ih,
      show crc_load_low (b :: bs) = b.val ^^^ (crc_load_low bs <<< 8) from rfl,
      List.length_cons]
    conv_rhs => rw [Function.iterate_succ_apply, ← Nat.xor_assoc,
      zero_byte_step_reflected_add hr, zero_byte_step_reflected_shift hr]

theorem mod_two_pow_xor (k x y : Nat) :
    (x ^^^ y) % 2 ^ k = (x % 2 ^ k) ^^^ (y % 2 ^ k) := by
  apply Nat.eq_of_testBit_eq
  intro i
  simp only [Nat.testBit_mod_two_pow, Nat.testBit_xor]
  by_cases h : i < k <;> simp [h]

theorem dvd_xor_two_pow {k x y : Nat} (hx : (2 ^ k : Nat) ∣ x)
    (hy : (2 ^ k : Nat) ∣ y) : (2 ^ k : Nat) ∣ (x ^^^ y) := by
  rw [Nat.dvd_iff_mod_eq_zero] at hx hy ⊢
  rw [mod_two_pow_xor, hx, hy]
  simp

theorem dvd_shiftRight8 {k x : Nat} (h : (2 ^ (k + 8) : Nat) ∣ x) :
    (2 ^ k : Nat) ∣ (x >>> 8) := by
  obtain ⟨c, rfl⟩ := h
  rw [Nat.shiftRight_eq_div_pow, Nat.pow_add, Nat.mul_assoc,
    Nat.mul_comm (2 ^ 8) c, ← Nat.mul_assoc,
    Nat.mul_div_cancel _ (Nat.pos_pow_of_pos 8 (by norm_num))]
  exact Dvd.intro c rfl

theorem load_top_lt (bs : List (Fin 256)) : crc_load_top bs < 2 ^ 64 := by
  induction bs with
  | nil => norm_num [crc_load_top]
  | cons b bs ih =>
    rw [show crc_load_top (b :: bs) =
      (b.val <<< 56) ^^^ (crc_load_top bs >>> 8) from rfl]
    exact Nat.xor_lt_two_pow (lane_lt64 b.isLt (Nat.le_refl 56))
      (Nat.lt_of_le_of_lt (shiftRight_le_self _ _) ih)

theorem load_top_dvd :
    ∀ (bs : List (Fin 256)), bs.length ≤ 7 →
      (2 ^ (8 * (8 - bs.length)) : Nat) ∣ crc_load_top bs := by
  intro bs
  induction bs with
  | nil => intro _; exact Dvd.intro 0 rfl
  | cons b bs ih =>
    intro hlen
    rw [List.length_cons] at hlen ⊢
    rw [show crc_load_top (b :: bs) =
      (b.val <<< 56) ^^^ (crc_load_top bs >>> 8) from rfl]
    apply dvd_xor_two_pow
    · rw [Nat.shiftLeft_eq]
      apply Dvd.dvd.mul_left
      apply Nat.pow_dvd_pow
      omega
    · have h8 : 8 * (8 - (bs.length + 1)) + 8 = 8 * (8 - bs.length) := by
        omega
      apply dvd_shiftRight8
      rw [h8]
      exact ih (by omega)

theorem load_top_dvd_256 {bs : List (Fin 256)} (hlen : bs.length ≤ 7) :
    (2 ^ 8 : Nat) ∣ crc_load_top bs := by
  apply Nat.dvd_trans _ (load_top_dvd bs hlen)
  apply Nat.pow_dvd_pow
  omega

theorem fold_block_normal {impl : crcu64_impl} (hr : impl.refin = false) :
    ∀ (bs : List (Fin 256)), bs.length ≤ 8 → ∀ (a : Nat),
      bs.foldl (fun x b => crcu64_update_byte_bytewise impl.refin
        (crcu64_impl_tabulate_bytewise impl) x b.val) a =
      (crcu64_zero_byte_step impl)^[bs.length] (a ^^^ crc_load_top bs) := by
  intro bs
  induction bs with
  | nil => intro _ a; simp [crc_load_top]
  | cons b bs ih =>
    intro hlen a
    rw [List.length_cons] at hlen
    rw [List.foldl_cons, byte_step_normal hr, ih (by omega),
      show crc_load_top (b :: bs) =
        (b.val <<< 56) ^^^ (crc_load_top bs >>> 8) from rfl,
      List.length_cons]
    conv_rhs => rw [Function.iterate_succ_apply, ← Nat.xor_assoc,
      zero_byte_step_normal_add hr,
      zero_byte_step_normal_shiftdown hr (load_top_lt bs)
        (load_top_dvd_256 (by omega))]

/-! ### Per-lane behaviour of the zero-byte step -/

theorem zero_byte_step_iterate_shift {impl : crcu64_impl}
    (hr : impl.refin = true) :
    ∀ (j b : Nat), (crcu64_zero_byte_step impl)^[j] (b <<< (8 * j)) = b := by
  intro j
  induction j with
  | zero => intro b; simp
  | succ j ih =>
    intro b
    have h1 : b <<< (8 * (j + 1)) = (b <<< (8 * j)) <<< 8 := by
      rw [← Nat.shiftLeft_add, Nat.mul_succ]
    rw [h1, Function.iterate_succ_apply, zero_byte_step_reflected_shift hr]
    exact ih b

theorem zero_byte_step_reflected_byte {impl : crcu64_impl}
    (hr : impl.refin = true) {b : Nat} (hb : b < 256) :
    crcu64_zero_byte_step impl b = crcu64_impl_tabulate_bytewise impl b := by
  rw [zero_byte_step_reflected hr, and_255_of_lt hb,
    shiftRight_byte_zero hb (Nat.le_refl 8), Nat.xor_zero]

theorem reflected_lane {impl : crcu64_impl} (hr : impl.refin = true)
    (j : Nat) (hj : j ≤ 7) {b : Nat} (hb : b < 256) :
    (crcu64_zero_byte_step impl)^[8] (b <<< (8 * j)) =
      crcu64_slice_table impl (7 - j) b := by
  have h8 : (8 : Nat) = 7 - j + 1 + j := by omega
  nth_rewrite 1 [h8]
  rw [Function.iterate_add_apply, Function.iterate_add_apply,
    zero_byte_step_iterate_shift hr j b, Function.iterate_one,
    zero_byte_step_reflected_byte hr hb]
  rfl

theorem zero_byte_step_normal_top {impl : crcu64_impl}
    (hr : impl.refin = false) {b : Nat} (hb : b < 256) :
    crcu64_zero_byte_step impl (b <<< 56) =
      crcu64_impl_tabulate_bytewise impl b := by
  have h1 : trunc64 ((b <<< 56) <<< 8) = 0 := by
    rw [← Nat.shiftLeft_add, Nat.shiftLeft_eq]
    exact Nat.mul_mod_left b (2 ^ 64)
  rw [zero_byte_step_normal hr, h1, shiftLeft_shiftRight_cancel,
    and_255_of_lt hb, Nat.zero_xor]

theorem zero_byte_step_normal_mid {impl : crcu64_impl}
    (hr : impl.refin = false) {b : Nat} (hb : b < 256) (j : Nat)
    (hj : j ≤ 6) :
    crcu64_zero_byte_step impl (b <<< (8 * j)) = b <<< (8 * (j + 1)) := by
  have hlt : b <<< (8 * j) < 2 ^ 56 := by
    apply Nat.lt_of_lt_of_le (shiftLeft_byte_lt hb)
    apply Nat.pow_le_pow_right (by norm_num)
    omega
  have h56 : (b <<< (8 * j)) >>> 56 = 0 := by
    rw [Nat.shiftRight_eq_div_pow]
    apply Nat.div_eq_of_lt
    exact Nat.lt_of_lt_of_le hlt (by norm_num)
  have h64 : (b <<< (8 * j)) <<< 8 < 2 ^ 64 := by
    rw [← Nat.shiftLeft_add]
    apply Nat.lt_of_lt_of_le (shiftLeft_byte_lt hb)
    apply Nat.pow_le_pow_right (by norm_num)
    omega
  rw [zero_byte_step_normal hr, h56,
    show (0 : Nat) &&& 0xFF = 0 from rfl, tabulate_bytewise_zero,
    Nat.xor_zero, trunc64_of_lt h64, ← Nat.shiftLeft_add, Nat.mul_succ]

theorem normal_lane_climb {impl : crcu64_impl} (hr : impl.refin = false) :
    ∀ (i : Nat), i ≤ 7 → ∀ {b : Nat}, b < 256 →
      (crcu64_zero_byte_step impl)^[i + 1] (b <<< (8 * (7 - i))) =
        crcu64_impl_tabulate_bytewise impl b := by
  intro i
  induction i with
  | zero =>
    intro _ b hb
    simpa using zero_byte_step_normal_top hr hb
  | succ i ih =>
    intro hi b hb
    rw [Function.iterate_succ_apply,
      zero_byte_step_normal_mid hr hb (7 - (i + 1)) (by omega),
      show 8 * (7 - (i + 1) + 1) = 8 * (7 - i) by
        have : i + 1 ≤ 7 := hi
        omega]
    exact ih (by omega) hb

theorem normal_lane {impl : crcu64_impl} (hr : impl.refin = false)
    (j : Nat) (hj : j ≤ 7) {b : Nat} (hb : b < 256) :
    (crcu64_zero_byte_step impl)^[8] (b <<< (8 * j)) =
      crcu64_slice_table impl j b := by
  have h8 : (8 : Nat) = j + (8 - j) := by omega
  nth_rewrite 1 [h8]
  rw [Function.iterate_add_apply, show 8 - j = 7 - j + 1 by omega,
    show 8 * j = 8 * (7 - (7 - j)) by omega,
    normal_lane_climb hr (7 - j) (by omega) hb]
  rfl

theorem wordwise_little_eq_iterate {impl : crcu64_impl}
    (hr : impl.refin = true) {v : Nat} (hv : v < 2 ^ 64) :
    crcu64_wordwise_little (crcu64_slice_table impl) v =
      (crcu64_zero_byte_step impl)^[8] v := by
  have t0 : (crcu64_zero_byte_step impl)^[8] (v &&& 0xFF) =
      crcu64_slice_table impl 7 (v &&& 0xFF) :=
    reflected_lane hr 0 (by norm_num) (and_255_lt v)
  have t1 : (crcu64_zero_byte_step impl)^[8] (((v >>> 8) &&& 0xFF) <<< 8) =
      crcu64_slice_table impl 6 ((v >>> 8) &&& 0xFF) :=
    reflected_lane hr 1 (by norm_num) (and_255_lt _)
  have t2 : (crcu64_zero_byte_step impl)^[8] (((v >>> 16) &&& 0xFF) <<< 16) =
      crcu64_slice_table impl 5 ((v >>> 16) &&& 0xFF) :=
    reflected_lane hr 2 (by norm_num) (and_255_lt _)
  have t3 : (crcu64_zero_byte_step impl)^[8] (((v >>> 24) &&& 0xFF) <<< 24) =
      crcu64_slice_table impl 4 ((v >>> 24) &&& 0xFF) :=
    reflected_lane hr 3 (by norm_num) (and_255_lt _)
  have t4 : (crcu64_zero_byte_step impl)^[8] (((v >>> 32) &&& 0xFF) <<< 32) =
      crcu64_slice_table impl 3 ((v >>> 32) &&& 0xFF) :=
    reflected_lane hr 4 (by norm_num) (and_255_lt _)
  have t5 : (crcu64_zero_byte_step impl)^[8] (((v >>> 40) &&& 0xFF) <<< 40) =
      crcu64_slice_table impl 2 ((v >>> 40) &&& 0xFF) :=
    reflected_lane hr 5 (by norm_num) (and_255_lt _)
  have t6 : (crcu64_zero_byte_step impl)^[8] (((v >>> 48) &&& 0xFF) <<< 48) =
      crcu64_slice_table impl 1 ((v >>> 48) &&& 0xFF) :=
    reflected_lane hr 6 (by norm_num) (and_255_lt _)
  have t7 : (crcu64_zero_byte_step impl)^[8] (((v >>> 56) &&& 0xFF) <<< 56) =
      crcu64_slice_table impl 0 ((v >>> 56) &&& 0xFF) :=
    reflected_lane hr 7 (by norm_num) (and_255_lt _)
  conv_rhs => rw [lane_decomp hv]
  simp only [iterate_add (zero_byte_step_reflected_add hr) 8]
  rw [t0, t1, t2, t3, t4, t5, t6, t7]
  unfold crcu64_wordwise_little
  rw [Nat.shiftRight_zero]

theorem wordwise_big_eq_iterate {impl : crcu64_impl}
    (hr : impl.refin = false) {v : Nat} (hv : v < 2 ^ 64) :
    crcu64_wordwise_big (crcu64_slice_table impl) v =
      (crcu64_zero_byte_step impl)^[8] v := by
  have t0 : (crcu64_zero_byte_step impl)^[8] (v &&& 0xFF) =
      crcu64_slice_table impl 0 (v &&& 0xFF) :=
    normal_lane hr 0 (by norm_num) (and_255_lt v)
  have t1 : (crcu64_zero_byte_step impl)^[8] (((v >>> 8) &&& 0xFF) <<< 8) =
      crcu64_slice_table impl 1 ((v >>> 8) &&& 0xFF) :=
    normal_lane hr 1 (by norm_num) (and_255_lt _)
  have t2 : (crcu64_zero_byte_step impl)^[8] (((v >>> 16) &&& 0xFF) <<< 16) =
      crcu64_slice_table impl 2 ((v >>> 16) &&& 0xFF) :=
    normal_lane hr 2 (by norm_num) (and_255_lt _)
  have t3 : (crcu64_zero_byte_step impl)^[8] (((v >>> 24) &&& 0xFF) <<< 24) =
      crcu64_slice_table impl 3 ((v >>> 24) &&& 0xFF) :=
    normal_lane hr 3 (by norm_num) (and_255_lt _)
  have t4 : (crcu64_zero_byte_step impl)^[8] (((v >>> 32) &&& 0xFF) <<< 32) =
      crcu64_slice_table impl 4 ((v >>> 32) &&& 0xFF) :=
    normal_lane hr 4 (by norm_num) (and_255_lt _)
  have t5 : (crcu64_zero_byte_step impl)^[8] (((v >>> 40) &&& 0xFF) <<< 40) =
      crcu64_slice_table impl 5 ((v >>> 40) &&& 0xFF) :=
    normal_lane hr 5 (by norm_num) (and_255_lt _)
  have t6 : (crcu64_zero_byte_step impl)^[8] (((v >>> 48) &&& 0xFF) <<< 48) =
      crcu64_slice_table impl 6 ((v >>> 48) &&& 0xFF) :=
    normal_lane hr 6 (by norm_num) (and_255_lt _)
  have t7 : (crcu64_zero_byte_step impl)^[8] (((v >>> 56) &&& 0xFF) <<< 56) =
      crcu64_slice_table impl 7 ((v >>> 56) &&& 0xFF) :=
    normal_lane hr 7 (by norm_num) (and_255_lt _)
  conv_rhs => rw [lane_decomp hv]
  simp only [iterate_add (zero_byte_step_normal_add hr) 8]
  rw [t0, t1, t2, t3, t4, t5, t6, t7]
  unfold crcu64_wordwise_big
  rw [Nat.shiftRight_zero]

/-! ### Byte-swapped table and accumulator conjugation -/

theorem xor_rev8 (x0 x1 x2 x3 x4 x5 x6 x7 : Nat) :
    x7 ^^^ x6 ^^^ x5 ^^^ x4 ^^^ x3 ^^^ x2 ^^^ x1 ^^^ x0 =
      x0 ^^^ x1 ^^^ x2 ^^^ x3 ^^^ x4 ^^^ x5 ^^^ x6 ^^^ x7 := by
  simp only [Nat.xor_assoc]
  simp [Nat.xor_comm, xor_left_comm]

theorem wordwise_little_swap (T : Nat → Nat → Nat) {y : Nat}
    (hy : y < 2 ^ 64) :
    crcu64_wordwise_little (fun s b => crc_u64_byteswap (T s b))
        (crc_u64_byteswap y) =
      crc_u64_byteswap (crcu64_wordwise_big T y) := by
  have e0 : (crc_u64_byteswap y >>> 0) &&& 0xFF = (y >>> 56) &&& 0xFF :=
    @byteswap_byte y hy 0 (by norm_num)
  have e1 : (crc_u64_byteswap y >>> 8) &&& 0xFF = (y >>> 48) &&& 0xFF :=
    @byteswap_byte y hy 1 (by norm_num)
  have e2 : (crc_u64_byteswap y >>> 16) &&& 0xFF = (y >>> 40) &&& 0xFF :=
    @byteswap_byte y hy 2 (by norm_num)
  have e3 : (crc_u64_byteswap y >>> 24) &&& 0xFF = (y >>> 32) &&& 0xFF :=
    @byteswap_byte y hy 3 (by norm_num)
  have e4 : (crc_u64_byteswap y >>> 32) &&& 0xFF = (y >>> 24) &&& 0xFF :=
    @byteswap_byte y hy 4 (by norm_num)
  have e5 : (crc_u64_byteswap y >>> 40) &&& 0xFF = (y >>> 16) &&& 0xFF :=
    @byteswap_byte y hy 5 (by norm_num)
  have e6 : (crc_u64_byteswap y >>> 48) &&& 0xFF = (y >>> 8) &&& 0xFF :=
    @byteswap_byte y hy 6 (by norm_num)
  have e7 : (crc_u64_byteswap y >>> 56) &&& 0xFF = (y >>> 0) &&& 0xFF :=
    @byteswap_byte y hy 7 (by norm_num)
  simp only [crcu64_wordwise_little, crcu64_wordwise_big]
  rw [e0, e1, e2, e3, e4, e5, e6, e7]
  simp only [crc_u64_byteswap_add]
  exact xor_rev8 _ _ _ _ _ _ _ _

theorem wordwise_big_swap (T : Nat → Nat → Nat) {y : Nat}
    (hy : y < 2 ^ 64) :
    crcu64_wordwise_big (fun s b => crc_u64_byteswap (T s b))
        (crc_u64_byteswap y) =
      crc_u64_byteswap (crcu64_wordwise_little T y) := by
  have e0 : (crc_u64_byteswap y >>> 0) &&& 0xFF = (y >>> 56) &&& 0xFF :=
    @byteswap_byte y hy 0 (by norm_num)
  have e1 : (crc_u64_byteswap y >>> 8) &&& 0xFF = (y >>> 48) &&& 0xFF :=
    @byteswap_byte y hy 1 (by norm_num)
  have e2 : (crc_u64_byteswap y >>> 16) &&& 0xFF = (y >>> 40) &&& 0xFF :=
    @byteswap_byte y hy 2 (by norm_num)
  have e3 : (crc_u64_byteswap y >>> 24) &&& 0xFF = (y >>> 32) &&& 0xFF :=
    @byteswap_byte y hy 3 (by norm_num)
  have e4 : (crc_u64_byteswap y >>> 32) &&& 0xFF = (y >>> 24) &&& 0xFF :=
    @byteswap_byte y hy 4 (by norm_num)
  have e5 : (crc_u64_byteswap y >>> 40) &&& 0xFF = (y >>> 16) &&& 0xFF :=
    @byteswap_byte y hy 5 (by norm_num)
  have e6 : (crc_u64_byteswap y >>> 48) &&& 0xFF = (y >>> 8) &&& 0xFF :=
    @byteswap_byte y hy 6 (by norm_num)
  have e7 : (crc_u64_byteswap y >>> 56) &&& 0xFF = (y >>> 0) &&& 0xFF :=
    @byteswap_byte y hy 7 (by norm_num)
  simp only [crcu64_wordwise_little, crcu64_wordwise_big]
  rw [e0, e1, e2, e3, e4, e5, e6, e7]
  simp only [crc_u64_byteswap_add]
  exact (xor_rev8 _ _ _ _ _ _ _ _).symm

/-! ### Eight-byte block lemmas -/

theorem load_low_eq (b0 b1 b2 b3 b4 b5 b6 b7 : Fin 256) :
    crc_load_low [b0, b1, b2, b3, b4, b5, b6, b7] =
      crc_load_le b0.val b1.val b2.val b3.val b4.val b5.val b6.val b7.val := by
  rw [load_le_xor b0.isLt b1.isLt b2.isLt b3.isLt b4.isLt b5.isLt b6.isLt
    b7.isLt]
  simp only [crc_load_low, Nat.zero_shiftLeft, Nat.xor_zero,
    xor_shiftLeft_distrib, Nat.shiftLeft_shiftLeft, Nat.xor_assoc]

theorem load_top_eq (b0 b1 b2 b3 b4 b5 b6 b7 : Fin 256) :
    crc_load_top [b0, b1, b2, b3, b4, b5, b6, b7] =
      crc_load_be b0.val b1.val b2.val b3.val b4.val b5.val b6.val b7.val := by
  have r56 : ∀ b : Nat, (b <<< 56) >>> 8 = b <<< 48 := fun b =>
    shiftLeft_shiftRight_of_le (by norm_num) b
  have r48 : ∀ b : Nat, (b <<< 48) >>> 8 = b <<< 40 := fun b =>
    shiftLeft_shiftRight_of_le (by norm_num) b
  have r40 : ∀ b : Nat, (b <<< 40) >>> 8 = b <<< 32 := fun b =>
    shiftLeft_shiftRight_of_le (by norm_num) b
  have r32 : ∀ b : Nat, (b <<< 32) >>> 8 = b <<< 24 := fun b =>
    shiftLeft_shiftRight_of_le (by norm_num) b
  have r24 : ∀ b : Nat, (b <<< 24) >>> 8 = b <<< 16 := fun b =>
    shiftLeft_shiftRight_of_le (by norm_num) b
  have r16 : ∀ b : Nat, (b <<< 16) >>> 8 = b <<< 8 := fun b =>
    shiftLeft_shiftRight_of_le (by norm_num) b
  have r8 : ∀ b : Nat, (b <<< 8) >>> 8 = b := fun b =>
    shiftLeft_shiftRight_cancel b 8
  rw [load_be_xor b0.isLt b1.isLt b2.isLt b3.isLt b4.isLt b5.isLt b6.isLt
    b7.isLt]
  simp only [crc_load_top, Nat.zero_shiftRight, Nat.xor_zero,
    xor_shiftRight_distrib, r56, r48, r40, r32, r24, r16, r8, Nat.xor_assoc]

/-- The per-byte bytewise step of an engine, shared between the bytewise
kernel and the alignment/tail phases of the wordwise kernel. -/
def crc_bytestep (impl : crcu64_impl) : Nat → Fin 256 → Nat :=
  fun x b => crcu64_update_byte_bytewise impl.refin
    (crcu64_impl_tabulate_bytewise impl) x b.val

theorem fold_byte_lt {impl : crcu64_impl} (hp : impl.poly < 2 ^ 64)
    (data : List (Fin 256)) {a : Nat} (ha : a < 2 ^ 64) :
    data.foldl (crc_bytestep impl) a < 2 ^ 64 := by
  have h : data.foldl (crc_bytestep impl) a =
      data.foldl (fun x b => crcu64_update_byte_bitwise impl.refin impl.poly
        x b.val) a :=
    fold_bytewise_eq_bitwise impl hp data a ha
  rw [h]
  exact fold_bitwise_lt impl.refin hp data a ha

theorem tabulate_wordwise_matched {le : Bool} {impl : crcu64_impl}
    (h : (le != impl.refin) = false) :
    crcu64_impl_tabulate_wordwise le impl = crcu64_slice_table impl := by
  funext s b
  rw [tabulate_wordwise_eq, h]
  simp

theorem tabulate_wordwise_swapped {le : Bool} {impl : crcu64_impl}
    (h : (le != impl.refin) = true) :
    crcu64_impl_tabulate_wordwise le impl =
      fun s b => crc_u64_byteswap (crcu64_slice_table impl s b) := by
  funext s b
  rw [tabulate_wordwise_eq, h]
  simp

theorem block_little_matched {impl : crcu64_impl} (hr : impl.refin = true)
    {a : Nat} (ha : a < 2 ^ 64) (b0 b1 b2 b3 b4 b5 b6 b7 : Fin 256) :
    crcu64_wordwise_little (crcu64_slice_table impl)
        (a ^^^ crc_load_le b0.val b1.val b2.val b3.val b4.val b5.val b6.val
          b7.val) =
      [b0, b1, b2, b3, b4, b5, b6, b7].foldl (crc_bytestep impl) a := by
  have hfold : [b0, b1, b2, b3, b4, b5, b6, b7].foldl (crc_bytestep impl) a =
      (crcu64_zero_byte_step impl)^[8]
        (a ^^^ crc_load_low [b0, b1, b2, b3, b4, b5, b6, b7]) :=
    fold_block_reflected hr [b0, b1, b2, b3, b4, b5, b6, b7] a
  rw [hfold, load_low_eq,
    wordwise_little_eq_iterate hr (Nat.xor_lt_two_pow ha
      (load_le_lt b0.isLt b1.isLt b2.isLt b3.isLt b4.isLt b5.isLt b6.isLt
        b7.isLt))]

theorem block_big_matched {impl : crcu64_impl} (hr : impl.refin = false)
    {a : Nat} (ha : a < 2 ^ 64) (b0 b1 b2 b3 b4 b5 b6 b7 : Fin 256) :
    crcu64_wordwise_big (crcu64_slice_table impl)
        (a ^^^ crc_load_be b0.val b1.val b2.val b3.val b4.val b5.val b6.val
          b7.val) =
      [b0, b1, b2, b3, b4, b5, b6, b7].foldl (crc_bytestep impl) a := by
  have hfold : [b0, b1, b2, b3, b4, b5, b6, b7].foldl (crc_bytestep impl) a =
      (crcu64_zero_byte_step impl)^[8]
        (a ^^^ crc_load_top [b0, b1, b2, b3, b4, b5, b6, b7]) :=
    fold_block_normal hr [b0, b1, b2, b3, b4, b5, b6, b7] (Nat.le_refl 8) a
  rw [hfold, load_top_eq,
    wordwise_big_eq_iterate hr (Nat.xor_lt_two_pow ha
      (load_be_lt b0.isLt b1.isLt b2.isLt b3.isLt b4.isLt b5.isLt b6.isLt
        b7.isLt))]

theorem block_little_swapped {impl : crcu64_impl} (hr : impl.refin = false)
    {a : Nat} (ha : a < 2 ^ 64) (b0 b1 b2 b3 b4 b5 b6 b7 : Fin 256) :
    crcu64_wordwise_little
        (fun s b => crc_u64_byteswap (crcu64_slice_table impl s b))
        (crc_u64_byteswap a ^^^ crc_load_le b0.val b1.val b2.val b3.val
          b4.val b5.val b6.val b7.val) =
      crc_u64_byteswap
        ([b0, b1, b2, b3, b4, b5, b6, b7].foldl (crc_bytestep impl) a) := by
  have hy : a ^^^ crc_load_be b0.val b1.val b2.val b3.val b4.val b5.val
      b6.val b7.val < 2 ^ 64 :=
    Nat.xor_lt_two_pow ha (load_be_lt b0.isLt b1.isLt b2.isLt b3.isLt
      b4.isLt b5.isLt b6.isLt b7.isLt)
  have harg : crc_u64_byteswap a ^^^ crc_load_le b0.val b1.val b2.val b3.val
      b4.val b5.val b6.val b7.val =
      crc_u64_byteswap (a ^^^ crc_load_be b0.val b1.val b2.val b3.val b4.val
        b5.val b6.val b7.val) := by
    rw [crc_u64_byteswap_add, byteswap_load_be b0.isLt b1.isLt b2.isLt
      b3.isLt b4.isLt b5.isLt b6.isLt b7.isLt]
  have hfold : [b0, b1, b2, b3, b4, b5, b6, b7].foldl (crc_bytestep impl) a =
      (crcu64_zero_byte_step impl)^[8]
        (a ^^^ crc_load_top [b0, b1, b2, b3, b4, b5, b6, b7]) :=
    fold_block_normal hr [b0, b1, b2, b3, b4, b5, b6, b7] (Nat.le_refl 8) a
  rw [harg, wordwise_little_swap (crcu64_slice_table impl) hy,
    wordwise_big_eq_iterate hr hy, hfold, load_top_eq]

theorem block_big_swapped {impl : crcu64_impl} (hr : impl.refin = true)
    {a : Nat} (ha : a < 2 ^ 64) (b0 b1 b2 b3 b4 b5 b6 b7 : Fin 256) :
    crcu64_wordwise_big
        (fun s b => crc_u64_byteswap (crcu64_slice_table impl s b))
        (crc_u64_byteswap a ^^^ crc_load_be b0.val b1.val b2.val b3.val
          b4.val b5.val b6.val b7.val) =
      crc_u64_byteswap
        ([b0, b1, b2, b3, b4, b5, b6, b7].foldl (crc_bytestep impl) a) := by
  have hy : a ^^^ crc_load_le b0.val b1.val b2.val b3.val b4.val b5.val
      b6.val b7.val < 2 ^ 64 :=
    Nat.xor_lt_two_pow ha (load_le_lt b0.isLt b1.isLt b2.isLt b3.isLt
      b4.isLt b5.isLt b6.isLt b7.isLt)
  have harg : crc_u64_byteswap a ^^^ crc_load_be b0.val b1.val b2.val b3.val
      b4.val b5.val b6.val b7.val =
      crc_u64_byteswap (a ^^^ crc_load_le b0.val b1.val b2.val b3.val b4.val
        b5.val b6.val b7.val) := by
    rw [crc_u64_byteswap_add, byteswap_load_le b0.isLt b1.isLt b2.isLt
      b3.isLt b4.isLt b5.isLt b6.isLt b7.isLt]
  have hfold : [b0, b1, b2, b3, b4, b5, b6, b7].foldl (crc_bytestep impl) a =
      (crcu64_zero_byte_step impl)^[8]
        (a ^^^ crc_load_low [b0, b1, b2, b3, b4, b5, b6, b7]) :=
    fold_block_reflected hr [b0, b1, b2, b3, b4, b5, b6, b7] a
  rw [harg, wordwise_big_swap (crcu64_slice_table impl) hy,
    wordwise_little_eq_iterate hr hy, hfold, load_low_eq]

/-- The wordwise block loop consumes a maximal prefix of whole 8-byte
blocks and acts on it exactly like the bytewise fold, conjugated by
`crc_u64_byteswap` when the host endianness disagrees with `refin`. -/
theorem wordwise_loop_spec (impl : crcu64_impl) (le : Bool)
    (hp : impl.poly < 2 ^ 64) :
    ∀ (n : Nat) (data : List (Fin 256)), data.length ≤ n →
      ∀ (a : Nat), a < 2 ^ 64 →
      ∃ pre post, data = pre ++ post ∧ post.length < 8 ∧
        crcu64_wordwise_loop le (crcu64_impl_tabulate_wordwise le impl)
          (if le != impl.refin then crc_u64_byteswap a else a) data =
        ((if le != impl.refin then
            crc_u64_byteswap (pre.foldl (crc_bytestep impl) a)
          else pre.foldl (crc_bytestep impl) a), post) := by
  intro n
  induction n with
  | zero =>
    intro data hlen a ha
    have hnil : data = [] :=
      List.eq_nil_of_length_eq_zero (Nat.le_zero.mp hlen)
    subst hnil
    exact ⟨[], [], rfl, by norm_num, by simp [crcu64_wordwise_loop]⟩
  | succ n ih =>
    intro data hlen a ha
    rcases data with _ | ⟨b0, data⟩
    · exact ⟨[], [], rfl, by norm_num, by simp [crcu64_wordwise_loop]⟩
    rcases data with _ | ⟨b1, data⟩
    · exact ⟨[], [b0], rfl, by norm_num, by simp [crcu64_wordwise_loop]⟩
    rcases data with _ | ⟨b2, data⟩
    · exact ⟨[], [b0, b1], rfl, by norm_num,
        by simp [crcu64_wordwise_loop]⟩
    rcases data with _ | ⟨b3, data⟩
    · exact ⟨[], [b0, b1, b2], rfl, by norm_num,
        by simp [crcu64_wordwise_loop]⟩
    rcases data with _ | ⟨b4, data⟩
    · exact ⟨[], [b0, b1, b2, b3], rfl, by norm_num,
        by simp [crcu64_wordwise_loop]⟩
    rcases data with _ | ⟨b5, data⟩
    · exact ⟨[], [b0, b1, b2, b3, b4], rfl, by norm_num,
        by simp [crcu64_wordwise_loop]⟩
    rcases data with _ | ⟨b6, data⟩
    · exact ⟨[], [b0, b1, b2, b3, b4, b5], rfl, by norm_num,
        by simp [crcu64_wordwise_loop]⟩
    rcases data with _ | ⟨b7, data⟩
    · exact ⟨[], [b0, b1, b2, b3, b4, b5, b6], rfl, by norm_num,
        by simp [crcu64_wordwise_loop]⟩
    have hlt : [b0, b1, b2, b3, b4, b5, b6, b7].foldl (crc_bytestep impl) a <
        2 ^ 64 := fold_byte_lt hp _ ha
    have hlen2 : data.length ≤ n := by
      simp only [List.length_cons] at hlen
      omega
    obtain ⟨pre, post, hsplit, hpost, hloop⟩ := ih data hlen2
      ([b0, b1, b2, b3, b4, b5, b6, b7].foldl (crc_bytestep impl) a) hlt
    refine ⟨[b0, b1, b2, b3, b4, b5, b6, b7] ++ pre, post, ?_, hpost, ?_⟩
    · simp [hsplit]
    cases le
    · cases hrf : impl.refin
      · have hif : ∀ x : Nat,
            (if ((false : Bool) != impl.refin) then crc_u64_byteswap x
              else x) = x := by
          intro x
          rw [hrf]
          rfl
        have hmatch : ((false : Bool) != impl.refin) = false := by
          rw [hrf]
          rfl
        have hblock : crcu64_wordwise_big
            (crcu64_impl_tabulate_wordwise false impl)
            (a ^^^ crc_load_be b0.val b1.val b2.val b3.val b4.val b5.val
              b6.val b7.val) =
            [b0, b1, b2, b3, b4, b5, b6, b7].foldl (crc_bytestep impl) a := by
          rw [tabulate_wordwise_matched hmatch]
          exact block_big_matched hrf ha b0 b1 b2 b3 b4 b5 b6 b7
        simp only [hif] at hloop
        show crcu64_wordwise_loop false
            (crcu64_impl_tabulate_wordwise false impl) a
            (b0 :: b1 :: b2 :: b3 :: b4 :: b5 :: b6 :: b7 :: data) =
          (([b0, b1, b2, b3, b4, b5, b6, b7] ++ pre).foldl
            (crc_bytestep impl) a, post)
        rw [show crcu64_wordwise_loop false
              (crcu64_impl_tabulate_wordwise false impl) a
              (b0 :: b1 :: b2 :: b3 :: b4 :: b5 :: b6 :: b7 :: data) =
            crcu64_wordwise_loop false
              (crcu64_impl_tabulate_wordwise false impl)
              (crcu64_wordwise_big
                (crcu64_impl_tabulate_wordwise false impl)
                (a ^^^ crc_load_be b0.val b1.val b2.val b3.val b4.val b5.val
                  b6.val b7.val)) data from rfl,
          hblock, List.foldl_append]
        exact hloop
      · have hif : ∀ x : Nat,
            (if ((false : Bool) != impl.refin) then crc_u64_byteswap x
              else x) = crc_u64_byteswap x := by
          intro x
          rw [hrf]
          rfl
        have hmis : ((false : Bool) != impl.refin) = true := by
          rw [hrf]
          rfl
        have hblock : crcu64_wordwise_big
            (crcu64_impl_tabulate_wordwise false impl)
            (crc_u64_byteswap a ^^^ crc_load_be b0.val b1.val b2.val b3.val
              b4.val b5.val b6.val b7.val) =
            crc_u64_byteswap
              ([b0, b1, b2, b3, b4, b5, b6, b7].foldl (crc_bytestep impl)
                a) := by
          rw [tabulate_wordwise_swapped hmis]
          exact block_big_swapped hrf ha b0 b1 b2 b3 b4 b5 b6 b7
        simp only [hif] at hloop
        show crcu64_wordwise_loop false
            (crcu64_impl_tabulate_wordwise false impl) (crc_u64_byteswap a)
            (b0 :: b1 :: b2 :: b3 :: b4 :: b5 :: b6 :: b7 :: data) =
          (crc_u64_byteswap (([b0, b1, b2, b3, b4, b5, b6, b7] ++ pre).foldl
            (crc_bytestep impl) a), post)
        rw [show crcu64_wordwise_loop false
              (crcu64_impl_tabulate_wordwise false impl) (crc_u64_byteswap a)
              (b0 :: b1 :: b2 :: b3 :: b4 :: b5 :: b6 :: b7 :: data) =
            crcu64_wordwise_loop false
              (crcu64_impl_tabulate_wordwise false impl)
              (crcu64_wordwise_big
                (crcu64_impl_tabulate_wordwise false impl)
                (crc_u64_byteswap a ^^^ crc_load_be b0.val b1.val b2.val
                  b3.val b4.val b5.val b6.val b7.val)) data from rfl,
          hblock, List.foldl_append]
        exact hloop
    · cases hrf : impl.refin
      · have hif : ∀ x : Nat,
            (if ((true : Bool) != impl.refin) then crc_u64_byteswap x
              else x) = crc_u64_byteswap x := by
          intro x
          rw [hrf]
          rfl
        have hmis : ((true : Bool) != impl.refin) = true := by
          rw [hrf]
          rfl
        have hblock : crcu64_wordwise_little
            (crcu64_impl_tabulate_wordwise true impl)
            (crc_u64_byteswap a ^^^ crc_load_le b0.val b1.val b2.val b3.val
              b4.val b5.val b6.val b7.val) =
            crc_u64_byteswap
              ([b0, b1, b2, b3, b4, b5, b6, b7].foldl (crc_bytestep impl)
                a) := by
          rw [tabulate_wordwise_swapped hmis]
          exact block_little_swapped hrf ha b0 b1 b2 b3 b4 b5 b6 b7
        simp only [hif] at hloop
        show crcu64_wordwise_loop true
            (crcu64_impl_tabulate_wordwise true impl) (crc_u64_byteswap a)
            (b0 :: b1 :: b2 :: b3 :: b4 :: b5 :: b6 :: b7 :: data) =
          (crc_u64_byteswap (([b0, b1, b2, b3, b4, b5, b6, b7] ++ pre).foldl
            (crc_bytestep impl) a), post)
        rw [show crcu64_wordwise_loop true
              (crcu64_impl_tabulate_wordwise true impl) (crc_u64_byteswap a)
              (b0 :: b1 :: b2 :: b3 :: b4 :: b5 :: b6 :: b7 :: data) =
            crcu64_wordwise_loop true
              (crcu64_impl_tabulate_wordwise true impl)
              (crcu64_wordwise_little
                (crcu64_impl_tabulate_wordwise true impl)
                (crc_u64_byteswap a ^^^ crc_load_le b0.val b1.val b2.val
                  b3.val b4.val b5.val b6.val b7.val)) data from rfl,
          hblock, List.foldl_append]
        exact hloop
      · have hif : ∀ x : Nat,
            (if ((true : Bool) != impl.refin) then crc_u64_byteswap x
              else x) = x := by
          intro x
          rw [hrf]
          rfl
        have hmatch : ((true : Bool) != impl.refin) = false := by
          rw [hrf]
          rfl
        have hblock : crcu64_wordwise_little
            (crcu64_impl_tabulate_wordwise true impl)
            (a ^^^ crc_load_le b0.val b1.val b2.val b3.val b4.val b5.val
              b6.val b7.val) =
            [b0, b1, b2, b3, b4, b5, b6, b7].foldl (crc_bytestep impl) a := by
          rw [tabulate_wordwise_matched hmatch]
          exact block_little_matched hrf ha b0 b1 b2 b3 b4 b5 b6 b7
        simp only [hif] at hloop
        show crcu64_wordwise_loop true
            (crcu64_impl_tabulate_wordwise true impl) a
            (b0 :: b1 :: b2 :: b3 :: b4 :: b5 :: b6 :: b7 :: data) =
          (([b0, b1, b2, b3, b4, b5, b6, b7] ++ pre).foldl
            (crc_bytestep impl) a, post)
        rw [show crcu64_wordwise_loop true
              (crcu64_impl_tabulate_wordwise true impl) a
              (b0 :: b1 :: b2 :: b3 :: b4 :: b5 :: b6 :: b7 :: data) =
            crcu64_wordwise_loop true
              (crcu64_impl_tabulate_wordwise true impl)
              (crcu64_wordwise_little
                (crcu64_impl_tabulate_wordwise true impl)
                (a ^^^ crc_load_le b0.val b1.val b2.val b3.val b4.val b5.val
                  b6.val b7.val)) data from rfl,
          hblock, List.foldl_append]
        exact hloop

/-! ### Assembling the wordwise kernel -/

theorem update_bitwise_poly (impl : crcu64_impl) (data : List (Fin 256)) :
    (crcu64_impl_update_bitwise impl data).poly = impl.poly := by
  unfold crcu64_impl_update_bitwise
  split <;> rfl

theorem update_bitwise_accum_lt {impl : crcu64_impl}
    (hp : impl.poly < 2 ^ 64) (ha : impl.accum < 2 ^ 64)
    (data : List (Fin 256)) :
    (crcu64_impl_update_bitwise impl data).accum < 2 ^ 64 := by
  unfold crcu64_impl_update_bitwise
  split
  · exact ha
  · exact fold_bitwise_lt impl.refin hp data impl.accum ha

theorem update_bitwise_append (impl : crcu64_impl) (l1 l2 : List (Fin 256)) :
    crcu64_impl_update_bitwise (crcu64_impl_update_bitwise impl l1) l2 =
      crcu64_impl_update_bitwise impl (l1 ++ l2) := by
  rcases l1 with _ | ⟨b, l1⟩
  · rw [show crcu64_impl_update_bitwise impl [] = impl from rfl,
      List.nil_append]
  rcases l2 with _ | ⟨c, l2⟩
  · rw [show crcu64_impl_update_bitwise (crcu64_impl_update_bitwise impl
      (b :: l1)) [] = crcu64_impl_update_bitwise impl (b :: l1) from rfl,
      List.append_nil]
  simp [crcu64_impl_update_bitwise, List.foldl_append]

theorem update_bitwise_of_ne_nil {impl : crcu64_impl} {l : List (Fin 256)}
    (h : l ≠ []) :
    ({ impl with
        accum := l.foldl (fun x b => crcu64_update_byte_bitwise impl.refin
          impl.poly x b.val) impl.accum,
        dirty := true } : crcu64_impl) = crcu64_impl_update_bitwise impl l := by
  rcases l with _ | ⟨b, l⟩
  · exact absurd rfl h
  · rfl

/-- The body of `crcu64_impl_update_wordwise` after the alignment
prologue, for an arbitrary remaining buffer, agrees with the bitwise
kernel. -/
theorem update_wordwise_core (le : Bool) (impl2 : crcu64_impl)
    (hp : impl2.poly < 2 ^ 64) (ha : impl2.accum < 2 ^ 64)
    (data2 : List (Fin 256)) :
    (if 8 ≤ data2.length then
      crcu64_impl_update_bytewise
        { impl2 with
          accum := if le != impl2.refin then
              crc_u64_byteswap (crcu64_wordwise_loop le
                (crcu64_impl_tabulate_wordwise le impl2)
                (if le != impl2.refin then crc_u64_byteswap impl2.accum
                 else impl2.accum) data2).1
            else (crcu64_wordwise_loop le
                (crcu64_impl_tabulate_wordwise le impl2)
                (if le != impl2.refin then crc_u64_byteswap impl2.accum
                 else impl2.accum) data2).1,
          dirty := true }
        (crcu64_wordwise_loop le (crcu64_impl_tabulate_wordwise le impl2)
          (if le != impl2.refin then crc_u64_byteswap impl2.accum
           else impl2.accum) data2).2
    else crcu64_impl_update_bytewise impl2 data2) =
      crcu64_impl_update_bitwise impl2 data2 := by
  by_cases hlen : 8 ≤ data2.length
  · rw [if_pos hlen]
    obtain ⟨pre, post, hsplit, hpost, hloop⟩ :=
      wordwise_loop_spec impl2 le hp data2.length data2 (Nat.le_refl _)
        impl2.accum ha
    have hpre : pre ≠ [] := by
      intro hnil
      rw [hnil, List.nil_append] at hsplit
      rw [hsplit] at hlen
      omega
    have hflt : pre.foldl (crc_bytestep impl2) impl2.accum < 2 ^ 64 :=
      fold_byte_lt hp pre ha
    rw [hloop]
    show crcu64_impl_update_bytewise
        { impl2 with
          accum := if le != impl2.refin then
              crc_u64_byteswap (if le != impl2.refin then
                crc_u64_byteswap (pre.foldl (crc_bytestep impl2) impl2.accum)
              else pre.foldl (crc_bytestep impl2) impl2.accum)
            else (if le != impl2.refin then
                crc_u64_byteswap (pre.foldl (crc_bytestep impl2) impl2.accum)
              else pre.foldl (crc_bytestep impl2) impl2.accum),
          dirty := true } post = crcu64_impl_update_bitwise impl2 data2
    have hacc : (if le != impl2.refin then
        crc_u64_byteswap (if le != impl2.refin then
          crc_u64_byteswap (pre.foldl (crc_bytestep impl2) impl2.accum)
        else pre.foldl (crc_bytestep impl2) impl2.accum)
      else (if le != impl2.refin then
          crc_u64_byteswap (pre.foldl (crc_bytestep impl2) impl2.accum)
        else pre.foldl (crc_bytestep impl2) impl2.accum)) =
        pre.foldl (crc_bytestep impl2) impl2.accum := by
      by_cases hm : (le != impl2.refin) = true
      · rw [if_pos hm, if_pos hm, byteswap_involution hflt]
      · rw [if_neg hm, if_neg hm]
    rw [hacc]
    have hfold : pre.foldl (crc_bytestep impl2) impl2.accum =
        pre.foldl (fun x b => crcu64_update_byte_bitwise impl2.refin
          impl2.poly x b.val) impl2.accum :=
      fold_bytewise_eq_bitwise impl2 hp pre impl2.accum ha
    rw [hfold, update_bitwise_of_ne_nil hpre]
    have hp2 : (crcu64_impl_update_bitwise impl2 pre).poly < 2 ^ 64 := by
      rw [update_bitwise_poly]
      exact hp
    have ha2 : (crcu64_impl_update_bitwise impl2 pre).accum < 2 ^ 64 :=
      update_bitwise_accum_lt hp ha pre
    rw [update_bytewise_eq_bitwise _ hp2 ha2, update_bitwise_append,
      ← hsplit]
  · rw [if_neg hlen]
    exact update_bytewise_eq_bitwise impl2 hp ha data2

/-- The wordwise kernel is state-for-state equal to the bitwise kernel,
for any host endianness and buffer alignment. -/
theorem update_wordwise_eq_bitwise (le : Bool) (addr : Nat)
    (impl : crcu64_impl) (data : List (Fin 256)) (hp : impl.poly < 2 ^ 64)
    (ha : impl.accum < 2 ^ 64) :
    crcu64_impl_update_wordwise le addr impl data =
      crcu64_impl_update_bitwise impl data := by
  unfold crcu64_impl_update_wordwise
  by_cases hemp : data.isEmpty = true
  · have hnil : data = [] := by
      rcases data with _ | ⟨b, data⟩
      · rfl
      · simp at hemp
    subst hnil
    rfl
  · rw [if_neg hemp]
    have hp2 : (crcu64_impl_update_bytewise impl (data.take
        (if addr % 8 ≠ 0 then min (8 - addr % 8) data.length else 0))).poly <
        2 ^ 64 := by
      rw [update_bytewise_eq_bitwise impl hp ha, update_bitwise_poly]
      exact hp
    have ha2 : (crcu64_impl_update_bytewise impl (data.take
        (if addr % 8 ≠ 0 then min (8 - addr % 8) data.length else 0))).accum <
        2 ^ 64 := by
      rw [update_bytewise_eq_bitwise impl hp ha]
      exact update_bitwise_accum_lt hp ha _
    refine Eq.trans (update_wordwise_core le _ hp2 ha2 (data.drop
      (if addr % 8 ≠ 0 then min (8 - addr % 8) data.length else 0))) ?_
    rw [update_bytewise_eq_bitwise impl hp ha, update_bitwise_append,
      List.take_append_drop]

/-! ### Configuration bounds and kernel dispatch -/

theorem bitswap_lt (word width : Nat) : crc_u64_bitswap word width < 2 ^ 64 := by
  unfold crc_u64_bitswap
  exact Nat.lt_of_le_of_lt (shiftRight_le_self _ _)
    (swapStage_lt (by norm_num) (by norm_num) _ _)

theorem internalize_lt (impl : crcu64_impl) (v : Nat) :
    crcu64_impl_internalize impl v < 2 ^ 64 := by
  unfold crcu64_impl_internalize
  split
  · exact bitswap_lt _ _
  · exact trunc64_lt _

theorem configure_ok_bounds {config : crc_config} {impl : crcu64_impl}
    (h : crcu64_impl_configure config = Except.ok impl) :
    impl.poly < 2 ^ 64 ∧ impl.accum < 2 ^ 64 := by
  unfold crcu64_impl_configure at h
  by_cases h1 : config.width > 64 ∨ config.width = 0
  · rw [if_pos h1] at h
    exact Except.noConfusion h
  rw [if_neg h1] at h
  by_cases h2 : config.poly > crc_u64_bitmask config.width ∨ config.poly = 0
  · rw [if_pos h2] at h
    exact Except.noConfusion h
  rw [if_neg h2] at h
  by_cases h3 : config.init > crc_u64_bitmask config.width
  · rw [if_pos h3] at h
    exact Except.noConfusion h
  rw [if_neg h3] at h
  by_cases h4 : config.xorout > crc_u64_bitmask config.width
  · rw [if_pos h4] at h
    exact Except.noConfusion h
  rw [if_neg h4] at h
  cases h
  exact ⟨internalize_lt _ _, internalize_lt _ _⟩

/-- Dispatching any of the three kernels on a state with in-range `poly`
and `accum` is state-for-state the bitwise kernel. -/
theorem run_update_eq_bitwise (k : UpdateKernel) {impl : crcu64_impl}
    (hp : impl.poly < 2 ^ 64) (ha : impl.accum < 2 ^ 64)
    (data : List (Fin 256)) :
    crcu64_run_update k impl data = crcu64_impl_update_bitwise impl data := by
  cases k with
  | bitwise => rfl
  | bytewise => exact update_bytewise_eq_bitwise impl hp ha data
  | wordwise le addr => exact update_wordwise_eq_bitwise le addr impl data hp ha

/-! ### Concrete configurations and inputs used by the claim theorems -/

/-- The nine ASCII bytes of the reveng check string "123456789". -/
def checkBytes : List (Fin 256) :=
  [0x31, 0x32, 0x33, 0x34, 0x35, 0x36, 0x37, 0x38, 0x39]

/-- Placeholder configuration used only as the `List.getD` default. -/
def cfg_default : crc_config :=
  { poly := 0, init := 0, xorout := 0, width := 0, refin := false
    refout := false }

/-- The catalogue crc-32 / iso-hdlc configuration (template id 99). -/
def cfg32_iso_hdlc : crc_config :=
  { poly := 0x04C11DB7, init := 0xFFFFFFFF, xorout := 0xFFFFFFFF, width := 32
    refin := true, refout := true }

/-- The catalogue crc-32c / iscsi configuration (template id 98). -/
def cfg32_iscsi : crc_config :=
  { poly := 0x1EDC6F41, init := 0xFFFFFFFF, xorout := 0xFFFFFFFF, width := 32
    refin := true, refout := true }

/-- The catalogue crc-16 / arc configuration (template id 49). -/
def cfg16_arc : crc_config :=
  { poly := 0x8005, init := 0, xorout := 0, width := 16
    refin := true, refout := true }

/-- The catalogue crc-16-xmodem configuration (template id 79). -/
def cfg16_xmodem : crc_config :=
  { poly := 0x1021, init := 0, xorout := 0, width := 16
    refin := false, refout := false }

/-- The catalogue crc-64-xz configuration (template id 111). -/
def cfg64_xz : crc_config :=
  { poly := 0x42F0E1EBA9EA3693, init := 0xFFFFFFFFFFFFFFFF
    xorout := 0xFFFFFFFFFFFFFFFF, width := 64, refin := true, refout := true }

/-- The catalogue crc-8-smbus configuration (template id 32). -/
def cfg8_smbus : crc_config :=
  { poly := 0x07, init := 0, xorout := 0, width := 8
    refin := false, refout := false }

/-! ### C1 -/

/-- C1: for every configuration in the template catalogue and every byte
string (including the empty string), engines using the bitwise, bytewise
and wordwise slicing-by-8 kernels (for either host endianness and any
buffer alignment) compute identical digest values after consuming the
string. -/
theorem claim_C1_kernel_equivalence (config : crc_config)
    (hc : config ∈ crc_templates) (k1 k2 : UpdateKernel)
    (data : List (Fin 256)) :
    crc_oneshot config k1 data = crc_oneshot config k2 data := by
  have h : ∀ k, crc_oneshot config k data =
      crc_oneshot config UpdateKernel.bitwise data := by
    intro k
    unfold crc_oneshot
    cases hcfg : crcu64_impl_configure config with
    | error e => rfl
    | ok impl =>
      obtain ⟨hp, ha⟩ := configure_ok_bounds hcfg
      show (crcu64_impl_digest (crcu64_run_update k impl data)).1 =
        (crcu64_impl_digest
          (crcu64_run_update UpdateKernel.bitwise impl data)).1
      rw [run_update_eq_bitwise k hp ha]
      rfl
  rw [h k1, h k2]

theorem claim_C1_kernel_equivalence_witness :
    cfg16_arc ∈ crc_templates ∧
      crc_oneshot cfg16_arc (UpdateKernel.wordwise true 3) checkBytes =
        crc_oneshot cfg16_arc UpdateKernel.bytewise checkBytes :=
  ⟨by decide, claim_C1_kernel_equivalence cfg16_arc (by decide)
    (UpdateKernel.wordwise true 3) UpdateKernel.bytewise checkBytes⟩

/-! ### C3 -/

/-- C3: each template of the concrete-scenario table, fed the nine ASCII
bytes of "123456789", produces the listed check value; the configurations
are the corresponding entries of the template catalogue (at the C enum
indices of their template ids). -/
theorem claim_C3_check_values :
    (crc_templates.getD 99 cfg_default = cfg32_iso_hdlc ∧
      crc_oneshot cfg32_iso_hdlc UpdateKernel.bitwise checkBytes =
        0xCBF43926) ∧
    (crc_templates.getD 98 cfg_default = cfg32_iscsi ∧
      crc_oneshot cfg32_iscsi UpdateKernel.bitwise checkBytes = 0xE3069283) ∧
    (crc_templates.getD 49 cfg_default = cfg16_arc ∧
      crc_oneshot cfg16_arc UpdateKernel.bitwise checkBytes = 0xBB3D) ∧
    (crc_templates.getD 79 cfg_default = cfg16_xmodem ∧
      crc_oneshot cfg16_xmodem UpdateKernel.bitwise checkBytes = 0x31C3) ∧
    (crc_templates.getD 111 cfg_default = cfg64_xz ∧
      crc_oneshot cfg64_xz UpdateKernel.bitwise checkBytes =
        0x995DC9BBDF1939FA) ∧
    (crc_templates.getD 32 cfg_default = cfg8_smbus ∧
      crc_oneshot cfg8_smbus UpdateKernel.bitwise checkBytes = 0xF4) := by
  decide

/-! ### C6 -/

/-- C6: the combine facade is side-effect-free on the caller's engine —
for every engine object and all argument values, the engine returned
alongside the combine result is the unchanged input object (accumulator,
dirty flag, cached digest and configuration included). -/
theorem claim_C6_combine_frame_effect (obj : crcu64object)
    (c1 c2 len2 : Nat) :
    (crcu64_combine_facade obj c1 c2 len2).2 = obj := by
  unfold crcu64_combine_facade
  by_cases h1 : c1 > crc_u64_bitmask obj.impl.width
  · rw [if_pos h1]
  · rw [if_neg h1]
    by_cases h2 : c2 > crc_u64_bitmask obj.impl.width
    · rw [if_pos h2]
    · rw [if_neg h2]

/-! ### C8 -/

/-- C8: for every configuration, kernel and split of an input into two
chunks, updating with the chunks separately and then taking the digest
agrees with updating once with their concatenation. -/
theorem claim_C8_chunk_independence (config : crc_config) (k : UpdateKernel)
    (obj : crcu64object) (hobj : crc_new config k = Except.ok obj)
    (s1 s2 : List (Fin 256)) :
    (crc_digest (crc_update (crc_update obj s1) s2)).1 =
      (crc_digest (crc_update obj (s1 ++ s2))).1 := by
  have himpl : crcu64_impl_configure config = Except.ok obj.impl := by
    unfold crc_new at hobj
    cases hcfg : crcu64_impl_configure config with
    | error e =>
      rw [hcfg] at hobj
      exact Except.noConfusion hobj
    | ok impl =>
      rw [hcfg] at hobj
      cases hobj
      rfl
  obtain ⟨hp, ha⟩ := configure_ok_bounds himpl
  have hp1 : (crcu64_impl_update_bitwise obj.impl s1).poly < 2 ^ 64 := by
    rw [update_bitwise_poly]
    exact hp
  have ha1 : (crcu64_impl_update_bitwise obj.impl s1).accum < 2 ^ 64 :=
    update_bitwise_accum_lt hp ha s1
  show (crcu64_impl_digest (crcu64_run_update obj.kernel
      (crcu64_run_update obj.kernel obj.impl s1) s2)).1 =
    (crcu64_impl_digest (crcu64_run_update obj.kernel obj.impl
      (s1 ++ s2))).1
  rw [run_update_eq_bitwise obj.kernel hp ha s1,
    run_update_eq_bitwise obj.kernel hp1 ha1 s2, update_bitwise_append,
    run_update_eq_bitwise obj.kernel hp ha (s1 ++ s2)]

/-- The engine state built from the crc-16/arc template (poly internalized
to its bit-reversed form 0xA001). -/
def c8impl : crcu64_impl :=
  { init := 0, poly := 0xA001, accum := 0, xorout := 0, result := 0,
    width := 16, refin := true, refout := true, dirty := false }

/-- The engine object built from the crc-16/arc template with the bytewise
kernel. -/
def c8obj : crcu64object :=
  { impl := c8impl, kernel := UpdateKernel.bytewise }

theorem claim_C8_chunk_independence_witness :
    crc_new cfg16_arc UpdateKernel.bytewise = Except.ok c8obj ∧
      (crc_digest (crc_update (crc_update c8obj [0x31, 0x32])
        [0x33, 0x34, 0x35])).1 =
      (crc_digest (crc_update c8obj ([0x31, 0x32] ++ [0x33, 0x34, 0x35]))).1 :=
  ⟨by decide, claim_C8_chunk_independence cfg16_arc UpdateKernel.bytewise
    c8obj (by decide) [0x31, 0x32] [0x33, 0x34, 0x35]⟩

/-! ### C10 -/

/-- C10: for every engine state and every pair of checksum values, calling
`crcu64_combine` with a second length of zero returns the first checksum
unchanged and leaves the state untouched, regardless of the second
checksum: no un-finalization and no zero-byte feeding is performed. -/
theorem claim_C10_combine_len2_zero (kernel : UpdateKernel)
    (impl : crcu64_impl) (c1 c2 : Nat) :
    crcu64_combine kernel impl c1 c2 0 = (c1, impl) := rfl

/-! ### C2 -/

/-- C2: the claimed identity `combine(crc(A), crc(B), len(B)) = crc(A ‖ B)`
fails on the catalogue crc-32 configuration at `A = ""`, `B = "a"`: a fresh
engine's digest is the raw nominal `init` (the cached `result` is set to
`config->init` without finalization), and combining that value with
`crc("a")` does not reproduce `crc("a")`. -/
theorem claim_C2_combine_counterexample :
    cfg32_iso_hdlc ∈ crc_templates ∧
      crc_combine_oneshot cfg32_iso_hdlc UpdateKernel.bitwise
          (crc_oneshot cfg32_iso_hdlc UpdateKernel.bitwise [])
          (crc_oneshot cfg32_iso_hdlc UpdateKernel.bitwise [0x61]) 1 ≠
        crc_oneshot cfg32_iso_hdlc UpdateKernel.bitwise ([] ++ [0x61]) := by
  decide

/-! ### C4 -/

/-- The engine state built from the crc-8-smbus template (poly internalized
to the left-aligned form 0x07 << 56). -/
def c4impl : crcu64_impl :=
  { init := 0, poly := 0x0700000000000000, accum := 0, xorout := 0,
    result := 0, width := 8, refin := false, refout := false,
    dirty := false }

/-- The engine object built from the crc-8-smbus template with the
bytewise kernel. -/
def c4obj : crcu64object :=
  { impl := c4impl, kernel := UpdateKernel.bytewise }

/-- C4: the claimed invariant `digest() ≤ bitmask(width)` is violated by a
reachable state: `clear` with the user-supplied initial value 0x1234 on a
width-8 engine stores the value unchecked (the C code only `assert`s the
range), and the next `digest()` returns 0x1234 > bitmask(8) = 0xFF. -/
theorem claim_C4_digest_exceeds_bitmask :
    crc_new cfg8_smbus UpdateKernel.bytewise = Except.ok c4obj ∧
      (crc_digest (crc_clear_with_init c4obj 0x1234)).1 = 0x1234 ∧
      crc_u64_bitmask c4obj.impl.width < 0x1234 := by
  decide

/-! ### C5 -/

/-- Whether one entry of the sorted name table is found by the binary
search that the C code performs. -/
def name_lookup_ok (e : Option (List Nat) × Nat) : Bool :=
  match e.1 with
  | none => true
  | some n => crc_find_id n == FindOutcome.found e.2

/-- C5: catalogue lookup finds every name present in the table, but for
absent names that sort before the first entry (e.g. "a", or the empty
name) or after the last entry (e.g. "zz") the binary search reads the NULL
sentinel entry — because `right` starts at the sentinel's index — instead
of reporting the not-found outcome; dereferencing the sentinel's NULL name
is undefined behavior in the C code. -/
theorem claim_C5_lookup_boundary_undef :
    crc_name_ids.all name_lookup_ok = true ∧
      crc_find_id [] = FindOutcome.undef ∧
      crc_find_id [0x61] = FindOutcome.undef ∧
      crc_find_id [0x7A, 0x7A] = FindOutcome.undef ∧
      FindOutcome.undef ≠ FindOutcome.notFound := by
  decide

/-! ### C7 -/

/-- C7: configuration validation succeeds exactly when `width ∈ [1, 64]`,
`poly ∈ [1, bitmask(width)]`, `init ≤ bitmask(width)` and
`xorout ≤ bitmask(width)`; each violation is reported with its precise
error kind in the order width, poly, init, xorout; and a successful
configuration starts the engine with the accumulator equal to the
internalized `init`. -/
theorem claim_C7_configure_validation (config : crc_config) :
    ((∃ impl, crcu64_impl_configure config = Except.ok impl) ↔
      1 ≤ config.width ∧ config.width ≤ 64 ∧ 1 ≤ config.poly ∧
      config.poly ≤ crc_u64_bitmask config.width ∧
      config.init ≤ crc_u64_bitmask config.width ∧
      config.xorout ≤ crc_u64_bitmask config.width) ∧
    (∀ impl, crcu64_impl_configure config = Except.ok impl →
      impl.accum = crcu64_impl_internalize impl config.init) ∧
    (¬(1 ≤ config.width ∧ config.width ≤ 64) →
      crcu64_impl_configure config = Except.error "width out of range") ∧
    (1 ≤ config.width ∧ config.width ≤ 64 →
      ¬(1 ≤ config.poly ∧ config.poly ≤ crc_u64_bitmask config.width) →
      crcu64_impl_configure config = Except.error "poly out of range") ∧
    (1 ≤ config.width ∧ config.width ≤ 64 →
      1 ≤ config.poly ∧ config.poly ≤ crc_u64_bitmask config.width →
      crc_u64_bitmask config.width < config.init →
      crcu64_impl_configure config = Except.error "init out of range") ∧
    (1 ≤ config.width ∧ config.width ≤ 64 →
      1 ≤ config.poly ∧ config.poly ≤ crc_u64_bitmask config.width →
      config.init ≤ crc_u64_bitmask config.width →
      crc_u64_bitmask config.width < config.xorout →
      crcu64_impl_configure config = Except.error "xorout out of range") := by
  by_cases h1 : config.width > 64 ∨ config.width = 0
  · have hw : ¬(1 ≤ config.width ∧ config.width ≤ 64) := by omega
    have hcfg : crcu64_impl_configure config =
        Except.error "width out of range" := by
      unfold crcu64_impl_configure
      rw [if_pos h1]
    refine ⟨⟨?_, ?_⟩, ?_, ?_, ?_, ?_, ?_⟩
    · rintro ⟨impl, h⟩
      rw [hcfg] at h
      exact Except.noConfusion h
    · intro hb
      exact absurd ⟨hb.1, hb.2.1⟩ hw
    · intro impl h
      rw [hcfg] at h
      exact Except.noConfusion h
    · intro _
      exact hcfg
    · intro hb _
      exact absurd hb hw
    · intro hb _ _
      exact absurd hb hw
    · intro hb _ _ _
      exact absurd hb hw
  · have hw : 1 ≤ config.width ∧ config.width ≤ 64 := by omega
    by_cases h2 : config.poly > crc_u64_bitmask config.width ∨
        config.poly = 0
    · have hpo : ¬(1 ≤ config.poly ∧
          config.poly ≤ crc_u64_bitmask config.width) := by omega
      have hcfg : crcu64_impl_configure config =
          Except.error "poly out of range" := by
        unfold crcu64_impl_configure
        rw [if_neg h1, if_pos h2]
      refine ⟨⟨?_, ?_⟩, ?_, ?_, ?_, ?_, ?_⟩
      · rintro ⟨impl, h⟩
        rw [hcfg] at h
        exact Except.noConfusion h
      · intro hb
        exact absurd ⟨hb.2.2.1, hb.2.2.2.1⟩ hpo
      · intro impl h
        rw [hcfg] at h
        exact Except.noConfusion h
      · intro hnw
        exact absurd hw hnw
      · intro _ _
        exact hcfg
      · intro _ hb _
        exact absurd hb hpo
      · intro _ hb _ _
        exact absurd hb hpo
    · have hpo : 1 ≤ config.poly ∧
          config.poly ≤ crc_u64_bitmask config.width := by omega
      by_cases h3 : config.init > crc_u64_bitmask config.width
      · have hcfg : crcu64_impl_configure config =
            Except.error "init out of range" := by
          unfold crcu64_impl_configure
          rw [if_neg h1, if_neg h2, if_pos h3]
        refine ⟨⟨?_, ?_⟩, ?_, ?_, ?_, ?_, ?_⟩
        · rintro ⟨impl, h⟩
          rw [hcfg] at h
          exact Except.noConfusion h
        · intro hb
          omega
        · intro impl h
          rw [hcfg] at h
          exact Except.noConfusion h
        · intro hnw
          exact absurd hw hnw
        · intro _ hnp
          exact absurd hpo hnp
        · intro _ _ _
          exact hcfg
        · intro _ _ hi _
          omega
      · by_cases h4 : config.xorout > crc_u64_bitmask config.width
        · have hcfg : crcu64_impl_configure config =
              Except.error "xorout out of range" := by
            unfold crcu64_impl_configure
            rw [if_neg h1, if_neg h2, if_neg h3, if_pos h4]
          refine ⟨⟨?_, ?_⟩, ?_, ?_, ?_, ?_, ?_⟩
          · rintro ⟨impl, h⟩
            rw [hcfg] at h
            exact Except.noConfusion h
          · intro hb
            omega
          · intro impl h
            rw [hcfg] at h
            exact Except.noConfusion h
          · intro hnw
            exact absurd hw hnw
          · intro _ hnp
            exact absurd hpo hnp
          · intro _ _ hi
            omega
          · intro _ _ _ _
            exact hcfg
        · rcases hcase : crcu64_impl_configure config with e | impl
          · exfalso
            unfold crcu64_impl_configure at hcase
            rw [if_neg h1, if_neg h2, if_neg h3, if_neg h4] at hcase
            exact Except.noConfusion hcase
          · have haccum : impl.accum =
                crcu64_impl_internalize impl config.init := by
              unfold crcu64_impl_configure at hcase
              rw [if_neg h1, if_neg h2, if_neg h3, if_neg h4] at hcase
              cases hcase
              rfl
            refine ⟨⟨?_, ?_⟩, ?_, ?_, ?_, ?_, ?_⟩
            · intro _
              exact ⟨hw.1, hw.2, hpo.1, hpo.2, by omega, by omega⟩
            · intro _
              exact ⟨impl, rfl⟩
            · intro impl2 h2
              cases h2
              exact haccum
            · intro hnw
              exact absurd hw hnw
            · intro _ hnp
              exact absurd hpo hnp
            · intro _ _ hi
              omega
            · intro _ _ _ hx
              omega

/-! ### C9 -/

/-- The catalogue crc-16-genibus configuration (template id 57). -/
def cfg16_genibus : crc_config :=
  { poly := 0x1021, init := 0xFFFF, xorout := 0xFFFF, width := 16
    refin := false, refout := false }

/-- The catalogue crc-16-ibm-3740 configuration (template id 59). -/
def cfg16_ibm3740 : crc_config :=
  { poly := 0x1021, init := 0xFFFF, xorout := 0x0000, width := 16
    refin := false, refout := false }

/-- C9 (amended): the lookup tables an engine tabulates are determined by
the internalized `poly` and `refin` alone (hence by the nominal
`(width, poly, refin)`) — engines differing only in `refout`/`xorout`
build identical table contents. -/
theorem claim_C9_tables_determined_by_poly_refin (i1 i2 : crcu64_impl)
    (hw : i1.width = i2.width) (hpo : i1.poly = i2.poly)
    (hr : i1.refin = i2.refin) (le : Bool) :
    crcu64_impl_tabulate_bytewise i1 = crcu64_impl_tabulate_bytewise i2 ∧
      crcu64_impl_tabulate_wordwise le i1 =
        crcu64_impl_tabulate_wordwise le i2 := by
  have hb : crcu64_impl_tabulate_bytewise i1 =
      crcu64_impl_tabulate_bytewise i2 := by
    funext byte
    unfold crcu64_impl_tabulate_bytewise crcu64_impl_update_word
    rw [if_neg (by norm_num : ¬(8 = 0)), if_neg (by norm_num : ¬(8 = 0))]
    dsimp only
    rw [hpo, hr]
  refine ⟨hb, ?_⟩
  funext s b
  unfold crcu64_impl_tabulate_wordwise
  dsimp only
  rw [hb, hr]

/-- Engine state of crc-16-genibus after configuration. -/
def c9impl1 : crcu64_impl :=
  { init := 0xFFFF000000000000, poly := 0x1021000000000000,
    accum := 0xFFFF000000000000, xorout := 0xFFFF, result := 0xFFFF,
    width := 16, refin := false, refout := false, dirty := false }

/-- Engine state of crc-16-ibm-3740 after configuration: it differs from
crc-16-genibus only in `xorout` (and the cached `result`). -/
def c9impl2 : crcu64_impl :=
  { init := 0xFFFF000000000000, poly := 0x1021000000000000,
    accum := 0xFFFF000000000000, xorout := 0, result := 0,
    width := 16, refin := false, refout := false, dirty := false }

theorem claim_C9_tables_witness :
    (c9impl1.width = c9impl2.width ∧ c9impl1.poly = c9impl2.poly ∧
      c9impl1.refin = c9impl2.refin ∧ c9impl1.xorout ≠ c9impl2.xorout) ∧
    (crcu64_impl_tabulate_bytewise c9impl1 =
        crcu64_impl_tabulate_bytewise c9impl2 ∧
      crcu64_impl_tabulate_wordwise true c9impl1 =
        crcu64_impl_tabulate_wordwise true c9impl2) :=
  ⟨by decide, claim_C9_tables_determined_by_poly_refin c9impl1 c9impl2
    (by decide) (by decide) (by decide) true⟩

/-- C9 (counterexample to the claim as stated): the table cache key built
by `crcu64_apply_method` is the raw bytes of the whole `crc_config`
struct, so the two catalogue templates crc-16-genibus and crc-16-ibm-3740
— identical `(width, poly, refin)`, different `xorout` — get different
cache keys and therefore do not share their (identical) tables by
reference. -/
theorem claim_C9_cache_key_counterexample :
    cfg16_genibus ∈ crc_templates ∧ cfg16_ibm3740 ∈ crc_templates ∧
      cfg16_genibus.width = cfg16_ibm3740.width ∧
      cfg16_genibus.poly = cfg16_ibm3740.poly ∧
      cfg16_genibus.refin = cfg16_ibm3740.refin ∧
      crcu64_table_key cfg16_genibus ≠ crcu64_table_key cfg16_ibm3740 := by
  decide

end CrcModule
